import Mathlib

/-!
# kat numpad mouse daemon: a shallow embedding of `src/kat.c`

The daemon grabs the physical keyboards, routes every key event through a
chain of handlers and writes synthesized events to two virtual devices.

Modelling conventions used throughout:

* C `int` values are `Int`, C `double` values are exact rationals `ℚ`
  (so `0.1` is `1/10`); `(int)x` on a double is `c_int`, C `%` and `/` on
  ints are `Int.tmod` and `Int.tdiv`. Where a property depends on the
  rounding of a `double` or on NaN, the function is given a second time over
  `c_double`, with binary64 rounding (`get_scroll_speed_delta_f64`,
  `adjust_double_value`, `atof_f64`).
* The process-wide `state`, the `panel` record, the local `last_ctrl_press`
  of `main` and the UI globals are gathered in one record `World`, which
  also carries append-only logs of everything the code writes to the outside
  (the two uinput devices, popups, pointer warps, config saves, sleeps).
* `get_time()` and the X11 queries are inputs of a step, gathered in `Env`.
  One processed event reads one clock value.
* Threads, mutexes, file descriptors and X11 drawing are not modelled.
-/

namespace Kat

/-! ## Constants of `linux/input-event-codes.h` used by the source -/

@[simp] def EV_SYN : Nat := 0
@[simp] def EV_KEY : Nat := 1
@[simp] def EV_REL : Nat := 2
@[simp] def SYN_REPORT : Nat := 0
@[simp] def REL_WHEEL : Nat := 8
@[simp] def REL_WHEEL_HI_RES : Nat := 11
@[simp] def BTN_LEFT : Nat := 272
@[simp] def BTN_RIGHT : Nat := 273
@[simp] def BTN_MIDDLE : Nat := 274
@[simp] def KEY_ESC : Nat := 1
@[simp] def KEY_EQUAL : Nat := 13
@[simp] def KEY_LEFTCTRL : Nat := 29
@[simp] def KEY_A : Nat := 30
@[simp] def KEY_LEFTSHIFT : Nat := 42
@[simp] def KEY_RIGHTSHIFT : Nat := 54
@[simp] def KEY_KPASTERISK : Nat := 55
@[simp] def KEY_LEFTALT : Nat := 56
@[simp] def KEY_NUMLOCK : Nat := 69
@[simp] def KEY_KP7 : Nat := 71
@[simp] def KEY_KP8 : Nat := 72
@[simp] def KEY_KP9 : Nat := 73
@[simp] def KEY_KPMINUS : Nat := 74
@[simp] def KEY_KP4 : Nat := 75
@[simp] def KEY_KP5 : Nat := 76
@[simp] def KEY_KP6 : Nat := 77
@[simp] def KEY_KPPLUS : Nat := 78
@[simp] def KEY_KP1 : Nat := 79
@[simp] def KEY_KP2 : Nat := 80
@[simp] def KEY_KP3 : Nat := 81
@[simp] def KEY_KP0 : Nat := 82
@[simp] def KEY_KPDOT : Nat := 83
@[simp] def KEY_KPENTER : Nat := 96
@[simp] def KEY_RIGHTCTRL : Nat := 97
@[simp] def KEY_KPSLASH : Nat := 98
@[simp] def KEY_RIGHTALT : Nat := 100
@[simp] def KEY_UP : Nat := 103
@[simp] def KEY_LEFT : Nat := 105
@[simp] def KEY_RIGHT : Nat := 106
@[simp] def KEY_DOWN : Nat := 108

@[simp] def DOUBLE_PRESS_THRESHOLD : ℚ := 3 / 10
@[simp] def ALT_DOUBLE_THRESHOLD : ℚ := 3 / 10

/-! ## The three clock tests of the router

Each is the inline comparison of the source, given a name so that proofs
can treat it as one condition. -/

/-- The test `time_since_last < DOUBLE_PRESS_THRESHOLD` of `handle_ctrl_key`,
with `time_since_last = current_time - *last_ctrl_press`. -/
def double_press (now last : ℚ) : Prop :=
  now - last < DOUBLE_PRESS_THRESHOLD

instance (now last : ℚ) : Decidable (double_press now last) := by
  unfold double_press; infer_instance

/-- The test `(now - last_alt_press) < ALT_DOUBLE_THRESHOLD &&
(now - last_alt_press) > 0.01` of `handle_alt_key`. -/
def alt_double_press (now last : ℚ) : Prop :=
  now - last < ALT_DOUBLE_THRESHOLD ∧ now - last > 1 / 100

instance (now last : ℚ) : Decidable (alt_double_press now last) := by
  unfold alt_double_press; infer_instance

/-- The debounce test `now - last_autoscroll_feedback > 0.8`. -/
def feedback_due (now last : ℚ) : Prop :=
  now - last > 8 / 10

instance (now last : ℚ) : Decidable (feedback_due now last) := by
  unfold feedback_due; infer_instance

/-! ## Data model -/

/-- The `struct input_event` triple (the timestamp is not modelled). -/
structure input_event where
  type : Nat
  code : Nat
  value : Int
  deriving DecidableEq, Repr

/-- The thirteen tunables of `Config`. -/
structure Config where
  mouse_speed : Int
  movement_interval_slow_ms : Int
  movement_interval_fast_ms : Int
  movement_acceleration_time : ℚ
  jump_horizontal : Int
  jump_vertical : Int
  jump_diagonal : Int
  jump_margin : Int
  jump_interval_ms : Int
  scroll_speed : ℚ
  scroll_interval_ms : Int
  autoscroll_speed : ℚ
  autoscroll_interval_ms : Int
  deriving DecidableEq

/-- One row of `config_items` (the `value` pointer is modelled by
`cfg_int`, `cfg_double` and their setters; `bit` is `1u << index`). -/
structure ConfigItem where
  name : String
  fmt : String
  is_double : Bool
  min_val : ℚ
  unit : String
  shortcut : String
  bit : Nat

def config_items : List ConfigItem :=
  [ ⟨"MOUSE_SPEED", "%d", false, 1, "px", "(Shift)+Alt+NumLock", 1⟩,
    ⟨"MOVEMENT_INTERVAL_SLOW_MS", "%d", false, 1, "ms", "(Shift)+Alt+Asterisk", 2⟩,
    ⟨"MOVEMENT_INTERVAL_FAST_MS", "%d", false, 1, "ms", "(Shift)+Alt+Hyphen", 4⟩,
    ⟨"MOVEMENT_ACCELERATION_TIME", "%.1f", true, 1 / 10, "s", "(Shift)+Alt+Slash", 8⟩,
    ⟨"JUMP_HORIZONTAL", "%d", false, 0, "px", "Alt+6/4", 16⟩,
    ⟨"JUMP_VERTICAL", "%d", false, 0, "px", "Alt+8/2", 32⟩,
    ⟨"JUMP_DIAGONAL", "%d", false, 0, "px", "Alt+7/9 / Alt+1/3", 64⟩,
    ⟨"JUMP_MARGIN", "%d", false, 0, "px", "(Shift)+Alt+5", 128⟩,
    ⟨"JUMP_INTERVAL_MS", "%d", false, 1, "ms", "(Shift)+Alt+0", 256⟩,
    ⟨"SCROLL_SPEED", "%.2f", true, 1 / 100, "ticks", "Alt+Plus/Enter (manual)", 512⟩,
    ⟨"SCROLL_INTERVAL_MS", "%d", false, 1, "ms", "(Shift)+Alt+Period (manual)", 1024⟩,
    ⟨"AUTOSCROLL_SPEED", "%.2f", true, 1 / 100, "ticks", "Alt+Plus/Enter (auto)", 2048⟩,
    ⟨"AUTOSCROLL_INTERVAL_MS", "%d", false, 1, "ms", "(Shift)+Alt+Period (auto)", 4096⟩ ]

def num_config_items : Int := 13

/-- Read `*(int*)config_items[i].value` under the binding made by
`load_config`. -/
def cfg_int (c : Config) (i : Nat) : Int :=
  if i = 0 then c.mouse_speed
  else if i = 1 then c.movement_interval_slow_ms
  else if i = 2 then c.movement_interval_fast_ms
  else if i = 4 then c.jump_horizontal
  else if i = 5 then c.jump_vertical
  else if i = 6 then c.jump_diagonal
  else if i = 7 then c.jump_margin
  else if i = 8 then c.jump_interval_ms
  else if i = 10 then c.scroll_interval_ms
  else if i = 12 then c.autoscroll_interval_ms
  else 0

/-- Write `*(int*)config_items[i].value`. -/
def cfg_set_int (c : Config) (i : Nat) (v : Int) : Config :=
  if i = 0 then { c with mouse_speed := v }
  else if i = 1 then { c with movement_interval_slow_ms := v }
  else if i = 2 then { c with movement_interval_fast_ms := v }
  else if i = 4 then { c with jump_horizontal := v }
  else if i = 5 then { c with jump_vertical := v }
  else if i = 6 then { c with jump_diagonal := v }
  else if i = 7 then { c with jump_margin := v }
  else if i = 8 then { c with jump_interval_ms := v }
  else if i = 10 then { c with scroll_interval_ms := v }
  else if i = 12 then { c with autoscroll_interval_ms := v }
  else c

/-- Read `*(double*)config_items[i].value`. -/
def cfg_double (c : Config) (i : Nat) : ℚ :=
  if i = 3 then c.movement_acceleration_time
  else if i = 9 then c.scroll_speed
  else if i = 11 then c.autoscroll_speed
  else 0

/-- Write `*(double*)config_items[i].value`. -/
def cfg_set_double (c : Config) (i : Nat) (v : ℚ) : Config :=
  if i = 3 then { c with movement_acceleration_time := v }
  else if i = 9 then { c with scroll_speed := v }
  else if i = 11 then { c with autoscroll_speed := v }
  else c

/-- The C conversion `(int)x` of a double: truncation toward zero. -/
def c_int (q : ℚ) : Int :=
  if 0 ≤ q then ⌊q⌋ else ⌈q⌉

/-- The shared `AppState` record (descriptors, threads and the mutex are
not modelled). -/
structure AppState where
  cfg : Config
  ctrl_pressed : Bool
  alt_pressed : Bool
  shift_pressed : Bool
  mouse_mode : Bool
  numpad_keys_pressed : Fin 8 → Bool
  scroll_keys_pressed : Fin 2 → Bool
  left_button_held : Bool
  drag_locked : Bool
  autoscroll_up_active : Bool
  autoscroll_down_active : Bool
  movement_start_time : ℚ
  last_alt_press : ℚ
  last_autoscroll_feedback : ℚ
  adjust_start_times : Nat → ℚ
  left_ctrl_forwarded : Bool
  right_ctrl_forwarded : Bool
  pending_ctrl : Bool
  pending_ctrl_code : Nat

/-- The fields of `ConfigPanel` that the router reads or writes. -/
structure ConfigPanel where
  active : Bool
  last_activity_time : ℚ
  selected_row : Int
  initial_mouse_x : Int
  initial_mouse_y : Int

/-- A popup request: either a literal text, or the message
`"%s: %s %s"` that `adjust_config_value` builds from an item's name, its
value printed with the item's format, and its unit. -/
inductive Feedback where
  | text (s : String)
  | int_value (name : String) (v : Int) (unit : String)
  | double_value (name : String) (fmt : String) (v : ℚ) (unit : String)
  deriving DecidableEq

/-- Everything the router and the movement engine read or write. -/
structure World where
  state : AppState
  panel : ConfigPanel
  last_ctrl_press : ℚ
  drag_popup_visible : Bool
  margin_overlay_visible : Bool
  last_margin_adjust : ℚ
  margin_need_redraw : Bool
  adjusting_jump_type : Int
  jump_overlay_visible : Bool
  last_jump_adjust : ℚ
  jump_need_redraw : Bool
  uinput_out : List input_event
  mouse_out : List input_event
  feedback_log : List Feedback
  warp_log : List (Int × Int)
  save_log : List Config
  sleep_log : List Int

/-- What an X11 connection reports: screen size and pointer position. -/
structure XDisplay where
  scr_w : Int
  scr_h : Int
  root_x : Int
  root_y : Int
  query_ok : Bool

/-- The inputs of one step: the clock and the result of `XOpenDisplay`. -/
structure Env where
  now : ℚ
  display : Option XDisplay

/-- The defaults assigned at the top of `load_config`. -/
def default_config : Config :=
  { mouse_speed := 5, movement_interval_slow_ms := 64, movement_interval_fast_ms := 8,
    movement_acceleration_time := 4 / 10, jump_horizontal := 100, jump_vertical := 100,
    jump_diagonal := 100, jump_margin := 20, jump_interval_ms := 80, scroll_speed := 1,
    scroll_interval_ms := 100, autoscroll_speed := 1 / 100, autoscroll_interval_ms := 24 }

/-- The zero-initialised `state` (`static AppState state = {0}`) holding
configuration `c`. -/
def init_state (c : Config) : AppState :=
  { cfg := c, ctrl_pressed := false, alt_pressed := false, shift_pressed := false,
    mouse_mode := false, numpad_keys_pressed := fun _ => false,
    scroll_keys_pressed := fun _ => false, left_button_held := false, drag_locked := false,
    autoscroll_up_active := false, autoscroll_down_active := false, movement_start_time := 0,
    last_alt_press := 0, last_autoscroll_feedback := 0, adjust_start_times := fun _ => 0,
    left_ctrl_forwarded := false, right_ctrl_forwarded := false, pending_ctrl := false,
    pending_ctrl_code := 0 }

/-- The result of `init_config_panel`. -/
def init_config_panel : ConfigPanel :=
  { active := false, last_activity_time := 0, selected_row := 0, initial_mouse_x := 0,
    initial_mouse_y := 0 }

/-- The world when `main` enters its event loop with configuration `c`:
nothing has been written yet. -/
def init_world (c : Config) : World :=
  { state := init_state c, panel := init_config_panel, last_ctrl_press := 0,
    drag_popup_visible := false, margin_overlay_visible := false, last_margin_adjust := 0,
    margin_need_redraw := false, adjusting_jump_type := 0, jump_overlay_visible := false,
    last_jump_adjust := 0, jump_need_redraw := false, uinput_out := [], mouse_out := [],
    feedback_log := [], warp_log := [], save_log := [], sleep_log := [] }

/-! ## Output primitives -/

/-- The two descriptors `emit_event` is called with. -/
inductive Sink where
  | uinput
  | mouse
  deriving DecidableEq

/-- `emit_event(fd, type, code, value)`: one write to a virtual device. -/
def emit_event (fd : Sink) (type code : Nat) (value : Int) (w : World) : World :=
  match fd with
  | Sink.uinput => { w with uinput_out := w.uinput_out ++ [⟨type, code, value⟩] }
  | Sink.mouse => { w with mouse_out := w.mouse_out ++ [⟨type, code, value⟩] }

/-- `warp_mouse(dpy, x, y)`. -/
def warp_mouse (x y : Int) (w : World) : World :=
  { w with warp_log := w.warp_log ++ [(x, y)] }

/-- `usleep(us)`. -/
def usleep (us : Int) (w : World) : World :=
  { w with sleep_log := w.sleep_log ++ [us] }

/-- `show_feedback(text)`: the popup text is replaced (coalescing). -/
def show_feedback (f : Feedback) (w : World) : World :=
  { w with feedback_log := w.feedback_log ++ [f] }

/-- `save_config()`: all thirteen entries are rewritten from the live
configuration. -/
def save_config (w : World) : World :=
  { w with save_log := w.save_log ++ [w.state.cfg] }

/-- `show_drag_popup()`. -/
def show_drag_popup (w : World) : World :=
  { w with drag_popup_visible := true }

/-- `hide_drag_popup()`. -/
def hide_drag_popup (w : World) : World :=
  { w with drag_popup_visible := false }

/-- `mouse_click(button)`: press, sync, (10 ms), release, sync. -/
def mouse_click (button : Nat) (w : World) : World :=
  let w := emit_event Sink.mouse EV_KEY button 1 w
  let w := emit_event Sink.mouse EV_SYN SYN_REPORT 0 w
  let w := usleep 10000 w
  let w := emit_event Sink.mouse EV_KEY button 0 w
  emit_event Sink.mouse EV_SYN SYN_REPORT 0 w

/-- `mouse_wheel(amount)`. -/
def mouse_wheel (amount : ℚ) (w : World) : World :=
  let hi_res_value : Int := c_int (amount * 120)
  let w := emit_event Sink.mouse EV_REL REL_WHEEL_HI_RES hi_res_value w
  let full_notches : Int := hi_res_value.tdiv 120
  let w := if full_notches ≠ 0 then emit_event Sink.mouse EV_REL REL_WHEEL full_notches w else w
  emit_event Sink.mouse EV_SYN SYN_REPORT 0 w

/-! ## Adjustment helpers -/

/-- `get_step_multiplier(elapsed)`. -/
def get_step_multiplier (elapsed : ℚ) : Int :=
  if elapsed < 4 / 10 then 1
  else if elapsed < 8 / 10 then 2
  else if elapsed < 12 / 10 then 4
  else if elapsed < 16 / 10 then 8
  else if elapsed < 2 then 16
  else 32

/-- `get_scroll_speed_delta(current, multi, increase)` in exact arithmetic;
`get_scroll_speed_delta_f64` is the same function with binary64 rounding. -/
def get_scroll_speed_delta (current : ℚ) (multi : Int) (increase : Bool) : ℚ :=
  let unit : ℚ := if current ≤ 10000001 / 100000000 then 1 / 100 else 1 / 10
  let delta : ℚ := multi * unit
  if !increase then
    let delta := -delta
    if unit = 1 / 10 ∧ current + delta < 1 / 10 then -(multi * (1 / 100)) else delta
  else delta

/-- `adjust_config_value(index, step, is_live)`; an index outside the
table changes nothing. Double items are computed in exact arithmetic here;
`adjust_double_value` is the double branch with binary64 rounding and NaN. -/
def adjust_config_value (index : Nat) (step : Int) (is_live : Bool) (w : World) : World :=
  match config_items.get? index with
  | none => w
  | some item =>
    let c := w.state.cfg
    let c1 : Config :=
      if item.is_double then
        let delta : ℚ :=
          if item.name = "SCROLL_SPEED" ∨ item.name = "AUTOSCROLL_SPEED" then
            get_scroll_speed_delta (cfg_double c index) |step| (decide (step > 0))
          else step * (1 / 10)
        let v := cfg_double c index + delta
        cfg_set_double c index (if v < item.min_val then item.min_val else v)
      else
        let v := cfg_int c index + step
        cfg_set_int c index (if v < c_int item.min_val then c_int item.min_val else v)
    let w1 : World := { w with state := { w.state with cfg := c1 } }
    if is_live then
      if item.is_double then
        show_feedback (Feedback.double_value item.name item.fmt (cfg_double c1 index) item.unit) w1
      else
        show_feedback (Feedback.int_value item.name (cfg_int c1 index) item.unit) w1
    else w1

/-! ## Movement engine -/

/-- `diag_components(diag, &dx, &dy)`: the common value of both outputs.
The quotient `(diag * 7071) / 10000` is an integer division. -/
def diag_components (diag : Int) : Int × Int :=
  if diag ≤ 0 then (0, 0)
  else
    let comp : Int := c_int ((((diag * 7071).tdiv 10000 : Int) : ℚ) + 1 / 2)
    (comp, comp)

/-- The loop `for i < 8: any_numpad |= numpad_keys_pressed[i]`. -/
def any_numpad (s : AppState) : Bool :=
  s.numpad_keys_pressed 0 || s.numpad_keys_pressed 1 || s.numpad_keys_pressed 2 ||
  s.numpad_keys_pressed 3 || s.numpad_keys_pressed 4 || s.numpad_keys_pressed 5 ||
  s.numpad_keys_pressed 6 || s.numpad_keys_pressed 7

/-- The `(dx, dy)` computed from the snapshot at the top of one tick of
`movement_thread_func`. -/
def movement_delta (s : AppState) : Int × Int :=
  let do_jump := s.ctrl_pressed && any_numpad s
  let do_smooth := !s.ctrl_pressed && any_numpad s
  if do_jump || do_smooth then
    let horiz := if do_jump then s.cfg.jump_horizontal else s.cfg.mouse_speed
    let vert := if do_jump then s.cfg.jump_vertical else s.cfg.mouse_speed
    let diag := if do_jump then s.cfg.jump_diagonal else s.cfg.mouse_speed
    let dx : Int := 0
    let dy : Int := 0
    let dy := if s.numpad_keys_pressed 0 then dy - vert else dy
    let dy := if s.numpad_keys_pressed 1 then dy + vert else dy
    let dx := if s.numpad_keys_pressed 2 then dx - horiz else dx
    let dx := if s.numpad_keys_pressed 3 then dx + horiz else dx
    let c := diag_components diag
    let d4 := if s.numpad_keys_pressed 4 then (dx - c.1, dy - c.2) else (dx, dy)
    let d5 := if s.numpad_keys_pressed 5 then (d4.1 + c.1, d4.2 - c.2) else d4
    let d6 := if s.numpad_keys_pressed 6 then (d5.1 - c.1, d5.2 + c.2) else d5
    if s.numpad_keys_pressed 7 then (d6.1 + c.1, d6.2 + c.2) else d6
  else (0, 0)

/-- The wrap `(t % scr + scr) % scr` applied to each coordinate of the
warp target; `%` is the truncating remainder of C. -/
def wrap_coord (t scr : Int) : Int :=
  ((t.tmod scr) + scr).tmod scr

/-- The warp target of the movement engine for pointer `(x, y)`, delta
`(dx, dy)` and screen `(scr_w, scr_h)`. -/
def warp_target (x y dx dy scr_w scr_h : Int) : Int × Int :=
  (wrap_coord (x + dx) scr_w, wrap_coord (y + dy) scr_h)

/-- The smooth-mode sleep interval in milliseconds, for start time `start`
already fixed. -/
def smooth_interval_ms (c : Config) (now start : ℚ) : Int :=
  let elapsed := now - start
  let progress := elapsed / c.movement_acceleration_time
  let progress := if progress > 1 then 1 else progress
  c.movement_interval_slow_ms -
    c_int (((c.movement_interval_slow_ms - c.movement_interval_fast_ms : Int) : ℚ) * progress)

/-- The wheel part of one tick: `if (scroll_up || scroll_down) ...`. -/
def movement_scroll (scroll_up scroll_down : Bool) (w : World) : World :=
  if scroll_up || scroll_down then
    let s := w.state
    let direction : ℚ := if scroll_up then 1 else -1
    let auto := s.autoscroll_up_active || s.autoscroll_down_active
    let speed : ℚ := if auto then s.cfg.autoscroll_speed else s.cfg.scroll_speed
    let interval : Int := if auto then s.cfg.autoscroll_interval_ms else s.cfg.scroll_interval_ms
    usleep (interval * 1000) (mouse_wheel (direction * speed) w)
  else w

/-- One iteration of the `while (state.running)` loop of
`movement_thread_func`, at clock `now`, with `d` the answer of the display. -/
def movement_tick (now : ℚ) (d : XDisplay) (w : World) : World :=
  let s := w.state
  let scroll_up := s.scroll_keys_pressed 0 || s.autoscroll_up_active
  let scroll_down := s.scroll_keys_pressed 1 || s.autoscroll_down_active
  let do_jump := s.ctrl_pressed && any_numpad s
  let do_smooth := !s.ctrl_pressed && any_numpad s
  let dxy := movement_delta s
  if s.mouse_mode then
    if (do_jump || do_smooth) && (dxy.1 ≠ 0 || dxy.2 ≠ 0) then
      if !d.query_ok then usleep 1000 w
      else
        let t := warp_target d.root_x d.root_y dxy.1 dxy.2 d.scr_w d.scr_h
        let w := warp_mouse t.1 t.2 w
        let start := if s.movement_start_time = 0 then now else s.movement_start_time
        let w : World :=
          if do_jump then w else { w with state := { w.state with movement_start_time := start } }
        let interval_ms : Int :=
          if do_jump then s.cfg.jump_interval_ms else smooth_interval_ms s.cfg now start
        let w := usleep (interval_ms * 1000) w
        usleep 1000 (movement_scroll scroll_up scroll_down w)
    else
      let w : World := { w with state := { w.state with movement_start_time := 0 } }
      usleep 1000 (movement_scroll scroll_up scroll_down w)
  else
    usleep 1000 { w with state := { w.state with movement_start_time := 0 } }

/-! ## Panel and overlays -/

/-- The sequence repeated wherever a held left button is dropped: emit
`BTN_LEFT` 0 and a sync on the mouse sink, clear `left_button_held` and
`drag_locked`, hide the drag popup. -/
def release_left_button (w : World) : World :=
  let w := emit_event Sink.mouse EV_KEY BTN_LEFT 0 w
  let w := emit_event Sink.mouse EV_SYN SYN_REPORT 0 w
  let w : World := { w with state := { w.state with left_button_held := false, drag_locked := false } }
  hide_drag_popup w

/-- `show_margin_overlay()`. -/
def show_margin_overlay (env : Env) (w : World) : World :=
  { w with margin_overlay_visible := true, last_margin_adjust := env.now,
           margin_need_redraw := true }

/-- `hide_margin_overlay()`. -/
def hide_margin_overlay (w : World) : World :=
  { w with margin_overlay_visible := false }

/-- `show_jump_overlay(type)`. -/
def show_jump_overlay (env : Env) (type : Int) (w : World) : World :=
  if type = 0 then { w with adjusting_jump_type := type, jump_overlay_visible := false }
  else { w with adjusting_jump_type := type, jump_overlay_visible := true,
                last_jump_adjust := env.now, jump_need_redraw := true }

/-- `show_config_panel(panel)`. -/
def show_config_panel (env : Env) (w : World) : World :=
  if w.panel.active then w
  else
    let w : World := { w with panel := { w.panel with active := true } }
    let w : World := { w with state := { w.state with
      numpad_keys_pressed := fun _ => false, scroll_keys_pressed := fun _ => false,
      autoscroll_up_active := false, autoscroll_down_active := false } }
    let w := if w.state.left_button_held then release_left_button w else w
    let w : World := { w with panel := { w.panel with last_activity_time := env.now } }
    { w with panel := { w.panel with
        initial_mouse_x := (match env.display with
          | some d => d.root_x
          | none => w.panel.initial_mouse_x),
        initial_mouse_y := (match env.display with
          | some d => d.root_y
          | none => w.panel.initial_mouse_y) } }

/-- `hide_config_panel(panel)`. -/
def hide_config_panel (env : Env) (w : World) : World :=
  let w : World := { w with panel := { w.panel with active := false } }
  let w : World := { w with state := { w.state with
    autoscroll_up_active := false, autoscroll_down_active := false } }
  let w := save_config w
  let w := if w.state.left_button_held then release_left_button w else w
  let w : World := { w with panel := { w.panel with selected_row := 0 } }
  show_jump_overlay env 0 (hide_margin_overlay w)

/-- What `panel_timer_func` and `mouse_monitor_func` do when they fire:
they clear `panel->active` and nothing else. -/
def panel_expire (w : World) : World :=
  { w with panel := { w.panel with active := false } }

/-! ## Key handlers

Every handler returns the `bool` of the C function together with the world
it leaves behind. -/

/-- The C chain `if (h1(..)) consumed = true; else if (h2(..)) ...`: the
second handler runs, on the world left by the first, only when the first
returned false. -/
def else_if (h1 h2 : World → Bool × World) (w : World) : Bool × World :=
  if (h1 w).1 then (true, (h1 w).2) else h2 (h1 w).2

/-- `handle_ctrl_key(ev, &last_ctrl_press)`. -/
def handle_ctrl_key (ev : input_event) (env : Env) (w : World) : Bool × World :=
  if ev.code ≠ KEY_LEFTCTRL ∧ ev.code ≠ KEY_RIGHTCTRL then (false, w)
  else
    let w : World := { w with state := { w.state with ctrl_pressed := decide (ev.value ≠ 0) } }
    if ev.value = 1 then
      let current_time := env.now
      if double_press current_time w.last_ctrl_press then
        let mm := !w.state.mouse_mode
        let was_autoscroll :=
          !mm && (w.state.autoscroll_up_active || w.state.autoscroll_down_active)
        let w : World :=
          if !mm then
            { w with state := { w.state with mouse_mode := mm, autoscroll_up_active := false,
                                             autoscroll_down_active := false } }
          else { w with state := { w.state with mouse_mode := mm } }
        let msg : String :=
          if w.state.mouse_mode then "Mouse Mode ON"
          else if was_autoscroll then "Mouse Mode and Autoscroll OFF"
          else "Mouse Mode OFF"
        let w := show_feedback (Feedback.text msg) w
        (true, { w with last_ctrl_press := 0 })
      else
        (true, { w with last_ctrl_press := current_time,
                        state := { w.state with pending_ctrl := true,
                                                pending_ctrl_code := ev.code } })
    else if ev.value = 0 then
      if ev.code = KEY_LEFTCTRL then
        if w.state.left_ctrl_forwarded then
          let w := emit_event Sink.uinput EV_KEY ev.code 0 w
          let w := emit_event Sink.uinput EV_SYN SYN_REPORT 0 w
          (true, { w with state := { w.state with left_ctrl_forwarded := false } })
        else (true, w)
      else
        if w.state.right_ctrl_forwarded then
          let w := emit_event Sink.uinput EV_KEY ev.code 0 w
          let w := emit_event Sink.uinput EV_SYN SYN_REPORT 0 w
          (true, { w with state := { w.state with right_ctrl_forwarded := false } })
        else (true, w)
    else (false, w)

/-- `handle_alt_key(ev, panel)`. -/
def handle_alt_key (ev : input_event) (env : Env) (w : World) : Bool × World :=
  if ev.code ≠ KEY_LEFTALT ∧ ev.code ≠ KEY_RIGHTALT then (false, w)
  else
    let w : World := { w with state := { w.state with alt_pressed := decide (ev.value ≠ 0) } }
    let w : World :=
      if ev.value = 1 then
        let now := env.now
        let w :=
          if w.state.mouse_mode = true ∧ alt_double_press now w.state.last_alt_press then
            show_config_panel env w
          else w
        { w with state := { w.state with last_alt_press := now } }
      else w
    let w :=
      if !w.panel.active then
        emit_event Sink.uinput EV_SYN SYN_REPORT 0 (emit_event Sink.uinput EV_KEY ev.code ev.value w)
      else w
    (true, w)

/-- `handle_shift_key(ev)`. -/
def handle_shift_key (ev : input_event) (w : World) : Bool × World :=
  if ev.code ≠ KEY_LEFTSHIFT ∧ ev.code ≠ KEY_RIGHTSHIFT then (false, w)
  else
    let w : World := { w with state := { w.state with shift_pressed := decide (ev.value ≠ 0) } }
    let w :=
      if !(w.state.autoscroll_up_active || w.state.autoscroll_down_active) then
        emit_event Sink.uinput EV_SYN SYN_REPORT 0 (emit_event Sink.uinput EV_KEY ev.code ev.value w)
      else w
    (true, w)

/-- `handle_esc_in_panel(ev, panel)`. -/
def handle_esc_in_panel (ev : input_event) (env : Env) (w : World) : Bool × World :=
  if ev.code ≠ KEY_ESC ∨ ev.value ≠ 1 then (false, w)
  else (true, hide_config_panel env w)

/-- `disable_autoscroll_if_not_allowed(ev)`. -/
def disable_autoscroll_if_not_allowed (ev : input_event) (env : Env) (w : World) : World :=
  if ev.value ≠ 1 then w
  else
    let s := w.state
    let is_allowed : Bool :=
      decide (ev.code = KEY_LEFTCTRL) || decide (ev.code = KEY_RIGHTCTRL) ||
      decide (ev.code = KEY_LEFTALT) || decide (ev.code = KEY_RIGHTALT) ||
      decide (ev.code = KEY_LEFTSHIFT) || decide (ev.code = KEY_RIGHTSHIFT) ||
      (s.ctrl_pressed && (decide (ev.code = KEY_KPPLUS) || decide (ev.code = KEY_KPENTER) ||
        (s.shift_pressed && decide (ev.code = KEY_EQUAL)))) ||
      (s.alt_pressed && (decide (ev.code = KEY_KPPLUS) || decide (ev.code = KEY_KPENTER) ||
        (s.shift_pressed && decide (ev.code = KEY_EQUAL)) || decide (ev.code = KEY_KPDOT))) ||
      (s.alt_pressed && s.shift_pressed && decide (ev.code = KEY_KPDOT))
    if !is_allowed && (s.autoscroll_up_active || s.autoscroll_down_active) then
      let w : World := { w with state := { w.state with autoscroll_up_active := false,
                                                        autoscroll_down_active := false } }
      let now := env.now
      if feedback_due now w.state.last_autoscroll_feedback then
        show_feedback (Feedback.text "Autoscroll OFF")
          { w with state := { w.state with last_autoscroll_feedback := now } }
      else w
    else w

/-- `handle_panel_nav_key(ev, panel)` (the redraw of the panel is not
modelled). -/
def handle_panel_nav_key (ev : input_event) (env : Env) (w : World) : Bool × World :=
  let is_nav : Bool :=
    decide (ev.code = KEY_KP8) || decide (ev.code = KEY_UP) ||
    decide (ev.code = KEY_KP2) || decide (ev.code = KEY_DOWN) ||
    decide (ev.code = KEY_KP4) || decide (ev.code = KEY_LEFT) ||
    decide (ev.code = KEY_KP6) || decide (ev.code = KEY_RIGHT)
  if !is_nav then (false, w)
  else if ev.value ≠ 1 ∧ ev.value ≠ 2 then (true, w)
  else
    let now := env.now
    let multi : Int :=
      if ev.value = 1 then 1 else get_step_multiplier (now - w.state.adjust_start_times ev.code)
    let w : World :=
      if ev.value = 1 then
        { w with state := { w.state with
            adjust_start_times := Function.update w.state.adjust_start_times ev.code now } }
      else w
    let w : World :=
      if ev.code = KEY_KP8 ∨ ev.code = KEY_UP then
        { w with panel := { w.panel with
            selected_row := (w.panel.selected_row - 1 + num_config_items).tmod num_config_items } }
      else if ev.code = KEY_KP2 ∨ ev.code = KEY_DOWN then
        { w with panel := { w.panel with
            selected_row := (w.panel.selected_row + 1).tmod num_config_items } }
      else if ev.code = KEY_KP4 ∨ ev.code = KEY_LEFT then
        adjust_config_value w.panel.selected_row.toNat (-multi) false w
      else
        adjust_config_value w.panel.selected_row.toNat multi false w
    (true, { w with panel := { w.panel with last_activity_time := now } })

/-- `handle_non_nav_in_panel(ev, panel)`. -/
def handle_non_nav_in_panel (ev : input_event) (env : Env) (w : World) : Bool × World :=
  if ev.value ≠ 1 then (false, w)
  else
    let w := hide_config_panel env w
    let w := emit_event Sink.uinput EV_KEY ev.code ev.value w
    (true, emit_event Sink.uinput EV_SYN SYN_REPORT 0 w)

/-- The `switch` of `handle_alt_adjustment_key`: the index of the tunable,
the direction, and the jump overlay to show (`0` for none, `-1` for the
margin overlay); `none` is the `default:` case. -/
def alt_adjustment_target (ev : input_event) (s : AppState) : Option (Nat × Bool × Int) :=
  let auto := s.autoscroll_up_active || s.autoscroll_down_active
  if ev.code = KEY_KPPLUS ∨ ev.code = KEY_KPENTER then
    some (if auto then 11 else 9, decide (ev.code = KEY_KPPLUS), 0)
  else if ev.code = KEY_NUMLOCK then some (0, !s.shift_pressed, 0)
  else if ev.code = KEY_KPSLASH then some (3, !s.shift_pressed, 0)
  else if ev.code = KEY_KPASTERISK then some (1, !s.shift_pressed, 0)
  else if ev.code = KEY_KPMINUS then some (2, !s.shift_pressed, 0)
  else if ev.code = KEY_KP5 then some (7, !s.shift_pressed, -1)
  else if ev.code = KEY_KP6 ∨ ev.code = KEY_KP4 then some (4, decide (ev.code = KEY_KP6), 1)
  else if ev.code = KEY_KP8 ∨ ev.code = KEY_KP2 then some (5, decide (ev.code = KEY_KP8), 2)
  else if ev.code = KEY_KP7 ∨ ev.code = KEY_KP9 ∨ ev.code = KEY_KP1 ∨ ev.code = KEY_KP3 then
    some (6, decide (ev.code = KEY_KP7 ∨ ev.code = KEY_KP9), 3)
  else if ev.code = KEY_KP0 then some (8, !s.shift_pressed, 0)
  else if ev.code = KEY_KPDOT then some (if auto then 12 else 10, !s.shift_pressed, 0)
  else none

/-- `handle_alt_adjustment_key(ev)`. -/
def handle_alt_adjustment_key (ev : input_event) (env : Env) (w : World) : Bool × World :=
  if !w.state.alt_pressed || decide (ev.value ≠ 1 ∧ ev.value ≠ 2) then (false, w)
  else
    let now := env.now
    match alt_adjustment_target ev w.state with
    | none => (false, w)
    | some (index, increase, overlay) =>
      let w : World :=
        if overlay = -1 then
          { show_margin_overlay env w with last_margin_adjust := now, margin_need_redraw := true }
        else if overlay ≠ 0 then
          { show_jump_overlay env overlay w with last_jump_adjust := now, jump_need_redraw := true }
        else w
      let multi : Int :=
        if ev.value = 1 then 1 else get_step_multiplier (now - w.state.adjust_start_times ev.code)
      let w : World :=
        if ev.value = 1 then
          { w with state := { w.state with
              adjust_start_times := Function.update w.state.adjust_start_times ev.code now } }
        else w
      let step : Int := multi * (if increase then 1 else -1)
      (true, save_config (adjust_config_value index step true w))

/-- `handle_scroll_and_autoscroll_key(ev)`. -/
def handle_scroll_and_autoscroll_key (ev : input_event) (env : Env) (w : World) : Bool × World :=
  if ev.code ≠ KEY_KPPLUS ∧ ev.code ≠ KEY_KPENTER then (false, w)
  else
    let is_plus : Bool := decide (ev.code = KEY_KPPLUS)
    if !w.state.ctrl_pressed then
      (true, { w with state := { w.state with
        scroll_keys_pressed :=
          Function.update w.state.scroll_keys_pressed (if is_plus then 0 else 1)
            (decide (ev.value ≠ 0)) } })
    else if ev.value ≠ 1 then (true, w)
    else
      let w : World :=
        if is_plus then
          let up := !w.state.autoscroll_up_active
          { w with state := { w.state with
              autoscroll_up_active := up,
              autoscroll_down_active := if up then false else w.state.autoscroll_down_active } }
        else
          let down := !w.state.autoscroll_down_active
          { w with state := { w.state with
              autoscroll_down_active := down,
              autoscroll_up_active := if down then false else w.state.autoscroll_up_active } }
      let w : World := { w with state := { w.state with scroll_keys_pressed := fun _ => false } }
      let now := env.now
      let w : World :=
        if feedback_due now w.state.last_autoscroll_feedback then
          let w : World := { w with state := { w.state with last_autoscroll_feedback := now } }
          if w.state.autoscroll_up_active then show_feedback (Feedback.text "Autoscroll UP ON") w
          else if w.state.autoscroll_down_active then
            show_feedback (Feedback.text "Autoscroll DOWN ON") w
          else show_feedback (Feedback.text "Autoscroll OFF") w
        else w
      (true, { w with state := { w.state with pending_ctrl := false } })

/-- `handle_ctrl_minus_key(ev)`. -/
def handle_ctrl_minus_key (ev : input_event) (w : World) : Bool × World :=
  if !w.state.ctrl_pressed || decide (ev.code ≠ KEY_KPMINUS) || decide (ev.value = 0) then
    (false, w)
  else (true, { w with state := { w.state with pending_ctrl := false } })

/-- The target chosen by the `switch` of `handle_absolute_jump_key` for a
jump key, on display `d` with margin `margin`. -/
def absolute_jump_target (code : Nat) (margin : Int) (d : XDisplay) : Int × Int :=
  let left := margin
  let right := d.scr_w - 1 - margin
  let top := margin
  let bottom := d.scr_h - 1 - margin
  let center_x := d.scr_w.tdiv 2
  let center_y := d.scr_h.tdiv 2
  if code = KEY_KP8 then (if d.root_y = top then center_x else d.root_x, top)
  else if code = KEY_KP2 then (if d.root_y = bottom then center_x else d.root_x, bottom)
  else if code = KEY_KP4 then (left, if d.root_x = left then center_y else d.root_y)
  else if code = KEY_KP6 then (right, if d.root_x = right then center_y else d.root_y)
  else if code = KEY_KP9 then (right, top)
  else if code = KEY_KP7 then (left, top)
  else if code = KEY_KP3 then (right, bottom)
  else if code = KEY_KP1 then (left, bottom)
  else (center_x, center_y)

/-- `handle_absolute_jump_key(ev)`. -/
def handle_absolute_jump_key (ev : input_event) (env : Env) (w : World) : Bool × World :=
  if !w.state.ctrl_pressed || !w.state.shift_pressed || decide (ev.value ≠ 1) then (false, w)
  else
    let is_jump_key : Bool :=
      decide (ev.code = KEY_KP8) || decide (ev.code = KEY_KP2) || decide (ev.code = KEY_KP4) ||
      decide (ev.code = KEY_KP6) || decide (ev.code = KEY_KP9) || decide (ev.code = KEY_KP7) ||
      decide (ev.code = KEY_KP3) || decide (ev.code = KEY_KP1) || decide (ev.code = KEY_KP5)
    if !is_jump_key then (false, w)
    else
      match env.display with
      | none => (true, w)
      | some d =>
        let t := absolute_jump_target ev.code w.state.cfg.jump_margin d
        let w := warp_mouse t.1 t.2 w
        (true, { w with state := { w.state with pending_ctrl := false } })

/-- The index of a direction key in `numpad_keys_pressed`
(0=8, 1=2, 2=4, 3=6, 4=7, 5=9, 6=1, 7=3). -/
def numpad_index (code : Nat) : Option (Fin 8) :=
  if code = KEY_KP8 then some 0
  else if code = KEY_KP2 then some 1
  else if code = KEY_KP4 then some 2
  else if code = KEY_KP6 then some 3
  else if code = KEY_KP7 then some 4
  else if code = KEY_KP9 then some 5
  else if code = KEY_KP1 then some 6
  else if code = KEY_KP3 then some 7
  else none

/-- `handle_numpad_direction_key(ev)`. -/
def handle_numpad_direction_key (ev : input_event) (w : World) : Bool × World :=
  match numpad_index ev.code with
  | none => (false, w)
  | some i =>
    let w : World :=
      if w.state.ctrl_pressed then
        { w with state := { w.state with numpad_keys_pressed := fun _ => false,
                                         pending_ctrl := false } }
      else w
    (true, { w with state := { w.state with
      numpad_keys_pressed := Function.update w.state.numpad_keys_pressed i (decide (ev.value ≠ 0)) } })

/-- `handle_kp5_key(ev)`. -/
def handle_kp5_key (ev : input_event) (w : World) : Bool × World :=
  if ev.code ≠ KEY_KP5 then (false, w)
  else if ev.value = 1 then
    if !w.state.drag_locked then
      let w := emit_event Sink.mouse EV_KEY BTN_LEFT 1 w
      let w := emit_event Sink.mouse EV_SYN SYN_REPORT 0 w
      (true, { w with state := { w.state with left_button_held := true } })
    else (true, w)
  else if ev.value = 0 then
    if w.state.left_button_held then
      let both := w.state.ctrl_pressed && w.state.shift_pressed
      let w : World :=
        if !both then
          let w := emit_event Sink.mouse EV_KEY BTN_LEFT 0 w
          let w := emit_event Sink.mouse EV_SYN SYN_REPORT 0 w
          { w with state := { w.state with left_button_held := false } }
        else w
      let w : World :=
        if w.state.drag_locked && !both then
          hide_drag_popup { w with state := { w.state with drag_locked := false } }
        else w
      (true, w)
    else (true, w)
  else (true, w)

/-- `handle_kpslash_key(ev)`. -/
def handle_kpslash_key (ev : input_event) (w : World) : Bool × World :=
  if ev.code ≠ KEY_KPSLASH ∨ ev.value ≠ 1 then (false, w)
  else if w.state.left_button_held then (true, release_left_button w)
  else
    let w := emit_event Sink.mouse EV_KEY BTN_LEFT 1 w
    let w := emit_event Sink.mouse EV_SYN SYN_REPORT 0 w
    let w : World := { w with state := { w.state with left_button_held := true,
                                                      drag_locked := true } }
    (true, show_drag_popup w)

/-- `handle_kpasterisk_key(ev)`. -/
def handle_kpasterisk_key (ev : input_event) (w : World) : Bool × World :=
  if ev.code ≠ KEY_KPASTERISK ∨ ev.value ≠ 1 then (false, w)
  else
    let w := if w.state.left_button_held then release_left_button w else w
    (true, mouse_click BTN_MIDDLE w)

/-- `handle_kpminus_key(ev)`. -/
def handle_kpminus_key (ev : input_event) (w : World) : Bool × World :=
  if ev.code ≠ KEY_KPMINUS ∨ ev.value ≠ 1 then (false, w)
  else
    let w := if w.state.left_button_held then release_left_button w else w
    (true, mouse_click BTN_RIGHT w)

/-- `handle_numlock_key(ev)`. -/
def handle_numlock_key (ev : input_event) (w : World) : Bool × World :=
  if ev.code ≠ KEY_NUMLOCK then (false, w)
  else if ev.value = 1 then
    if !w.state.drag_locked then
      let w := emit_event Sink.mouse EV_KEY BTN_LEFT 1 w
      let w := emit_event Sink.mouse EV_SYN SYN_REPORT 0 w
      (true, { w with state := { w.state with left_button_held := true } })
    else (true, w)
  else if ev.value = 0 then
    if w.state.left_button_held then
      let w := emit_event Sink.mouse EV_KEY BTN_LEFT 0 w
      let w := emit_event Sink.mouse EV_SYN SYN_REPORT 0 w
      let w : World := { w with state := { w.state with left_button_held := false } }
      if w.state.drag_locked then
        (true, hide_drag_popup { w with state := { w.state with drag_locked := false } })
      else (true, w)
    else (true, w)
  else (true, w)

/-! ## The event router (the body of the loop in `main`) -/

/-- The first chain of `main`: Control, Alt, Shift, then Escape while
the panel is active. -/
def modifier_handlers (ev : input_event) (env : Env) : World → Bool × World :=
  else_if (handle_ctrl_key ev env)
    (else_if (handle_alt_key ev env)
      (else_if (handle_shift_key ev)
        (fun w => if w.panel.active then handle_esc_in_panel ev env w else (false, w))))

/-- The chain run in mouse mode while the panel is not active. -/
def functional_handlers (ev : input_event) (env : Env) : World → Bool × World :=
  else_if (handle_alt_adjustment_key ev env)
    (else_if (handle_scroll_and_autoscroll_key ev env)
      (else_if (handle_ctrl_minus_key ev)
        (else_if (handle_absolute_jump_key ev env)
          (else_if (handle_numpad_direction_key ev)
            (else_if (handle_kp5_key ev)
              (else_if (handle_kpslash_key ev)
                (else_if (handle_kpasterisk_key ev)
                  (else_if (handle_kpminus_key ev) (handle_numlock_key ev)))))))))

/-- The block `if (state.mouse_mode) ...` of `main`; `was_active` is the
value of `panel.active` read before the first chain. -/
def mouse_mode_handlers (ev : input_event) (env : Env) (was_active : Bool) (w : World) :
    Bool × World :=
  let w := disable_autoscroll_if_not_allowed ev env w
  if w.panel.active then
    if was_active then
      else_if (handle_panel_nav_key ev env) (handle_non_nav_in_panel ev env) w
    else (false, w)
  else functional_handlers ev env w

/-- The block `if (state.left_button_held && ev.value == 1) ...` of
`main`. -/
def drag_auto_release (ev : input_event) (w : World) : World :=
  if w.state.left_button_held && decide (ev.value = 1) then
    let is_numpad : Bool :=
      (decide (ev.code ≥ KEY_KP7) && decide (ev.code ≤ KEY_KPDOT)) ||
      decide (ev.code = KEY_KPSLASH) || decide (ev.code = KEY_KPASTERISK) ||
      decide (ev.code = KEY_KPENTER) || decide (ev.code = KEY_NUMLOCK)
    let is_ctrl_or_shift : Bool :=
      decide (ev.code = KEY_LEFTCTRL) || decide (ev.code = KEY_RIGHTCTRL) ||
      decide (ev.code = KEY_LEFTSHIFT) || decide (ev.code = KEY_RIGHTSHIFT)
    let should_release : Bool :=
      if is_numpad then decide (ev.code = KEY_KP0) || decide (ev.code = KEY_KPDOT)
      else !is_ctrl_or_shift
    if should_release then release_left_button w else w
  else w

/-- The block `if (!consumed) ...` of `main`: the retroactive press of a
pending Control, then the event itself. -/
def forward_event (ev : input_event) (w : World) : World :=
  let w : World :=
    if w.state.ctrl_pressed && w.state.pending_ctrl then
      let w := emit_event Sink.uinput EV_KEY w.state.pending_ctrl_code 1 w
      let w := emit_event Sink.uinput EV_SYN SYN_REPORT 0 w
      let w : World :=
        if w.state.pending_ctrl_code = KEY_LEFTCTRL then
          { w with state := { w.state with left_ctrl_forwarded := true } }
        else { w with state := { w.state with right_ctrl_forwarded := true } }
      { w with state := { w.state with pending_ctrl := false } }
    else w
  let w := emit_event Sink.uinput EV_KEY ev.code ev.value w
  emit_event Sink.uinput EV_SYN SYN_REPORT 0 w

/-- What `main` does with one `EV_KEY` event. -/
def process_key_event (env : Env) (ev : input_event) (w : World) : World :=
  let was_active := w.panel.active
  let r1 := modifier_handlers ev env w
  let r2 :=
    if r1.2.state.mouse_mode then mouse_mode_handlers ev env was_active r1.2 else (false, r1.2)
  let consumed := r1.1 || r2.1
  let w := drag_auto_release ev r2.2
  let w := if !consumed then forward_event ev w else w
  if ev.value = 0 then
    { w with state := { w.state with
        adjust_start_times := Function.update w.state.adjust_start_times ev.code 0 } }
  else w

/-- What `main` does with one event read from a keyboard: key events are
routed, every other event is written to the keyboard sink as it is. -/
def process_event (env : Env) (ev : input_event) (w : World) : World :=
  if ev.type = EV_KEY then process_key_event env ev w
  else emit_event Sink.uinput ev.type ev.code ev.value w

/-- A key event with the given code and value. -/
def key (code : Nat) (value : Int) : input_event :=
  { type := EV_KEY, code := code, value := value }

/-- A clock reading with no display available. -/
def at_time (t : ℚ) : Env :=
  { now := t, display := none }

/-- The router run over a list of timed events, in order. -/
def run_events (evs : List (Env × input_event)) (w : World) : World :=
  evs.foldl (fun acc e => process_event e.1 e.2 acc) w

/-- One atomic step of the system: the router processes one event, the
movement engine runs one tick, or a panel timer clears `panel.active`. -/
inductive Step : World → World → Prop where
  | event (env : Env) (ev : input_event) (w : World) : Step w (process_event env ev w)
  | tick (now : ℚ) (d : XDisplay) (w : World) : Step w (movement_tick now d w)
  | expire (w : World) : Step w (panel_expire w)

/-- The worlds reachable from the start of the event loop. -/
inductive Reachable : World → Prop where
  | init (c : Config) : Reachable (init_world c)
  | step {w w1 : World} : Reachable w → Step w w1 → Reachable w1

/-! ## Quantities used to state the properties -/

/-- The declared minimum `min_val` of item `i` of `config_items`. -/
def item_min (i : Nat) : ℚ :=
  match config_items.get? i with
  | some item => item.min_val
  | none => 0

/-- The current value of item `i`, read through its `value` pointer with
the type that `is_double` selects. -/
def item_value (c : Config) (i : Nat) : ℚ :=
  match config_items.get? i with
  | some item => if item.is_double then cfg_double c i else (cfg_int c i : ℚ)
  | none => 0

/-- The facts that hold in every reachable world: the two autoscroll flags
are never both set, autoscroll is off outside mouse mode, and no button is
held while the panel is active. -/
def Inv (w : World) : Prop :=
  ¬ (w.state.autoscroll_up_active = true ∧ w.state.autoscroll_down_active = true) ∧
  (w.state.mouse_mode = false →
    w.state.autoscroll_up_active = false ∧ w.state.autoscroll_down_active = false) ∧
  (w.panel.active = true → w.state.left_button_held = false)

/-- The condition under which the chain of functional handlers runs (mouse
mode on, panel not active), with the exclusion of the two autoscroll
flags. -/
def InvFn (w : World) : Prop :=
  ¬ (w.state.autoscroll_up_active = true ∧ w.state.autoscroll_down_active = true) ∧
  w.state.mouse_mode = true ∧ w.panel.active = false

/-- The keys that the auto-release block of `main` calls `is_numpad`. -/
def is_numpad_key (code : Nat) : Prop :=
  (KEY_KP7 ≤ code ∧ code ≤ KEY_KPDOT) ∨ code = KEY_KPSLASH ∨ code = KEY_KPASTERISK ∨
  code = KEY_KPENTER ∨ code = KEY_NUMLOCK

instance (code : Nat) : Decidable (is_numpad_key code) := by
  unfold is_numpad_key; infer_instance

/-- Either Control or either Shift: `is_ctrl_or_shift` of the auto-release
block. -/
def is_ctrl_or_shift_key (code : Nat) : Prop :=
  code = KEY_LEFTCTRL ∨ code = KEY_RIGHTCTRL ∨ code = KEY_LEFTSHIFT ∨ code = KEY_RIGHTSHIFT

instance (code : Nat) : Decidable (is_ctrl_or_shift_key code) := by
  unfold is_ctrl_or_shift_key; infer_instance

/-- Left Control tapped twice within 0.1 s, starting at clock 1000: mouse
mode is switched on. -/
def trace_mode_on : List (Env × input_event) :=
  [ (at_time 1000, key KEY_LEFTCTRL 1), (at_time (1000 + 5 / 100), key KEY_LEFTCTRL 0),
    (at_time (1000 + 10 / 100), key KEY_LEFTCTRL 1),
    (at_time (1000 + 15 / 100), key KEY_LEFTCTRL 0) ]

/-- Left Alt tapped twice 0.05 s apart: in mouse mode this opens the
configuration panel. -/
def trace_alt_double : List (Env × input_event) :=
  [ (at_time (1001 + 5 / 100), key KEY_LEFTALT 1), (at_time (1001 + 8 / 100), key KEY_LEFTALT 0),
    (at_time (1001 + 10 / 100), key KEY_LEFTALT 1),
    (at_time (1001 + 12 / 100), key KEY_LEFTALT 0) ]

/-- Mouse mode on, then the panel opened. -/
def trace_panel_open : List (Env × input_event) :=
  trace_mode_on ++ trace_alt_double

/-- Mouse mode on; Ctrl+KP- (which drops the pending Control) with the
Control press at clock 1001; the panel opened by an Alt double-tap; and a
second Control press at 1001.2, within 0.3 s of the first, which switches
mouse mode off while the panel is still active. -/
def trace_panel_left_open : List (Env × input_event) :=
  trace_mode_on ++
  [ (at_time 1001, key KEY_LEFTCTRL 1), (at_time (1001 + 1 / 100), key KEY_KPMINUS 1),
    (at_time (1001 + 2 / 100), key KEY_KPMINUS 0),
    (at_time (1001 + 3 / 100), key KEY_LEFTCTRL 0) ] ++
  trace_alt_double ++
  [ (at_time (1001 + 20 / 100), key KEY_LEFTCTRL 1),
    (at_time (1001 + 25 / 100), key KEY_LEFTCTRL 0) ]

/-- Mouse mode on, then KP/ pressed and released: the drag lock holds the
left button. -/
def trace_drag_locked : List (Env × input_event) :=
  trace_mode_on ++
  [ (at_time 1001, key KEY_KPSLASH 1), (at_time (1001 + 5 / 100), key KEY_KPSLASH 0) ]

/-- Mouse mode on, then Ctrl+KP+ pressed: autoscroll up is on. -/
def trace_autoscroll_up : List (Env × input_event) :=
  trace_mode_on ++
  [ (at_time 1001, key KEY_LEFTCTRL 1), (at_time (1001 + 5 / 100), key KEY_KPPLUS 1) ]

/-- The scenario of a Control held around one key `K`: press Left
Control, press `K`, release `K`, release Left Control, at clocks
`t`, `t + 0.10`, `t + 0.12`, `t + 0.15`. -/
def ctrl_chord (t : ℚ) (K : Nat) : List (Env × input_event) :=
  [ (at_time t, key KEY_LEFTCTRL 1), (at_time (t + 10 / 100), key K 1),
    (at_time (t + 12 / 100), key K 0), (at_time (t + 15 / 100), key KEY_LEFTCTRL 0) ]

/-- The sync marker `(EV_SYN, SYN_REPORT, 0)` that follows every
synthesized event. -/
def sync : input_event :=
  { type := EV_SYN, code := SYN_REPORT, value := 0 }

/-- A world in mouse mode with only the KP3 latch set, used to exercise
the movement engine. -/
def world_kp3_held : World :=
  { init_world default_config with
    state := { init_state default_config with
      mouse_mode := true,
      numpad_keys_pressed := fun i => decide (i = 7) } }

/-- A world in mouse mode with Control held, no direction latch set, a
scroll latch set and autoscroll on. -/
def world_no_direction : World :=
  { init_world default_config with
    state := { init_state default_config with
      mouse_mode := true, ctrl_pressed := true, autoscroll_up_active := true,
      scroll_keys_pressed := fun _ => true } }

/-- Modelled from the spec: `round(x)`, the integer nearest to `x` (halves
go up), which the spec uses for the diagonal contribution. -/
def round_nearest (x : ℚ) : Int :=
  ⌊x + 1 / 2⌋

/-- The world in mouse mode with only the KP9 latch set and the given
`mouse_speed`. -/
def world_kp9_held (speed : Int) : World :=
  { init_world { default_config with mouse_speed := speed } with
    state := { init_state { default_config with mouse_speed := speed } with
      mouse_mode := true,
      numpad_keys_pressed := fun i => decide (i = 5) } }

/-- The status passed to `exit` by `cleanup(sig)`: the handler ends with
`exit(0)` whatever `sig` is. -/
def cleanup (_sig : Int) : Int :=
  0

/-- The startup part of `main`, from `find_all_keyboards()` to the creation
of the movement thread. The arguments are the return values of the four
calls; the result is the exit status if the process ends during startup and
`none` if the event loop is entered. -/
def main_startup (find_all_keyboards create_uinput create_mouse pthread_create : Int) :
    Option Int :=
  if find_all_keyboards < 0 then some 1
  else if create_uinput < 0 then some (cleanup 0)
  else if create_mouse < 0 then some (cleanup 0)
  else if pthread_create ≠ 0 then some (cleanup 0)
  else none

/-- A world in mouse mode with Control and Shift held and nothing else
set. -/
def world_ctrl_shift_held : World :=
  { init_world default_config with
    state := { init_state default_config with
      mouse_mode := true, ctrl_pressed := true, shift_pressed := true } }

/-- A 1920x1080 screen with the pointer at `(100, 200)`. -/
def display_1920_1080 : XDisplay :=
  { scr_w := 1920, scr_h := 1080, root_x := 100, root_y := 200, query_ok := true }

/-- The nine keys that `handle_absolute_jump_key` accepts. -/
def is_jump_key (code : Nat) : Prop :=
  code = KEY_KP8 ∨ code = KEY_KP2 ∨ code = KEY_KP4 ∨ code = KEY_KP6 ∨ code = KEY_KP9 ∨
  code = KEY_KP7 ∨ code = KEY_KP3 ∨ code = KEY_KP1 ∨ code = KEY_KP5

instance (code : Nat) : Decidable (is_jump_key code) := by
  unfold is_jump_key; infer_instance

/-- The value of `is_allowed` computed by `disable_autoscroll_if_not_allowed`
for a press of key `code` in state `s`. -/
def is_allowed (code : Nat) (s : AppState) : Bool :=
  decide (code = KEY_LEFTCTRL) || decide (code = KEY_RIGHTCTRL) ||
  decide (code = KEY_LEFTALT) || decide (code = KEY_RIGHTALT) ||
  decide (code = KEY_LEFTSHIFT) || decide (code = KEY_RIGHTSHIFT) ||
  (s.ctrl_pressed && (decide (code = KEY_KPPLUS) || decide (code = KEY_KPENTER) ||
    (s.shift_pressed && decide (code = KEY_EQUAL)))) ||
  (s.alt_pressed && (decide (code = KEY_KPPLUS) || decide (code = KEY_KPENTER) ||
    (s.shift_pressed && decide (code = KEY_EQUAL)) || decide (code = KEY_KPDOT))) ||
  (s.alt_pressed && s.shift_pressed && decide (code = KEY_KPDOT))

/-- Both autoscroll flags are clear. -/
def autoscroll_off (w : World) : Prop :=
  w.state.autoscroll_up_active = false ∧ w.state.autoscroll_down_active = false

/-- Mouse mode on, Ctrl+KP+ pressed (autoscroll up on), then KP+ released
while Control is still held. -/
def trace_autoscroll_up_released : List (Env × input_event) :=
  trace_autoscroll_up ++ [ (at_time (1001 + 10 / 100), key KEY_KPPLUS 0) ]

/-- The same, followed by a Left Shift press. -/
def trace_autoscroll_up_shift : List (Env × input_event) :=
  trace_autoscroll_up_released ++ [ (at_time (1001 + 15 / 100), key KEY_LEFTSHIFT 1) ]

/-! ## The configuration file

A line is the list of characters that `fgets` stored (up to and including
the newline, without the terminating NUL); a file is the list of its lines,
each shorter than the 256-byte buffer. `atof` covers decimal notation
(optional sign, digits, optional fraction, optional exponent) and returns
the exact rational; infinities, NaN and hexadecimal notation are not
modelled. -/

/-- The `isspace` of the C locale: space, and `\t \n \v \f \r`. -/
def isspace (c : Char) : Bool :=
  decide (c.toNat = 32) || (decide (9 ≤ c.toNat) && decide (c.toNat ≤ 13))

/-- `cfg_parse_line(line, name, name_sz, value, value_sz)`: `none` is the
return value 0, `some (name, value)` is the return value 1 with the two
buffers. -/
def cfg_parse_line (line : List Char) (name_sz value_sz : Nat) :
    Option (List Char × List Char) :=
  let p := line.dropWhile (fun c => isspace c || decide (c = ';') || decide (c = '#'))
  if p = [] then none
  else
    let name := (p.takeWhile (fun c => !isspace c && decide (c ≠ '='))).take (name_sz - 1)
    let p := p.dropWhile (fun c => !isspace c && decide (c ≠ '='))
    let p := p.dropWhile (fun c => decide (c ≠ '='))
    match p with
    | [] => none
    | _ :: p =>
      let p := p.dropWhile isspace
      let v := p.takeWhile (fun c => decide (c ≠ ';') && decide (c ≠ '#'))
      let v := (v.reverse.dropWhile isspace).reverse
      some (name, v.take (value_sz - 1))

/-- The value of a run of decimal digits, most significant first. -/
def digits_value (ds : List Char) : Nat :=
  ds.foldl (fun acc c => acc * 10 + (c.toNat - 48)) 0

/-- `atoi(s)`: leading white space, an optional sign, then the longest run
of digits. -/
def atoi (s : List Char) : Int :=
  let s := s.dropWhile isspace
  match s with
  | '-' :: t => -(digits_value (t.takeWhile Char.isDigit) : Int)
  | '+' :: t => (digits_value (t.takeWhile Char.isDigit) : Int)
  | _ => (digits_value (s.takeWhile Char.isDigit) : Int)

/-- The unsigned decimal number at the head of `s`: digits, an optional
fraction and an optional exponent. -/
def atof_unsigned (s : List Char) : ℚ :=
  let ip := s.takeWhile Char.isDigit
  let rest := s.dropWhile Char.isDigit
  let fp := match rest with
    | '.' :: t => t.takeWhile Char.isDigit
    | _ => []
  let rest := match rest with
    | '.' :: t => t.dropWhile Char.isDigit
    | _ => rest
  let mantissa : ℚ := (digits_value (ip ++ fp) : ℚ) / ((10 ^ fp.length : Nat) : ℚ)
  let e : Int := match rest with
    | 'e' :: t => atoi t
    | 'E' :: t => atoi t
    | _ => 0
  if 0 ≤ e then mantissa * ((10 ^ e.toNat : Nat) : ℚ)
  else mantissa / ((10 ^ (-e).toNat : Nat) : ℚ)

/-- `atof(s)` on decimal notation. -/
def atof (s : List Char) : ℚ :=
  let s := s.dropWhile isspace
  match s with
  | '-' :: t => -atof_unsigned t
  | '+' :: t => atof_unsigned t
  | _ => atof_unsigned s

/-- The loop `for (i = 0; i < num_config_items; i++) if (strcmp(...) == 0)`
of `load_config`, from index `i` on: the first item with the given name. -/
def find_item (name : List Char) : List ConfigItem → Nat → Option (Nat × ConfigItem)
  | [], _ => none
  | item :: rest, i =>
    if name = item.name.toList then some (i, item) else find_item name rest (i + 1)

/-- The body of the `while (fgets(...))` loop of `load_config` on the pair
of the configuration and `cfg_seen`. -/
def load_line (s : Config × Nat) (line : List Char) : Config × Nat :=
  match cfg_parse_line line 64 64 with
  | none => s
  | some (name, value) =>
    match find_item name config_items 0 with
    | none => s
    | some (i, item) =>
      (if item.is_double then cfg_set_double s.1 i (atof value)
       else cfg_set_int s.1 i (atoi value),
       s.2 ||| item.bit)

/-- `load_config()`: the configuration it leaves in `state.cfg`, with the
final `cfg_seen`. `none` is a file that is absent or cannot be opened: the
defaults stay. -/
def load_config (file : Option (List (List Char))) : Config × Nat :=
  match file with
  | none => (default_config, 0)
  | some lines => lines.foldl load_line (default_config, 0)

/-- The text of `%d`. -/
def print_d (v : Int) : List Char :=
  if v < 0 then '-' :: Nat.toDigits 10 v.natAbs else Nat.toDigits 10 v.natAbs

/-- Rounding of a non-negative rational to the nearest integer, ties to
even, as `printf` rounds the exact value. -/
def round_half_even (q : ℚ) : Nat :=
  let f := ⌊q⌋.toNat
  if q - f < 1 / 2 then f
  else if 1 / 2 < q - f then f + 1
  else if f % 2 = 0 then f else f + 1

/-- The text of `%.<prec>f`. -/
def print_f (prec : Nat) (x : ℚ) : List Char :=
  let n := round_half_even (|x| * ((10 ^ prec : Nat) : ℚ))
  let fd := Nat.toDigits 10 (n % 10 ^ prec)
  (if x < 0 then ['-'] else []) ++ Nat.toDigits 10 (n / 10 ^ prec) ++
    (if prec = 0 then [] else '.' :: (List.replicate (prec - fd.length) '0' ++ fd))

/-- The precision of a `%.1f` or `%.2f` format. -/
def fmt_precision (fmt : String) : Nat :=
  if fmt = "%.1f" then 1 else if fmt = "%.2f" then 2 else 6

/-- The header `CONFIG_COMMENT`, line by line. -/
def config_comment : List (List Char) :=
  [ "; Mouse Daemon configuration\n".toList,
    "; Edit the values below – the daemon will reload them on every start\n".toList,
    "; Missing entries are filled with the hard-coded defaults\n".toList,
    "\n".toList ]

/-- The line that `save_config` writes for item `i`. -/
def config_line (c : Config) (i : Nat) (item : ConfigItem) : List Char :=
  item.name.toList ++ " = ".toList ++
    (if item.is_double then print_f (fmt_precision item.fmt) (cfg_double c i)
     else print_d (cfg_int c i)) ++ "\n".toList

/-- The entries written by the loop of `save_config` from index `i` on. -/
def config_lines (c : Config) : List ConfigItem → Nat → List (List Char)
  | [], _ => []
  | item :: rest, i => config_line c i item :: config_lines c rest (i + 1)

/-- The file that `save_config` writes for the configuration `c`. -/
def saved_file (c : Config) : List (List Char) :=
  config_comment ++ config_lines c config_items 0

/-- The defaults with `scroll_speed` set to `2^250`, a value that a double
holds exactly. -/
def config_huge_scroll_speed : Config :=
  { default_config with scroll_speed := ((2 ^ 250 : Nat) : ℚ) }

/-- Left Control pressed at clock 1000 and released 0.05 s later. -/
def trace_ctrl_tap : List (Env × input_event) :=
  [ (at_time 1000, key KEY_LEFTCTRL 1), (at_time (1000 + 5 / 100), key KEY_LEFTCTRL 0) ]

/-- Left Control pressed at clock 1000 and still held when the keyboard
sends its first auto-repeat half a second later. -/
def trace_ctrl_repeat : List (Env × input_event) :=
  [ (at_time 1000, key KEY_LEFTCTRL 1), (at_time (1000 + 50 / 100), key KEY_LEFTCTRL 2) ]

/-- Right Control tapped, then Left Control pressed within 0.3 s (mouse mode
goes on), A pressed and released while Left Control is held, and Left Control
released. -/
def trace_two_controls : List (Env × input_event) :=
  [ (at_time 1000, key KEY_RIGHTCTRL 1), (at_time (1000 + 5 / 100), key KEY_RIGHTCTRL 0),
    (at_time (1000 + 10 / 100), key KEY_LEFTCTRL 1), (at_time (1000 + 20 / 100), key KEY_A 1),
    (at_time (1000 + 25 / 100), key KEY_A 0), (at_time (1000 + 30 / 100), key KEY_LEFTCTRL 0) ]

/-- Mouse mode on, KP6 pressed and held, then a Left Control double-tap that
switches mouse mode off, then KP6 released. -/
def trace_latch_left_set : List (Env × input_event) :=
  trace_mode_on ++
  [ (at_time 1001, key KEY_KP6 1),
    (at_time 1002, key KEY_LEFTCTRL 1), (at_time (1002 + 5 / 100), key KEY_LEFTCTRL 0),
    (at_time (1002 + 10 / 100), key KEY_LEFTCTRL 1),
    (at_time (1002 + 15 / 100), key KEY_LEFTCTRL 0),
    (at_time (1002 + 50 / 100), key KEY_KP6 0) ]

/-- The same, followed five seconds later by a second Left Control
double-tap that switches mouse mode on again. -/
def trace_latch_resumes : List (Env × input_event) :=
  trace_latch_left_set ++
  [ (at_time 1007, key KEY_LEFTCTRL 1), (at_time (1007 + 5 / 100), key KEY_LEFTCTRL 0),
    (at_time (1007 + 10 / 100), key KEY_LEFTCTRL 1),
    (at_time (1007 + 15 / 100), key KEY_LEFTCTRL 0) ]

/-- Mouse mode on, Left Control and Left Shift pressed, KP6 pressed (the
absolute jump) and still held when its first auto-repeat arrives. -/
def trace_jump_key_repeat : List (Env × input_event) :=
  trace_mode_on ++
  [ (at_time 1001, key KEY_LEFTCTRL 1), (at_time (1001 + 5 / 100), key KEY_LEFTSHIFT 1),
    (at_time (1001 + 10 / 100), key KEY_KP6 1), (at_time (1001 + 60 / 100), key KEY_KP6 2) ]

/-- The world left by `handle_ctrl_key` for a press of `code` at clock
`t`. -/
def ctrl_press (code : Nat) (t : ℚ) (w : World) : World :=
  (handle_ctrl_key (key code 1) { now := t, display := none } w).2

/-- The world left by `handle_ctrl_key` for a release of `code`. -/
def ctrl_release (code : Nat) (w : World) : World :=
  (handle_ctrl_key (key code 0) { now := 0, display := none } w).2

/-- Either Control key. -/
def is_ctrl_key (code : Nat) : Prop :=
  code = KEY_LEFTCTRL ∨ code = KEY_RIGHTCTRL

instance (code : Nat) : Decidable (is_ctrl_key code) := by
  unfold is_ctrl_key; infer_instance

/-- The drag lock is only on while the virtual left button is held. -/
def drag_inv (w : World) : Prop :=
  w.state.drag_locked = true → w.state.left_button_held = true

/-- Modelled from the spec: the binding table of the Alt adjustments, for
key `code` with Shift held or not and autoscroll active or not: the index of
the tunable in `config_items` and whether the key increases it. -/
def binding_table (code : Nat) (shift auto : Bool) : Option (Nat × Bool) :=
  if code = KEY_NUMLOCK then some (0, !shift)
  else if code = KEY_KPASTERISK then some (1, !shift)
  else if code = KEY_KPMINUS then some (2, !shift)
  else if code = KEY_KPSLASH then some (3, !shift)
  else if code = KEY_KP5 then some (7, !shift)
  else if code = KEY_KP0 then some (8, !shift)
  else if code = KEY_KP6 then some (4, true)
  else if code = KEY_KP4 then some (4, false)
  else if code = KEY_KP8 then some (5, true)
  else if code = KEY_KP2 then some (5, false)
  else if code = KEY_KP7 then some (6, true)
  else if code = KEY_KP9 then some (6, true)
  else if code = KEY_KP1 then some (6, false)
  else if code = KEY_KP3 then some (6, false)
  else if code = KEY_KPPLUS then some (if auto then 11 else 9, true)
  else if code = KEY_KPENTER then some (if auto then 11 else 9, false)
  else if code = KEY_KPDOT then some (if auto then 12 else 10, !shift)
  else none

/-- The configuration left by `adjust_config_value(index, step, ...)` when
it starts from configuration `c`. -/
def adjusted_cfg (index : Nat) (step : Int) (c : Config) : Config :=
  (adjust_config_value index step false (init_world c)).state.cfg

/-- The `multi` of `handle_alt_adjustment_key`: 1 for a press, the
repeat-rate multiplier for an auto-repeat. -/
def adjustment_multi (env : Env) (w : World) (code : Nat) (value : Int) : Int :=
  if value = 1 then 1 else get_step_multiplier (env.now - w.state.adjust_start_times code)

/-- A world in mouse mode with Alt held and nothing else set. -/
def world_alt_held : World :=
  { init_world default_config with
    state := { init_state default_config with mouse_mode := true, alt_pressed := true } }

/-- Mouse mode on, Left Control and Left Shift pressed and held, then a Left
Alt double-tap that opens the configuration panel. -/
def trace_panel_open_ctrl_shift : List (Env × input_event) :=
  trace_mode_on ++
  [ (at_time 1001, key KEY_LEFTCTRL 1), (at_time (1001 + 5 / 100), key KEY_LEFTSHIFT 1),
    (at_time (1001 + 10 / 100), key KEY_LEFTALT 1), (at_time (1001 + 13 / 100), key KEY_LEFTALT 0),
    (at_time (1001 + 15 / 100), key KEY_LEFTALT 1),
    (at_time (1001 + 18 / 100), key KEY_LEFTALT 0) ]

/-- Mouse mode on, then Left Control, Left Shift and Left Alt pressed and
held, the presses more than 0.3 s apart. -/
def trace_ctrl_shift_alt_held : List (Env × input_event) :=
  trace_mode_on ++
  [ (at_time 1001, key KEY_LEFTCTRL 1), (at_time (1001 + 5 / 100), key KEY_LEFTSHIFT 1),
    (at_time 1002, key KEY_LEFTALT 1) ]

/-- What `load_config` stores for an entry of item `item` with value text
`value`: `atof(value)` for a double item, `atoi(value)` for an int item. -/
def parsed_value (item : ConfigItem) (value : List Char) : ℚ :=
  if item.is_double then atof value else (atoi value : ℚ)

/-! ## Binary64 arithmetic

The world above holds every `double` as the exact rational it would be
without rounding. The two functions whose result depends on how a `double`
rounds, or on NaN, are modelled a second time here over `c_double`, with the
IEEE 754 binary64 rounding (to nearest, ties to even) after every operation.
Signed zeros are not distinguished and overflow to infinity is not modelled:
no value in these functions comes near `2^1024`. -/

/-- A C `double`: a finite binary64 value (the rational it denotes), an
infinity, or NaN. -/
inductive c_double where
  | fin (q : ℚ)
  | inf (negative : Bool)
  | nan
  deriving DecidableEq

/-- The largest `k` with `2^k <= n`, for `1 <= n <= fuel`. -/
def log2_floor : Nat → Nat → Nat
  | 0, _ => 0
  | fuel + 1, n => if n < 2 then 0 else log2_floor fuel (n / 2) + 1

/-- The power of two `2^e`. -/
def pow2 (e : Int) : ℚ :=
  if 0 ≤ e then ((2 ^ e.toNat : Nat) : ℚ) else 1 / ((2 ^ (-e).toNat : Nat) : ℚ)

/-- The binary exponent of `a > 0`: the `e` with `2^e <= a < 2^(e+1)`. -/
def binary_exponent (a : ℚ) : Int :=
  if 1 ≤ a then (log2_floor ⌊a⌋.toNat ⌊a⌋.toNat : Int)
  else
    let k : Int := (log2_floor ⌊1 / a⌋.toNat ⌊1 / a⌋.toNat : Int)
    if a = pow2 (-k) then -k else -k - 1

/-- The binary64 value nearest to `q`, ties to even: 53 significant bits,
with the fixed spacing `2^-1074` below `2^-1022`. -/
def f64_round (q : ℚ) : ℚ :=
  if q = 0 then 0
  else
    let e : Int := max (binary_exponent |q|) (-1022)
    let ulp : ℚ := pow2 (e - 52)
    let n : Nat := round_half_even (|q| / ulp)
    if q < 0 then -((n : ℚ) * ulp) else (n : ℚ) * ulp

namespace c_double

/-- A decimal literal of the source, or a real number converted to
`double`. -/
def of_rat (q : ℚ) : c_double :=
  fin (f64_round q)

/-- The conversion of an `int` to `double`. -/
def of_int (n : Int) : c_double :=
  fin (f64_round n)

/-- Unary minus. -/
def neg : c_double → c_double
  | fin q => fin (-q)
  | inf s => inf (!s)
  | nan => nan

/-- The sum `a + b`. -/
def add : c_double → c_double → c_double
  | fin a, fin b => fin (f64_round (a + b))
  | fin _, inf s => inf s
  | inf s, fin _ => inf s
  | inf s, inf t => if s = t then inf s else nan
  | _, _ => nan

/-- The product `a * b`. -/
def mul : c_double → c_double → c_double
  | fin a, fin b => fin (f64_round (a * b))
  | fin a, inf s => if a = 0 then nan else inf (xor s (decide (a < 0)))
  | inf s, fin b => if b = 0 then nan else inf (xor s (decide (b < 0)))
  | inf s, inf t => inf (xor s t)
  | _, _ => nan

/-- The comparison `a < b`: false as soon as one side is NaN. -/
def lt : c_double → c_double → Bool
  | fin a, fin b => decide (a < b)
  | fin _, inf t => !t
  | inf s, fin _ => s
  | inf s, inf t => s && !t
  | _, _ => false

/-- The comparison `a <= b`: false as soon as one side is NaN. -/
def le : c_double → c_double → Bool
  | fin a, fin b => decide (a ≤ b)
  | fin _, inf t => !t
  | inf s, fin _ => s
  | inf s, inf t => s || !t
  | _, _ => false

/-- The comparison `a == b`: false as soon as one side is NaN. -/
def eq : c_double → c_double → Bool
  | fin a, fin b => decide (a = b)
  | inf s, inf t => decide (s = t)
  | _, _ => false

end c_double

/-- `atof(s)` with the special values of `strtod`: after white space and an
optional sign, `nan` and `inf` in any letter case; otherwise the decimal
number, correctly rounded. -/
def atof_f64 (s : List Char) : c_double :=
  let s := s.dropWhile isspace
  let t := match s with
    | '-' :: t => t
    | '+' :: t => t
    | _ => s
  if (t.take 3).map Char.toLower = "nan".toList then c_double.nan
  else if (t.take 3).map Char.toLower = "inf".toList then
    c_double.inf (decide (s.head? = some '-'))
  else c_double.of_rat (atof s)

/-- The value text starts, after white space and an optional sign, with
`nan`, `inf` or `0x` in any letter case: `strtod` reads such a text as NaN,
an infinity or a hexadecimal number, which the exact `atof` above does not
cover. -/
def special_text (s : List Char) : Bool :=
  let s := s.dropWhile isspace
  let t := match s with
    | '-' :: t => t
    | '+' :: t => t
    | _ => s
  decide ((t.take 3).map Char.toLower = "nan".toList) ||
  decide ((t.take 3).map Char.toLower = "inf".toList) ||
  decide ((t.take 2).map Char.toLower = "0x".toList)

/-- `get_scroll_speed_delta(current, multi, increase)` in binary64. -/
def get_scroll_speed_delta_f64 (current : c_double) (multi : Int) (increase : Bool) :
    c_double :=
  let unit : c_double :=
    if current.le (c_double.of_rat (10000001 / 100000000)) then c_double.of_rat (1 / 100)
    else c_double.of_rat (1 / 10)
  let delta : c_double := (c_double.of_int multi).mul unit
  if !increase then
    let delta := delta.neg
    if unit.eq (c_double.of_rat (1 / 10)) && (current.add delta).lt (c_double.of_rat (1 / 10)) then
      ((c_double.of_int multi).mul (c_double.of_rat (1 / 100))).neg
    else delta
  else delta

/-- The `is_double` branch of `adjust_config_value(index, step, ...)` in
binary64, on the current value `value` of the item: the new value. An index
outside the table changes nothing. -/
def adjust_double_value (index : Nat) (value : c_double) (step : Int) : c_double :=
  match config_items.get? index with
  | none => value
  | some item =>
    let delta : c_double :=
      if item.name = "SCROLL_SPEED" ∨ item.name = "AUTOSCROLL_SPEED" then
        get_scroll_speed_delta_f64 value |step| (decide (step > 0))
      else (c_double.of_int step).mul (c_double.of_rat (1 / 10))
    let v := value.add delta
    if v.lt (c_double.of_rat item.min_val) then c_double.of_rat item.min_val else v

/-! # Properties -/

/-! ## Projections commute with `if`

These rewrite rules let `simp` read a field of a world that was built by
conditional updates without expanding the whole record. -/

@[simp] theorem ite_World_state (c : Prop) [Decidable c] (a b : World) :
    (if c then a else b).state = if c then a.state else b.state := by
  split_ifs <;> rfl

@[simp] theorem ite_World_panel (c : Prop) [Decidable c] (a b : World) :
    (if c then a else b).panel = if c then a.panel else b.panel := by
  split_ifs <;> rfl

@[simp] theorem ite_World_last_ctrl_press (c : Prop) [Decidable c] (a b : World) :
    (if c then a else b).last_ctrl_press = if c then a.last_ctrl_press else b.last_ctrl_press := by
  split_ifs <;> rfl

@[simp] theorem ite_World_drag_popup_visible (c : Prop) [Decidable c] (a b : World) :
    (if c then a else b).drag_popup_visible = if c then a.drag_popup_visible else b.drag_popup_visible := by
  split_ifs <;> rfl

@[simp] theorem ite_World_margin_overlay_visible (c : Prop) [Decidable c] (a b : World) :
    (if c then a else b).margin_overlay_visible = if c then a.margin_overlay_visible else b.margin_overlay_visible := by
  split_ifs <;> rfl

@[simp] theorem ite_World_last_margin_adjust (c : Prop) [Decidable c] (a b : World) :
    (if c then a else b).last_margin_adjust = if c then a.last_margin_adjust else b.last_margin_adjust := by
  split_ifs <;> rfl

@[simp] theorem ite_World_margin_need_redraw (c : Prop) [Decidable c] (a b : World) :
    (if c then a else b).margin_need_redraw = if c then a.margin_need_redraw else b.margin_need_redraw := by
  split_ifs <;> rfl

@[simp] theorem ite_World_adjusting_jump_type (c : Prop) [Decidable c] (a b : World) :
    (if c then a else b).adjusting_jump_type = if c then a.adjusting_jump_type else b.adjusting_jump_type := by
  split_ifs <;> rfl

@[simp] theorem ite_World_jump_overlay_visible (c : Prop) [Decidable c] (a b : World) :
    (if c then a else b).jump_overlay_visible = if c then a.jump_overlay_visible else b.jump_overlay_visible := by
  split_ifs <;> rfl

@[simp] theorem ite_World_last_jump_adjust (c : Prop) [Decidable c] (a b : World) :
    (if c then a else b).last_jump_adjust = if c then a.last_jump_adjust else b.last_jump_adjust := by
  split_ifs <;> rfl

@[simp] theorem ite_World_jump_need_redraw (c : Prop) [Decidable c] (a b : World) :
    (if c then a else b).jump_need_redraw = if c then a.jump_need_redraw else b.jump_need_redraw := by
  split_ifs <;> rfl

@[simp] theorem ite_World_uinput_out (c : Prop) [Decidable c] (a b : World) :
    (if c then a else b).uinput_out = if c then a.uinput_out else b.uinput_out := by
  split_ifs <;> rfl

@[simp] theorem ite_World_mouse_out (c : Prop) [Decidable c] (a b : World) :
    (if c then a else b).mouse_out = if c then a.mouse_out else b.mouse_out := by
  split_ifs <;> rfl

@[simp] theorem ite_World_feedback_log (c : Prop) [Decidable c] (a b : World) :
    (if c then a else b).feedback_log = if c then a.feedback_log else b.feedback_log := by
  split_ifs <;> rfl

@[simp] theorem ite_World_warp_log (c : Prop) [Decidable c] (a b : World) :
    (if c then a else b).warp_log = if c then a.warp_log else b.warp_log := by
  split_ifs <;> rfl

@[simp] theorem ite_World_save_log (c : Prop) [Decidable c] (a b : World) :
    (if c then a else b).save_log = if c then a.save_log else b.save_log := by
  split_ifs <;> rfl

@[simp] theorem ite_World_sleep_log (c : Prop) [Decidable c] (a b : World) :
    (if c then a else b).sleep_log = if c then a.sleep_log else b.sleep_log := by
  split_ifs <;> rfl

@[simp] theorem ite_AppState_cfg (c : Prop) [Decidable c] (a b : AppState) :
    (if c then a else b).cfg = if c then a.cfg else b.cfg := by
  split_ifs <;> rfl

@[simp] theorem ite_AppState_ctrl_pressed (c : Prop) [Decidable c] (a b : AppState) :
    (if c then a else b).ctrl_pressed = if c then a.ctrl_pressed else b.ctrl_pressed := by
  split_ifs <;> rfl

@[simp] theorem ite_AppState_alt_pressed (c : Prop) [Decidable c] (a b : AppState) :
    (if c then a else b).alt_pressed = if c then a.alt_pressed else b.alt_pressed := by
  split_ifs <;> rfl

@[simp] theorem ite_AppState_shift_pressed (c : Prop) [Decidable c] (a b : AppState) :
    (if c then a else b).shift_pressed = if c then a.shift_pressed else b.shift_pressed := by
  split_ifs <;> rfl

@[simp] theorem ite_AppState_mouse_mode (c : Prop) [Decidable c] (a b : AppState) :
    (if c then a else b).mouse_mode = if c then a.mouse_mode else b.mouse_mode := by
  split_ifs <;> rfl

@[simp] theorem ite_AppState_numpad_keys_pressed (c : Prop) [Decidable c] (a b : AppState) :
    (if c then a else b).numpad_keys_pressed = if c then a.numpad_keys_pressed else b.numpad_keys_pressed := by
  split_ifs <;> rfl

@[simp] theorem ite_AppState_scroll_keys_pressed (c : Prop) [Decidable c] (a b : AppState) :
    (if c then a else b).scroll_keys_pressed = if c then a.scroll_keys_pressed else b.scroll_keys_pressed := by
  split_ifs <;> rfl

@[simp] theorem ite_AppState_left_button_held (c : Prop) [Decidable c] (a b : AppState) :
    (if c then a else b).left_button_held = if c then a.left_button_held else b.left_button_held := by
  split_ifs <;> rfl

@[simp] theorem ite_AppState_drag_locked (c : Prop) [Decidable c] (a b : AppState) :
    (if c then a else b).drag_locked = if c then a.drag_locked else b.drag_locked := by
  split_ifs <;> rfl

@[simp] theorem ite_AppState_autoscroll_up_active (c : Prop) [Decidable c] (a b : AppState) :
    (if c then a else b).autoscroll_up_active = if c then a.autoscroll_up_active else b.autoscroll_up_active := by
  split_ifs <;> rfl

@[simp] theorem ite_AppState_autoscroll_down_active (c : Prop) [Decidable c] (a b : AppState) :
    (if c then a else b).autoscroll_down_active = if c then a.autoscroll_down_active else b.autoscroll_down_active := by
  split_ifs <;> rfl

@[simp] theorem ite_AppState_movement_start_time (c : Prop) [Decidable c] (a b : AppState) :
    (if c then a else b).movement_start_time = if c then a.movement_start_time else b.movement_start_time := by
  split_ifs <;> rfl

@[simp] theorem ite_AppState_last_alt_press (c : Prop) [Decidable c] (a b : AppState) :
    (if c then a else b).last_alt_press = if c then a.last_alt_press else b.last_alt_press := by
  split_ifs <;> rfl

@[simp] theorem ite_AppState_last_autoscroll_feedback (c : Prop) [Decidable c] (a b : AppState) :
    (if c then a else b).last_autoscroll_feedback = if c then a.last_autoscroll_feedback else b.last_autoscroll_feedback := by
  split_ifs <;> rfl

@[simp] theorem ite_AppState_adjust_start_times (c : Prop) [Decidable c] (a b : AppState) :
    (if c then a else b).adjust_start_times = if c then a.adjust_start_times else b.adjust_start_times := by
  split_ifs <;> rfl

@[simp] theorem ite_AppState_left_ctrl_forwarded (c : Prop) [Decidable c] (a b : AppState) :
    (if c then a else b).left_ctrl_forwarded = if c then a.left_ctrl_forwarded else b.left_ctrl_forwarded := by
  split_ifs <;> rfl

@[simp] theorem ite_AppState_right_ctrl_forwarded (c : Prop) [Decidable c] (a b : AppState) :
    (if c then a else b).right_ctrl_forwarded = if c then a.right_ctrl_forwarded else b.right_ctrl_forwarded := by
  split_ifs <;> rfl

@[simp] theorem ite_AppState_pending_ctrl (c : Prop) [Decidable c] (a b : AppState) :
    (if c then a else b).pending_ctrl = if c then a.pending_ctrl else b.pending_ctrl := by
  split_ifs <;> rfl

@[simp] theorem ite_AppState_pending_ctrl_code (c : Prop) [Decidable c] (a b : AppState) :
    (if c then a else b).pending_ctrl_code = if c then a.pending_ctrl_code else b.pending_ctrl_code := by
  split_ifs <;> rfl

@[simp] theorem ite_ConfigPanel_active (c : Prop) [Decidable c] (a b : ConfigPanel) :
    (if c then a else b).active = if c then a.active else b.active := by
  split_ifs <;> rfl

@[simp] theorem ite_ConfigPanel_last_activity_time (c : Prop) [Decidable c] (a b : ConfigPanel) :
    (if c then a else b).last_activity_time = if c then a.last_activity_time else b.last_activity_time := by
  split_ifs <;> rfl

@[simp] theorem ite_ConfigPanel_selected_row (c : Prop) [Decidable c] (a b : ConfigPanel) :
    (if c then a else b).selected_row = if c then a.selected_row else b.selected_row := by
  split_ifs <;> rfl

@[simp] theorem ite_ConfigPanel_initial_mouse_x (c : Prop) [Decidable c] (a b : ConfigPanel) :
    (if c then a else b).initial_mouse_x = if c then a.initial_mouse_x else b.initial_mouse_x := by
  split_ifs <;> rfl

@[simp] theorem ite_ConfigPanel_initial_mouse_y (c : Prop) [Decidable c] (a b : ConfigPanel) :
    (if c then a else b).initial_mouse_y = if c then a.initial_mouse_y else b.initial_mouse_y := by
  split_ifs <;> rfl

@[simp] theorem ite_pair_fst (c : Prop) [Decidable c] (a b : Bool × World) :
    (if c then a else b).1 = if c then a.1 else b.1 := by
  split_ifs <;> rfl

@[simp] theorem ite_pair_snd (c : Prop) [Decidable c] (a b : Bool × World) :
    (if c then a else b).2 = if c then a.2 else b.2 := by
  split_ifs <;> rfl

/-! ## Configuration adjustment and the movement engine -/

theorem c_int_one : c_int 1 = 1 := by simp [c_int]

theorem c_int_zero : c_int 0 = 0 := by simp [c_int]

theorem neg_tmod_eq (a b : Int) : (-a).tmod b = -(a.tmod b) := by
  rw [Int.tmod_def, Int.tmod_def, Int.neg_tdiv]; ring

theorem neg_lt_tmod (a : Int) {b : Int} (hb : 0 < b) : -b < a.tmod b := by
  rcases le_or_lt 0 a with h | h
  · have := Int.tmod_nonneg b h; omega
  · have h1 : (-a).tmod b < b := Int.tmod_lt_of_pos _ hb
    rw [neg_tmod_eq] at h1; omega

theorem wrap_coord_eq_emod (t : Int) {scr : Int} (hs : 0 < scr) : wrap_coord t scr = t % scr := by
  unfold wrap_coord
  have h1 := neg_lt_tmod t hs
  have h2 : 0 ≤ t.tmod scr + scr := by omega
  rw [Int.tmod_eq_emod h2 (le_of_lt hs), Int.add_emod_self]
  have h3 : t.tmod scr = t - scr * t.tdiv scr := Int.tmod_def t scr
  have h4 : t - scr * t.tdiv scr = t + scr * (-(t.tdiv scr)) := by ring
  rw [h3, h4, Int.add_mul_emod_self_left]

theorem movement_scroll_warp_log (a b : Bool) (w : World) :
    (movement_scroll a b w).warp_log = w.warp_log := by
  simp only [movement_scroll, mouse_wheel, usleep, emit_event]
  split_ifs <;> rfl

theorem movement_delta_of_no_direction (s : AppState) (h : any_numpad s = false) :
    movement_delta s = (0, 0) := by
  simp [movement_delta, h]

/-- C2: for every pointer position `(x, y)`, delta `(dx, dy)` and screen
size `scr_w > 0`, `scr_h > 0`, the warp target of the movement engine is
`((x+dx) mod scr_w, (y+dy) mod scr_h)` with the Euclidean `mod`, so it lies
in `[0, scr_w) × [0, scr_h)` also for negative sums; and a tick whose
computed delta is `(dx, dy)` warps to exactly that target when it warps
(mouse mode, a direction latched, a non-zero delta, pointer query
answered) and issues no warp otherwise. -/
theorem C2_warp_target_wraps (x y dx dy scr_w scr_h : Int) (hw : 0 < scr_w) (hh : 0 < scr_h) :
    warp_target x y dx dy scr_w scr_h = ((x + dx) % scr_w, (y + dy) % scr_h) ∧
    (0 ≤ (warp_target x y dx dy scr_w scr_h).1 ∧ (warp_target x y dx dy scr_w scr_h).1 < scr_w) ∧
    (0 ≤ (warp_target x y dx dy scr_w scr_h).2 ∧ (warp_target x y dx dy scr_w scr_h).2 < scr_h) ∧
    ∀ (now : ℚ) (q : Bool) (w : World), movement_delta w.state = (dx, dy) →
      (movement_tick now ⟨scr_w, scr_h, x, y, q⟩ w).warp_log =
        if w.state.mouse_mode = true ∧ any_numpad w.state = true ∧ (dx ≠ 0 ∨ dy ≠ 0) ∧ q = true
        then w.warp_log ++ [((x + dx) % scr_w, (y + dy) % scr_h)] else w.warp_log := by
  have e : warp_target x y dx dy scr_w scr_h = ((x + dx) % scr_w, (y + dy) % scr_h) := by
    simp [warp_target, wrap_coord_eq_emod _ hw, wrap_coord_eq_emod _ hh]
  refine ⟨e, ?_, ?_, ?_⟩
  · rw [e]; exact ⟨Int.emod_nonneg _ (ne_of_gt hw), Int.emod_lt_of_pos _ hw⟩
  · rw [e]; exact ⟨Int.emod_nonneg _ (ne_of_gt hh), Int.emod_lt_of_pos _ hh⟩
  · intro now q w hd
    unfold movement_tick
    simp only [hd, e]
    cases hm : w.state.mouse_mode
    · simp [usleep]
    · cases hn : any_numpad w.state
      · simp [usleep, movement_scroll_warp_log]
      · by_cases hx : dx = 0 <;> by_cases hy : dy = 0 <;> cases q <;>
          cases hc : w.state.ctrl_pressed <;>
          simp [hx, hy, usleep, warp_mouse, movement_scroll_warp_log]

/-- C2 at a concrete input: pointer (5, 3), delta (-10, -7) on a
1920x1080 screen wraps to (1915, 1076). -/
theorem C2_witness_negative_sum :
    warp_target 5 3 (-10) (-7) 1920 1080 = (1915, 1076) :=
  (C2_warp_target_wraps 5 3 (-10) (-7) 1920 1080 (by decide) (by decide)).1.trans (by decide)

/-- C4: in every snapshot in which none of the eight direction latches is
set, one tick of the movement engine issues no pointer warp, whatever
`ctrl_pressed`, `mouse_mode`, the scroll latches, the autoscroll flags, the
configuration, the clock and the display are. -/
theorem C4_no_direction_no_warp (now : ℚ) (d : XDisplay) (w : World)
    (h : ∀ i, w.state.numpad_keys_pressed i = false) :
    (movement_tick now d w).warp_log = w.warp_log := by
  have hn : any_numpad w.state = false := by simp [any_numpad, h]
  unfold movement_tick
  cases hm : w.state.mouse_mode <;>
    simp [hm, hn, usleep, movement_scroll_warp_log]

/-- C4 at a concrete input: Control held, autoscroll on, scroll latches
set, no direction latch: the tick logs no warp. -/
theorem C4_witness_scrolling_only :
    (movement_tick 1000 ⟨1920, 1080, 10, 10, true⟩ world_no_direction).warp_log = [] :=
  C4_no_direction_no_warp 1000 ⟨1920, 1080, 10, 10, true⟩ world_no_direction (fun _ => rfl)

/-- C10: `get_step_multiplier e` is 1 below 0.4, 2 on [0.4, 0.8), 4 on
[0.8, 1.2), 8 on [1.2, 1.6), 16 on [1.6, 2.0) and 32 from 2.0 on; it is
non-decreasing in `e` and always a power of two between 1 and 32. -/
theorem C10_step_multiplier_table (e : ℚ) :
    ((e < 4 / 10 → get_step_multiplier e = 1) ∧
     (4 / 10 ≤ e → e < 8 / 10 → get_step_multiplier e = 2) ∧
     (8 / 10 ≤ e → e < 12 / 10 → get_step_multiplier e = 4) ∧
     (12 / 10 ≤ e → e < 16 / 10 → get_step_multiplier e = 8) ∧
     (16 / 10 ≤ e → e < 2 → get_step_multiplier e = 16) ∧
     (2 ≤ e → get_step_multiplier e = 32)) ∧
    (∀ e2 : ℚ, e ≤ e2 → get_step_multiplier e ≤ get_step_multiplier e2) ∧
    (∃ k : Nat, k ≤ 5 ∧ get_step_multiplier e = 2 ^ k) ∧
    (1 ≤ get_step_multiplier e ∧ get_step_multiplier e ≤ 32) := by
  refine ⟨⟨?_, ?_, ?_, ?_, ?_, ?_⟩, ?_, ?_, ?_⟩
  · intro h; simp [get_step_multiplier, h]
  · intro h1 h2
    have : ¬ e < 4 / 10 := not_lt.mpr h1
    simp [get_step_multiplier, *]
  · intro h1 h2
    have a1 : ¬ e < 4 / 10 := by linarith
    have a2 : ¬ e < 8 / 10 := not_lt.mpr h1
    simp [get_step_multiplier, *]
  · intro h1 h2
    have a1 : ¬ e < 4 / 10 := by linarith
    have a2 : ¬ e < 8 / 10 := by linarith
    have a3 : ¬ e < 12 / 10 := not_lt.mpr h1
    simp [get_step_multiplier, *]
  · intro h1 h2
    have a1 : ¬ e < 4 / 10 := by linarith
    have a2 : ¬ e < 8 / 10 := by linarith
    have a3 : ¬ e < 12 / 10 := by linarith
    have a4 : ¬ e < 16 / 10 := not_lt.mpr h1
    simp [get_step_multiplier, *]
  · intro h1
    have a1 : ¬ e < 4 / 10 := by linarith
    have a2 : ¬ e < 8 / 10 := by linarith
    have a3 : ¬ e < 12 / 10 := by linarith
    have a4 : ¬ e < 16 / 10 := by linarith
    have a5 : ¬ e < 2 := not_lt.mpr h1
    simp [get_step_multiplier, *]
  · intro e2 h
    unfold get_step_multiplier
    split_ifs <;> first | decide | (exfalso; linarith)
  · unfold get_step_multiplier
    split_ifs
    · exact ⟨0, by decide, by decide⟩
    · exact ⟨1, by decide, by decide⟩
    · exact ⟨2, by decide, by decide⟩
    · exact ⟨3, by decide, by decide⟩
    · exact ⟨4, by decide, by decide⟩
    · exact ⟨5, by decide, by decide⟩
  · unfold get_step_multiplier
    split_ifs <;> decide

/-! ## Invariants of the router -/

theorem inv_of_invfn {w : World} (h : InvFn w) : Inv w := by
  obtain ⟨h1, h2, h3⟩ := h
  exact ⟨h1, by simp [h2], by simp [h3]⟩

theorem inv_congr {w w1 : World} (h : Inv w)
    (e1 : w1.state.autoscroll_up_active = w.state.autoscroll_up_active)
    (e2 : w1.state.autoscroll_down_active = w.state.autoscroll_down_active)
    (e3 : w1.state.mouse_mode = w.state.mouse_mode)
    (e4 : w1.panel.active = w.panel.active)
    (e5 : w1.state.left_button_held = w.state.left_button_held) : Inv w1 := by
  unfold Inv at *
  rw [e1, e2, e3, e4, e5]
  exact h

theorem invfn_congr {w w1 : World} (h : InvFn w)
    (e1 : w1.state.autoscroll_up_active = w.state.autoscroll_up_active)
    (e2 : w1.state.autoscroll_down_active = w.state.autoscroll_down_active)
    (e3 : w1.state.mouse_mode = w.state.mouse_mode)
    (e4 : w1.panel.active = w.panel.active) : InvFn w1 := by
  unfold InvFn at *
  rw [e1, e2, e3, e4]
  exact h

theorem else_if_preserves (P : World → Prop) (h1 h2 : World → Bool × World)
    (H1 : ∀ w, P w → P (h1 w).2) (H2 : ∀ w, P w → P (h2 w).2) (w : World) (hw : P w) :
    P (else_if h1 h2 w).2 := by
  unfold else_if
  have a := H1 w hw
  rcases h : h1 w with ⟨b, w1⟩
  rw [h] at a
  cases b
  · exact H2 w1 a
  · exact a

theorem inv_handle_ctrl_key (ev : input_event) (env : Env) (w : World) (h : Inv w) :
    Inv (handle_ctrl_key ev env w).2 := by
  unfold handle_ctrl_key
  simp only []
  split_ifs <;>
    first
    | exact inv_congr h rfl rfl rfl rfl rfl
    | (obtain ⟨h1, h2, h3⟩ := h
       refine ⟨?_, ?_, ?_⟩ <;> dsimp only [show_feedback] <;> simp_all)

theorem inv_release_left_button (w : World) (h : Inv w) : Inv (release_left_button w) := by
  obtain ⟨h1, h2, h3⟩ := h
  exact ⟨h1, h2, fun _ => rfl⟩

theorem inv_of_cleared {w : World} (a : w.state.autoscroll_up_active = false)
    (b : w.state.autoscroll_down_active = false)
    (c : w.panel.active = false ∨ w.state.left_button_held = false) : Inv w := by
  refine ⟨by simp [a], fun _ => ⟨a, b⟩, fun h => ?_⟩
  rcases c with c | c
  · rw [c] at h; exact absurd h (by decide)
  · exact c

theorem inv_show_config_panel (env : Env) (w : World) (h : Inv w) :
    Inv (show_config_panel env w) := by
  unfold show_config_panel
  split_ifs with h1
  · exact h
  · simp only []
    split_ifs with h2 <;>
      first
      | exact inv_of_cleared rfl rfl (Or.inr rfl)
      | exact inv_of_cleared rfl rfl (Or.inr (by simpa using h2))

theorem inv_hide_config_panel (env : Env) (w : World) :
    Inv (hide_config_panel env w) := by
  unfold hide_config_panel
  simp only [show_jump_overlay, hide_margin_overlay, save_config]
  split_ifs <;> exact inv_of_cleared rfl rfl (Or.inl rfl)

theorem inv_handle_alt_key (ev : input_event) (env : Env) (w : World) (h : Inv w) :
    Inv (handle_alt_key ev env w).2 := by
  have b : Inv { w with state := { w.state with alt_pressed := decide (ev.value ≠ 0) } } := h
  simp only [handle_alt_key]
  split_ifs <;>
    first
    | exact h
    | exact inv_congr h rfl rfl rfl rfl rfl
    | exact inv_congr (inv_show_config_panel env _ b) rfl rfl rfl rfl rfl

theorem inv_handle_shift_key (ev : input_event) (w : World) (h : Inv w) :
    Inv (handle_shift_key ev w).2 := by
  unfold handle_shift_key
  simp only []
  split_ifs <;> exact inv_congr h rfl rfl rfl rfl rfl

theorem inv_handle_esc_in_panel (ev : input_event) (env : Env) (w : World) (h : Inv w) :
    Inv (handle_esc_in_panel ev env w).2 := by
  unfold handle_esc_in_panel
  split_ifs
  · exact h
  · exact inv_hide_config_panel env w

theorem inv_modifier_handlers (ev : input_event) (env : Env) (w : World) (h : Inv w) :
    Inv (modifier_handlers ev env w).2 := by
  unfold modifier_handlers
  refine else_if_preserves Inv _ _ (inv_handle_ctrl_key ev env) ?_ w h
  refine else_if_preserves Inv _ _ (inv_handle_alt_key ev env) ?_
  refine else_if_preserves Inv _ _ (inv_handle_shift_key ev) ?_
  intro w1 a
  split_ifs
  · exact inv_handle_esc_in_panel ev env w1 a
  · exact a

theorem inv_disable_autoscroll (ev : input_event) (env : Env) (w : World) (h : Inv w) :
    Inv (disable_autoscroll_if_not_allowed ev env w) ∧
    (disable_autoscroll_if_not_allowed ev env w).state.mouse_mode = w.state.mouse_mode ∧
    (disable_autoscroll_if_not_allowed ev env w).panel = w.panel := by
  simp only [disable_autoscroll_if_not_allowed, show_feedback]
  split_ifs <;>
    first
    | exact ⟨h, rfl, rfl⟩
    | exact ⟨⟨by simp, fun _ => ⟨rfl, rfl⟩, h.2.2⟩, rfl, rfl⟩

theorem adjust_config_value_frame (i : Nat) (step : Int) (b : Bool) (w : World) :
    (adjust_config_value i step b w).state.autoscroll_up_active = w.state.autoscroll_up_active ∧
    (adjust_config_value i step b w).state.autoscroll_down_active = w.state.autoscroll_down_active ∧
    (adjust_config_value i step b w).state.mouse_mode = w.state.mouse_mode ∧
    (adjust_config_value i step b w).state.left_button_held = w.state.left_button_held ∧
    (adjust_config_value i step b w).panel = w.panel := by
  unfold adjust_config_value
  split
  · exact ⟨rfl, rfl, rfl, rfl, rfl⟩
  · simp only [show_feedback]
    split_ifs <;> exact ⟨rfl, rfl, rfl, rfl, rfl⟩

theorem inv_adjust_config_value (i : Nat) (step : Int) (b : Bool) (w : World) (h : Inv w) :
    Inv (adjust_config_value i step b w) := by
  obtain ⟨a1, a2, a3, a4, a5⟩ := adjust_config_value_frame i step b w
  exact inv_congr h a1 a2 a3 (by rw [a5]) a4

theorem inv_handle_panel_nav_key (ev : input_event) (env : Env) (w : World)
    (h : Inv w ∧ w.state.mouse_mode = true) :
    Inv (handle_panel_nav_key ev env w).2 ∧
    (handle_panel_nav_key ev env w).2.state.mouse_mode = true := by
  obtain ⟨h1, h2⟩ := h
  have k : ∀ (i : Nat) (step : Int) (w1 : World), Inv w1 ∧ w1.state.mouse_mode = true →
      Inv (adjust_config_value i step false w1) ∧
      (adjust_config_value i step false w1).state.mouse_mode = true := by
    intro i step w1 a
    exact ⟨inv_adjust_config_value i step false w1 a.1,
      by rw [(adjust_config_value_frame i step false w1).2.2.1]; exact a.2⟩
  have hu : Inv { w with state := { w.state with
      adjust_start_times := Function.update w.state.adjust_start_times ev.code env.now } } := h1
  simp only [handle_panel_nav_key]
  split_ifs <;>
    first
    | exact ⟨h1, h2⟩
    | exact ⟨inv_congr h1 rfl rfl rfl rfl rfl, h2⟩
    | exact ⟨inv_congr (k _ _ _ ⟨hu, h2⟩).1 rfl rfl rfl rfl rfl, (k _ _ _ ⟨hu, h2⟩).2⟩
    | exact ⟨inv_congr (k _ _ _ ⟨h1, h2⟩).1 rfl rfl rfl rfl rfl, (k _ _ _ ⟨h1, h2⟩).2⟩

theorem hide_config_panel_mouse_mode (env : Env) (w : World) :
    (hide_config_panel env w).state.mouse_mode = w.state.mouse_mode := by
  simp only [hide_config_panel, show_jump_overlay, hide_margin_overlay, save_config]
  split_ifs <;> rfl

theorem inv_handle_non_nav_in_panel (ev : input_event) (env : Env) (w : World)
    (h : Inv w ∧ w.state.mouse_mode = true) :
    Inv (handle_non_nav_in_panel ev env w).2 ∧
    (handle_non_nav_in_panel ev env w).2.state.mouse_mode = true := by
  simp only [handle_non_nav_in_panel]
  split_ifs
  · exact h
  · refine ⟨inv_congr (inv_hide_config_panel env w) rfl rfl rfl rfl rfl, ?_⟩
    exact (hide_config_panel_mouse_mode env w).trans h.2

theorem invfn_adjust_config_value (i : Nat) (step : Int) (b : Bool) (w : World) (h : InvFn w) :
    InvFn (adjust_config_value i step b w) := by
  obtain ⟨a1, a2, a3, _, a5⟩ := adjust_config_value_frame i step b w
  exact invfn_congr h a1 a2 a3 (by rw [a5])

theorem invfn_alt_adjustment (ev : input_event) (env : Env) (w : World) (h : InvFn w) :
    InvFn (handle_alt_adjustment_key ev env w).2 := by
  unfold handle_alt_adjustment_key
  by_cases hc : (!w.state.alt_pressed || decide (ev.value ≠ 1 ∧ ev.value ≠ 2)) = true
  · rw [if_pos hc]; exact h
  · rw [if_neg hc]
    cases ht : alt_adjustment_target ev w.state with
    | none => exact h
    | some t =>
      obtain ⟨index, increase, overlay⟩ := t
      simp only [save_config, show_margin_overlay, show_jump_overlay]
      refine invfn_congr (invfn_adjust_config_value _ _ _ _ ?_) rfl rfl rfl rfl
      split_ifs <;> exact h

theorem invfn_scroll (ev : input_event) (env : Env) (w : World) (h : InvFn w) :
    InvFn (handle_scroll_and_autoscroll_key ev env w).2 := by
  obtain ⟨h1, h2, h3⟩ := h
  simp only [handle_scroll_and_autoscroll_key, show_feedback, InvFn, ite_pair_snd, ite_World_state,
    ite_World_panel, ite_ConfigPanel_active, ite_AppState_mouse_mode,
    ite_AppState_autoscroll_up_active, ite_AppState_autoscroll_down_active, ite_self, h2, h3]
  refine ⟨?_, trivial, trivial⟩
  split_ifs <;> simp_all

theorem invfn_ctrl_minus (ev : input_event) (w : World) (h : InvFn w) :
    InvFn (handle_ctrl_minus_key ev w).2 := by
  simp only [handle_ctrl_minus_key]
  split_ifs <;> exact h

theorem invfn_absolute_jump (ev : input_event) (env : Env) (w : World) (h : InvFn w) :
    InvFn (handle_absolute_jump_key ev env w).2 := by
  simp only [handle_absolute_jump_key, warp_mouse]
  split_ifs <;> (try split) <;> exact h

theorem invfn_numpad_direction (ev : input_event) (w : World) (h : InvFn w) :
    InvFn (handle_numpad_direction_key ev w).2 := by
  unfold handle_numpad_direction_key
  split
  · exact h
  · simp only []
    split_ifs <;> exact h

theorem invfn_kp5 (ev : input_event) (w : World) (h : InvFn w) :
    InvFn (handle_kp5_key ev w).2 := by
  simp only [handle_kp5_key, emit_event, hide_drag_popup]
  split_ifs <;> exact h

theorem invfn_kpslash (ev : input_event) (w : World) (h : InvFn w) :
    InvFn (handle_kpslash_key ev w).2 := by
  simp only [handle_kpslash_key, emit_event, hide_drag_popup, show_drag_popup, release_left_button]
  split_ifs <;> exact h

theorem invfn_kpasterisk (ev : input_event) (w : World) (h : InvFn w) :
    InvFn (handle_kpasterisk_key ev w).2 := by
  simp only [handle_kpasterisk_key, emit_event, hide_drag_popup, release_left_button, mouse_click,
    usleep]
  split_ifs <;> exact h

theorem invfn_kpminus (ev : input_event) (w : World) (h : InvFn w) :
    InvFn (handle_kpminus_key ev w).2 := by
  simp only [handle_kpminus_key, emit_event, hide_drag_popup, release_left_button, mouse_click,
    usleep]
  split_ifs <;> exact h

theorem invfn_numlock (ev : input_event) (w : World) (h : InvFn w) :
    InvFn (handle_numlock_key ev w).2 := by
  simp only [handle_numlock_key, emit_event, hide_drag_popup]
  split_ifs <;> exact h

theorem invfn_functional_handlers (ev : input_event) (env : Env) (w : World) (h : InvFn w) :
    InvFn (functional_handlers ev env w).2 := by
  unfold functional_handlers
  refine else_if_preserves InvFn _ _ (invfn_alt_adjustment ev env) ?_ w h
  refine else_if_preserves InvFn _ _ (invfn_scroll ev env) ?_
  refine else_if_preserves InvFn _ _ (invfn_ctrl_minus ev) ?_
  refine else_if_preserves InvFn _ _ (invfn_absolute_jump ev env) ?_
  refine else_if_preserves InvFn _ _ (invfn_numpad_direction ev) ?_
  refine else_if_preserves InvFn _ _ (invfn_kp5 ev) ?_
  refine else_if_preserves InvFn _ _ (invfn_kpslash ev) ?_
  refine else_if_preserves InvFn _ _ (invfn_kpasterisk ev) ?_
  exact else_if_preserves InvFn _ _ (invfn_kpminus ev) (invfn_numlock ev)

theorem inv_mouse_mode_handlers (ev : input_event) (env : Env) (b : Bool) (w : World)
    (h : Inv w) (hm : w.state.mouse_mode = true) :
    Inv (mouse_mode_handlers ev env b w).2 := by
  obtain ⟨a1, a2, a3⟩ := inv_disable_autoscroll ev env w h
  have a4 : (disable_autoscroll_if_not_allowed ev env w).state.mouse_mode = true := by
    rw [a2]; exact hm
  simp only [mouse_mode_handlers]
  split_ifs with c1 c2
  · exact (else_if_preserves (fun w => Inv w ∧ w.state.mouse_mode = true) _ _
      (inv_handle_panel_nav_key ev env) (inv_handle_non_nav_in_panel ev env) _ ⟨a1, a4⟩).1
  · exact a1
  · exact inv_of_invfn (invfn_functional_handlers ev env _ ⟨a1.1, a4, by simpa using c1⟩)

theorem inv_drag_auto_release (ev : input_event) (w : World) (h : Inv w) :
    Inv (drag_auto_release ev w) := by
  simp only [drag_auto_release]
  split_ifs <;> first | exact h | exact inv_release_left_button w h

theorem inv_forward_event (ev : input_event) (w : World) (h : Inv w) :
    Inv (forward_event ev w) := by
  simp only [forward_event, emit_event]
  split_ifs <;> exact inv_congr h rfl rfl rfl rfl rfl

theorem inv_ite {c : Prop} [Decidable c] {a b : World} (ha : Inv a) (hb : Inv b) :
    Inv (if c then a else b) := by
  split_ifs
  · exact ha
  · exact hb

theorem inv_process_key_event (env : Env) (ev : input_event) (w : World) (h : Inv w) :
    Inv (process_key_event env ev w) := by
  have a := inv_modifier_handlers ev env w h
  have b : Inv (if (modifier_handlers ev env w).2.state.mouse_mode = true then
      mouse_mode_handlers ev env w.panel.active (modifier_handlers ev env w).2
      else (false, (modifier_handlers ev env w).2)).2 := by
    split_ifs with c
    · exact inv_mouse_mode_handlers ev env _ _ a c
    · exact a
  have c := inv_drag_auto_release ev _ b
  have d := inv_forward_event ev _ c
  unfold process_key_event
  exact inv_ite (inv_congr (inv_ite d c) rfl rfl rfl rfl rfl) (inv_ite d c)

theorem inv_movement_scroll (a b : Bool) (w : World) (h : Inv w) : Inv (movement_scroll a b w) := by
  simp only [movement_scroll, mouse_wheel, usleep, emit_event]
  split_ifs <;> exact h

theorem movement_scroll_frame (a b : Bool) (w : World) :
    (movement_scroll a b w).state = w.state ∧ (movement_scroll a b w).panel = w.panel := by
  simp only [movement_scroll, mouse_wheel, usleep, emit_event]
  split_ifs <;> exact ⟨rfl, rfl⟩

theorem inv_movement_tick (now : ℚ) (d : XDisplay) (w : World) (h : Inv w) :
    Inv (movement_tick now d w) := by
  simp only [movement_tick, usleep, warp_mouse]
  split_ifs <;>
    first
    | exact inv_congr h rfl rfl rfl rfl rfl
    | (refine inv_congr h ?_ ?_ ?_ ?_ ?_ <;>
        simp only [(movement_scroll_frame _ _ _).1, (movement_scroll_frame _ _ _).2])

theorem inv_of_reachable {w : World} (h : Reachable w) : Inv w := by
  induction h with
  | init c => exact inv_of_cleared rfl rfl (Or.inl rfl)
  | step _ hs ih =>
    cases hs with
    | event env ev w0 =>
      unfold process_event
      split_ifs
      · exact inv_process_key_event env ev _ ih
      · exact inv_congr ih rfl rfl rfl rfl rfl
    | tick now d w0 => exact inv_movement_tick now d _ ih
    | expire w0 =>
      obtain ⟨h1, h2, h3⟩ := ih
      exact ⟨h1, h2, fun hc => absurd hc (by simp [panel_expire])⟩

/-! ## Reachability of traces -/

theorem reachable_run_events (evs : List (Env × input_event)) (w : World) (h : Reachable w) :
    Reachable (run_events evs w) := by
  induction evs generalizing w with
  | nil => exact h
  | cons e rest ih => exact ih _ (Reachable.step h (Step.event e.1 e.2 w))

/-- C3: in every world reachable from the initial state by key events
processed by the router (mode toggles, autoscroll toggles, the
disable-autoscroll guard, panel show and hide included), by ticks of the
movement engine and by panel timeouts, `autoscroll_up_active` and
`autoscroll_down_active` are never both true. -/
theorem C3_autoscroll_flags_exclusive (w : World) (h : Reachable w) :
    ¬ (w.state.autoscroll_up_active = true ∧ w.state.autoscroll_down_active = true) :=
  (inv_of_reachable h).1

/-- C3 at a concrete input: after mouse mode is switched on and Ctrl+KP+
is pressed (autoscroll up on), the two flags are not both set. -/
theorem C3_witness_after_ctrl_kpplus :
    (run_events trace_autoscroll_up (init_world default_config)).state.autoscroll_up_active = true ∧
    ¬ ((run_events trace_autoscroll_up (init_world default_config)).state.autoscroll_up_active
          = true ∧
       (run_events trace_autoscroll_up (init_world default_config)).state.autoscroll_down_active
          = true) :=
  ⟨by decide!, C3_autoscroll_flags_exclusive _
    (reachable_run_events _ _ (Reachable.init default_config))⟩

/-! ## Single events outside mouse mode -/

theorem ctrl_press_arms_outside_mouse_mode (w : World) (env : Env) (code : Nat)
    (hc : code = KEY_LEFTCTRL ∨ code = KEY_RIGHTCTRL)
    (hmm : w.state.mouse_mode = false) (hnd : ¬ double_press env.now w.last_ctrl_press) :
    (process_event env (key code 1) w).state.mouse_mode = false ∧
    (process_event env (key code 1) w).panel.active = w.panel.active ∧
    (process_event env (key code 1) w).state.ctrl_pressed = true ∧
    (process_event env (key code 1) w).state.pending_ctrl = true ∧
    (process_event env (key code 1) w).state.pending_ctrl_code = code ∧
    (process_event env (key code 1) w).state.left_ctrl_forwarded = w.state.left_ctrl_forwarded ∧
    (process_event env (key code 1) w).state.right_ctrl_forwarded =
      w.state.right_ctrl_forwarded ∧
    (process_event env (key code 1) w).uinput_out = w.uinput_out := by
  simp only [KEY_LEFTCTRL, KEY_RIGHTCTRL] at hc
  rcases hc with hc | hc <;>
    simp [process_event, process_key_event, modifier_handlers, else_if, handle_ctrl_key, key,
      drag_auto_release, hmm, hnd, hc]

theorem plain_key_outside_mouse_mode (w : World) (env : Env) (K : Nat) (v : Int)
    (hK : K ≠ KEY_LEFTCTRL ∧ K ≠ KEY_RIGHTCTRL ∧ K ≠ KEY_LEFTALT ∧ K ≠ KEY_RIGHTALT ∧
      K ≠ KEY_LEFTSHIFT ∧ K ≠ KEY_RIGHTSHIFT)
    (hesc : w.panel.active = false ∨ K ≠ KEY_ESC ∨ v ≠ 1)
    (hmm : w.state.mouse_mode = false) :
    (process_event env (key K v) w).state.mouse_mode = false ∧
    (process_event env (key K v) w).panel.active = w.panel.active ∧
    (process_event env (key K v) w).state.ctrl_pressed = w.state.ctrl_pressed ∧
    (process_event env (key K v) w).state.pending_ctrl =
      (w.state.pending_ctrl && !w.state.ctrl_pressed) ∧
    (process_event env (key K v) w).state.pending_ctrl_code = w.state.pending_ctrl_code ∧
    (process_event env (key K v) w).state.left_ctrl_forwarded =
      (w.state.left_ctrl_forwarded ||
        (w.state.ctrl_pressed && w.state.pending_ctrl &&
          decide (w.state.pending_ctrl_code = KEY_LEFTCTRL))) ∧
    (process_event env (key K v) w).state.right_ctrl_forwarded =
      (w.state.right_ctrl_forwarded ||
        (w.state.ctrl_pressed && w.state.pending_ctrl &&
          !decide (w.state.pending_ctrl_code = KEY_LEFTCTRL))) ∧
    (process_event env (key K v) w).uinput_out =
      w.uinput_out ++
        (if w.state.ctrl_pressed = true ∧ w.state.pending_ctrl = true
          then [key w.state.pending_ctrl_code 1, sync] else []) ++ [key K v, sync] := by
  obtain ⟨k1, k2, k3, k4, k5, k6⟩ := hK
  simp only [KEY_LEFTCTRL, KEY_RIGHTCTRL, KEY_LEFTALT, KEY_RIGHTALT, KEY_LEFTSHIFT,
    KEY_RIGHTSHIFT, KEY_ESC] at k1 k2 k3 k4 k5 k6 hesc
  have hcond : ¬ (w.panel.active = true ∧ K = 1 ∧ v = 1) := by
    rintro ⟨a, b, c⟩
    rcases hesc with h | h | h
    · rw [h] at a; exact absurd a (by decide)
    · exact h b
    · exact h c
  by_cases hp : w.panel.active = true
  · have h2 : ¬ K = 1 ∨ ¬ v = 1 := by
      by_cases hk : K = 1
      · exact Or.inr (fun hv => hcond ⟨hp, hk, hv⟩)
      · exact Or.inl hk
    cases hcp : w.state.ctrl_pressed <;> cases hpd : w.state.pending_ctrl <;>
      simp [process_event, process_key_event, modifier_handlers, else_if, handle_ctrl_key,
        handle_alt_key, handle_shift_key, handle_esc_in_panel, key, drag_auto_release,
        release_left_button, hide_drag_popup, forward_event, emit_event, sync, hmm, k1, k2, k3,
        k4, k5, k6, hp, h2, hcp, hpd]
    exact ⟨Bool.or_comm _ _, Bool.or_comm _ _⟩
  · cases hcp : w.state.ctrl_pressed <;> cases hpd : w.state.pending_ctrl <;>
      simp [process_event, process_key_event, modifier_handlers, else_if, handle_ctrl_key,
        handle_alt_key, handle_shift_key, handle_esc_in_panel, key, drag_auto_release,
        release_left_button, hide_drag_popup, forward_event, emit_event, sync, hmm, k1, k2, k3,
        k4, k5, k6, hp, hcp, hpd]
    exact ⟨Bool.or_comm _ _, Bool.or_comm _ _⟩

theorem ctrl_release_outside_mouse_mode (w : World) (env : Env)
    (hmm : w.state.mouse_mode = false) :
    (process_event env (key KEY_LEFTCTRL 0) w).uinput_out =
      w.uinput_out ++
        (if w.state.left_ctrl_forwarded = true then [key KEY_LEFTCTRL 0, sync] else []) ∧
    (process_event env (key KEY_RIGHTCTRL 0) w).uinput_out =
      w.uinput_out ++
        (if w.state.right_ctrl_forwarded = true then [key KEY_RIGHTCTRL 0, sync] else []) := by
  constructor <;>
    simp [process_event, process_key_event, modifier_handlers, else_if, handle_ctrl_key, key,
      drag_auto_release, emit_event, sync, hmm] <;>
    split_ifs <;> simp

theorem ctrl_press_arms_clock (w : World) (env : Env) (code : Nat)
    (hc : code = KEY_LEFTCTRL ∨ code = KEY_RIGHTCTRL)
    (hmm : w.state.mouse_mode = false) (hnd : ¬ double_press env.now w.last_ctrl_press) :
    (process_event env (key code 1) w).last_ctrl_press = env.now ∧
    (process_event env (key code 1) w).feedback_log = w.feedback_log := by
  simp only [KEY_LEFTCTRL, KEY_RIGHTCTRL] at hc
  rcases hc with hc | hc <;>
    simp [process_event, process_key_event, modifier_handlers, else_if, handle_ctrl_key, key,
      drag_auto_release, hmm, hnd, hc]

theorem ctrl_release_frame_outside_mouse_mode (w : World) (env : Env) (code : Nat)
    (hc : code = KEY_LEFTCTRL ∨ code = KEY_RIGHTCTRL)
    (hmm : w.state.mouse_mode = false) :
    (process_event env (key code 0) w).state.mouse_mode = false ∧
    (process_event env (key code 0) w).panel.active = w.panel.active ∧
    (process_event env (key code 0) w).last_ctrl_press = w.last_ctrl_press ∧
    (process_event env (key code 0) w).feedback_log = w.feedback_log := by
  simp only [KEY_LEFTCTRL, KEY_RIGHTCTRL] at hc
  rcases hc with hc | hc <;>
    simp [process_event, process_key_event, modifier_handlers, else_if, handle_ctrl_key, key,
      drag_auto_release, emit_event, hmm, hc]

theorem ctrl_double_press_turns_mode_on (w : World) (env : Env) (code : Nat)
    (hc : code = KEY_LEFTCTRL ∨ code = KEY_RIGHTCTRL)
    (hmm : w.state.mouse_mode = false) (hp : w.panel.active = false)
    (hd : double_press env.now w.last_ctrl_press) :
    (process_event env (key code 1) w).state.mouse_mode = true ∧
    (process_event env (key code 1) w).feedback_log =
      w.feedback_log ++ [Feedback.text "Mouse Mode ON"] ∧
    (process_event env (key code 1) w).uinput_out = w.uinput_out ∧
    (process_event env (key code 1) w).last_ctrl_press = 0 := by
  simp only [KEY_LEFTCTRL, KEY_RIGHTCTRL] at hc
  rcases hc with hc | hc <;>
    simp [process_event, process_key_event, modifier_handlers, else_if, handle_ctrl_key, key,
      drag_auto_release, show_feedback, mouse_mode_handlers, disable_autoscroll_if_not_allowed,
      functional_handlers, handle_alt_adjustment_key, alt_adjustment_target,
      handle_scroll_and_autoscroll_key, handle_ctrl_minus_key, handle_absolute_jump_key,
      handle_numpad_direction_key, numpad_index, handle_kp5_key, handle_kpslash_key,
      handle_kpasterisk_key, handle_kpminus_key, handle_numlock_key, hmm, hp, hd, hc]

theorem run_events_four (a b c d : Env × input_event) (w : World) :
    run_events [a, b, c, d] w =
      process_event d.1 d.2 (process_event c.1 c.2 (process_event b.1 b.2
        (process_event a.1 a.2 w))) := rfl

theorem run_events_three (a b c : Env × input_event) (w : World) :
    run_events [a, b, c] w =
      process_event c.1 c.2 (process_event b.1 b.2 (process_event a.1 a.2 w)) := rfl

/-! ## Control pass-through and the mode toggle -/

/-- C5 (amended): with `mouse_mode` false, no Control forwarded or pending
beforehand, a Left Control press that is not a double-press, and `K` any key
that is not Control, Alt or Shift and is not Escape while the configuration
panel is active, the sequence press LCtrl, press `K`, release `K`, release
LCtrl (at any clock readings) makes the virtual keyboard sink receive
exactly, in order: press LCtrl, press `K`, release `K`, release LCtrl, each
followed by a sync marker. -/
theorem C5_ctrl_chord_forwarded_amended (w : World) (K : Nat) (e1 e2 e3 e4 : Env)
    (hmm : w.state.mouse_mode = false)
    (hl : w.state.left_ctrl_forwarded = false) (_hr : w.state.right_ctrl_forwarded = false)
    (_hpend : w.state.pending_ctrl = false)
    (hnd : ¬ double_press e1.now w.last_ctrl_press)
    (hK : K ≠ KEY_LEFTCTRL ∧ K ≠ KEY_RIGHTCTRL ∧ K ≠ KEY_LEFTALT ∧ K ≠ KEY_RIGHTALT ∧
      K ≠ KEY_LEFTSHIFT ∧ K ≠ KEY_RIGHTSHIFT)
    (hesc : w.panel.active = false ∨ K ≠ KEY_ESC) :
    (run_events [(e1, key KEY_LEFTCTRL 1), (e2, key K 1), (e3, key K 0),
        (e4, key KEY_LEFTCTRL 0)] w).uinput_out =
      w.uinput_out ++ [key KEY_LEFTCTRL 1, sync, key K 1, sync, key K 0, sync,
        key KEY_LEFTCTRL 0, sync] := by
  rw [run_events_four]
  obtain ⟨a1, a2, a3, a4, a5, a6, a7, a8⟩ :=
    ctrl_press_arms_outside_mouse_mode w e1 KEY_LEFTCTRL (Or.inl rfl) hmm hnd
  have hesc2 : (process_event e1 (key KEY_LEFTCTRL 1) w).panel.active = false ∨ K ≠ KEY_ESC ∨
      (1 : Int) ≠ 1 := by
    rw [a2]; rcases hesc with h | h
    · exact Or.inl h
    · exact Or.inr (Or.inl h)
  obtain ⟨b1, b2, b3, b4, b5, b6, b7, b8⟩ :=
    plain_key_outside_mouse_mode (process_event e1 (key KEY_LEFTCTRL 1) w) e2 K 1 hK hesc2 a1
  obtain ⟨c1, c2, c3, c4, c5, c6, c7, c8⟩ :=
    plain_key_outside_mouse_mode (process_event e2 (key K 1)
      (process_event e1 (key KEY_LEFTCTRL 1) w)) e3 K 0 hK (Or.inr (Or.inr (by decide))) b1
  have d := (ctrl_release_outside_mouse_mode (process_event e3 (key K 0)
    (process_event e2 (key K 1) (process_event e1 (key KEY_LEFTCTRL 1) w))) e4 c1).1
  simp only [d, c8, c6, c3, c4, c5, b8, b6, b3, b4, b5, a3, a4, a5, a6, a8, hl]
  simp [key, sync]

/-- C5 (amended) at a concrete input: from the initial state at clock 1000,
Control held around the key A. -/
theorem C5_witness_ctrl_a :
    (run_events [(at_time 1000, key KEY_LEFTCTRL 1), (at_time (1000 + 10 / 100), key KEY_A 1),
        (at_time (1000 + 12 / 100), key KEY_A 0),
        (at_time (1000 + 15 / 100), key KEY_LEFTCTRL 0)] (init_world default_config)).uinput_out =
      (init_world default_config).uinput_out ++ [key KEY_LEFTCTRL 1, sync, key KEY_A 1, sync,
        key KEY_A 0, sync, key KEY_LEFTCTRL 0, sync] :=
  C5_ctrl_chord_forwarded_amended (init_world default_config) KEY_A (at_time 1000)
    (at_time (1000 + 10 / 100)) (at_time (1000 + 12 / 100)) (at_time (1000 + 15 / 100))
    rfl rfl rfl rfl (by decide!) (by decide) (Or.inl rfl)

/-- C5 as stated fails: the world reached by `trace_panel_left_open` has
`mouse_mode` false, no Control forwarded or pending and the panel still
active; there the sequence press LCtrl, press Escape, release Escape,
release LCtrl (the Control press not being a double-press) puts press
LCtrl, release Escape, release LCtrl on the keyboard sink: the Escape
press is taken by the panel and never forwarded. -/
theorem C5_counterexample_escape_in_panel :
    Reachable (run_events trace_panel_left_open (init_world default_config)) ∧
    (run_events trace_panel_left_open (init_world default_config)).state.mouse_mode = false ∧
    (run_events trace_panel_left_open (init_world default_config)).panel.active = true ∧
    (run_events trace_panel_left_open (init_world default_config)).state.left_ctrl_forwarded
      = false ∧
    (run_events trace_panel_left_open (init_world default_config)).state.right_ctrl_forwarded
      = false ∧
    (run_events trace_panel_left_open (init_world default_config)).state.pending_ctrl = false ∧
    ¬ double_press 1002
      (run_events trace_panel_left_open (init_world default_config)).last_ctrl_press ∧
    (run_events (ctrl_chord 1002 KEY_ESC)
      (run_events trace_panel_left_open (init_world default_config))).uinput_out =
      (run_events trace_panel_left_open (init_world default_config)).uinput_out ++
        [key KEY_LEFTCTRL 1, sync, key KEY_ESC 0, sync, key KEY_LEFTCTRL 0, sync] ∧
    (run_events (ctrl_chord 1002 KEY_ESC)
      (run_events trace_panel_left_open (init_world default_config))).uinput_out ≠
      (run_events trace_panel_left_open (init_world default_config)).uinput_out ++
        [key KEY_LEFTCTRL 1, sync, key KEY_ESC 1, sync, key KEY_ESC 0, sync,
          key KEY_LEFTCTRL 0, sync] :=
  ⟨reachable_run_events _ _ (Reachable.init default_config), by decide!⟩

/-- C6: starting from the initial state (`mouse_mode` false, no Control
press recorded) with any configuration, pressing LCtrl at clock `T0`,
releasing it at `T0 + 0.05` and pressing it again at `T0 + 0.20` leaves
`mouse_mode` true, requests exactly the popup "Mouse Mode ON" and writes
nothing to the virtual keyboard sink. `T0` is the wall clock of the first
press (`get_time()`, seconds since the epoch), at least the threshold 0.3. -/
theorem C6_double_tap_turns_mode_on (c : Config) (T0 : ℚ) (d1 d2 d3 : Option XDisplay)
    (hT : DOUBLE_PRESS_THRESHOLD ≤ T0) :
    (run_events [(⟨T0, d1⟩, key KEY_LEFTCTRL 1), (⟨T0 + 5 / 100, d2⟩, key KEY_LEFTCTRL 0),
        (⟨T0 + 20 / 100, d3⟩, key KEY_LEFTCTRL 1)] (init_world c)).state.mouse_mode = true ∧
    (run_events [(⟨T0, d1⟩, key KEY_LEFTCTRL 1), (⟨T0 + 5 / 100, d2⟩, key KEY_LEFTCTRL 0),
        (⟨T0 + 20 / 100, d3⟩, key KEY_LEFTCTRL 1)] (init_world c)).feedback_log =
      [Feedback.text "Mouse Mode ON"] ∧
    (run_events [(⟨T0, d1⟩, key KEY_LEFTCTRL 1), (⟨T0 + 5 / 100, d2⟩, key KEY_LEFTCTRL 0),
        (⟨T0 + 20 / 100, d3⟩, key KEY_LEFTCTRL 1)] (init_world c)).uinput_out = [] := by
  have h1 : ¬ double_press (Env.mk T0 d1).now (init_world c).last_ctrl_press := by
    simp only [double_press, DOUBLE_PRESS_THRESHOLD, init_world] at hT ⊢
    linarith
  rw [run_events_three]
  obtain ⟨a1, a2, a3, a4, a5, a6, a7, a8⟩ :=
    ctrl_press_arms_outside_mouse_mode (init_world c) ⟨T0, d1⟩ KEY_LEFTCTRL (Or.inl rfl) rfl h1
  obtain ⟨a9, a10⟩ := ctrl_press_arms_clock (init_world c) ⟨T0, d1⟩ KEY_LEFTCTRL (Or.inl rfl) rfl h1
  obtain ⟨b1, b2, b3, b4⟩ := ctrl_release_frame_outside_mouse_mode
    (process_event ⟨T0, d1⟩ (key KEY_LEFTCTRL 1) (init_world c)) ⟨T0 + 5 / 100, d2⟩ KEY_LEFTCTRL
    (Or.inl rfl) a1
  have b5 := (ctrl_release_outside_mouse_mode
    (process_event ⟨T0, d1⟩ (key KEY_LEFTCTRL 1) (init_world c)) ⟨T0 + 5 / 100, d2⟩ a1).1
  have h2 : double_press (Env.mk (T0 + 20 / 100) d3).now
      (process_event ⟨T0 + 5 / 100, d2⟩ (key KEY_LEFTCTRL 0)
        (process_event ⟨T0, d1⟩ (key KEY_LEFTCTRL 1) (init_world c))).last_ctrl_press := by
    rw [b3, a9]
    simp only [double_press, DOUBLE_PRESS_THRESHOLD]
    linarith
  obtain ⟨c1, c2, c3, c4⟩ := ctrl_double_press_turns_mode_on _ ⟨T0 + 20 / 100, d3⟩ KEY_LEFTCTRL
    (Or.inl rfl) b1 (by rw [b2, a2]; rfl) h2
  refine ⟨c1, ?_, ?_⟩
  · rw [c2, b4, a10]; rfl
  · rw [c3, b5, a6, a8]; rfl

/-- C6 at a concrete input: the first press at clock 1000. -/
theorem C6_witness_clock_1000 :
    (run_events [(⟨1000, none⟩, key KEY_LEFTCTRL 1), (⟨1000 + 5 / 100, none⟩, key KEY_LEFTCTRL 0),
        (⟨1000 + 20 / 100, none⟩, key KEY_LEFTCTRL 1)]
      (init_world default_config)).state.mouse_mode = true :=
  (C6_double_tap_turns_mode_on default_config 1000 none none none (by decide!)).1

/-- C7 fails on the code: from the initial state, a Control double-tap
(mouse mode on) and an Alt double-tap (panel open) lead to a world with
neither forwarded flag set; there a press of Left Control followed at once
by its release leaves a press of Left Control, with no release, on the
virtual keyboard sink. The press is written by `handle_non_nav_in_panel`,
which does not set the forwarded flag. -/
theorem C7_ctrl_tap_in_panel_leaks_press :
    (run_events trace_panel_open (init_world default_config)).state.mouse_mode = true ∧
    (run_events trace_panel_open (init_world default_config)).panel.active = true ∧
    (run_events trace_panel_open (init_world default_config)).state.left_ctrl_forwarded = false ∧
    (run_events trace_panel_open (init_world default_config)).state.right_ctrl_forwarded = false ∧
    (run_events [(at_time 1002, key KEY_LEFTCTRL 1),
        (at_time (1002 + 10 / 100), key KEY_LEFTCTRL 0)]
      (run_events trace_panel_open (init_world default_config))).uinput_out =
      (run_events trace_panel_open (init_world default_config)).uinput_out ++
        [key KEY_LEFTCTRL 1, sync] := by
  decide!

/-! ## Outside mouse mode -/

/-- C8: in a reachable world with `mouse_mode` false, the panel inactive and
the left button not held, every key event whose code is not a Control key
is written to the virtual keyboard sink exactly once with its own code and
value, followed by a sync marker and preceded only, when a Control is held
and pending and the key is not Alt or Shift, by the retroactive press of the
pending Control; no direction, scroll, autoscroll or drag latch changes, and
nothing is written to the virtual mouse sink. -/
theorem C8_keys_pass_outside_mouse_mode (w : World) (hr : Reachable w) (env : Env) (ev : input_event)
    (hk : ev.type = EV_KEY) (hmm : w.state.mouse_mode = false) (hp : w.panel.active = false)
    (hh : w.state.left_button_held = false)
    (hc : ev.code ≠ KEY_LEFTCTRL ∧ ev.code ≠ KEY_RIGHTCTRL) :
    (process_event env ev w).uinput_out =
      w.uinput_out ++
        (if w.state.ctrl_pressed = true ∧ w.state.pending_ctrl = true ∧
            ev.code ≠ KEY_LEFTALT ∧ ev.code ≠ KEY_RIGHTALT ∧
            ev.code ≠ KEY_LEFTSHIFT ∧ ev.code ≠ KEY_RIGHTSHIFT
          then [⟨EV_KEY, w.state.pending_ctrl_code, 1⟩, sync] else []) ++
        [⟨EV_KEY, ev.code, ev.value⟩, sync] ∧
    (process_event env ev w).state.numpad_keys_pressed = w.state.numpad_keys_pressed ∧
    (process_event env ev w).state.scroll_keys_pressed = w.state.scroll_keys_pressed ∧
    (process_event env ev w).state.autoscroll_up_active = w.state.autoscroll_up_active ∧
    (process_event env ev w).state.autoscroll_down_active = w.state.autoscroll_down_active ∧
    (process_event env ev w).state.left_button_held = w.state.left_button_held ∧
    (process_event env ev w).state.drag_locked = w.state.drag_locked ∧
    (process_event env ev w).mouse_out = w.mouse_out := by
  obtain ⟨hu, hd⟩ := (inv_of_reachable hr).2.1 hmm
  obtain ⟨hc1, hc2⟩ := hc
  simp only [KEY_LEFTCTRL, KEY_RIGHTCTRL] at hc1 hc2
  by_cases ha : ev.code = 56 ∨ ev.code = 100
  · simp [process_event, process_key_event, modifier_handlers, else_if, handle_ctrl_key,
      handle_alt_key, drag_auto_release, emit_event, sync, hk, hmm, hp, hh, hc1, hc2, ha]
    rcases ha with ha | ha <;> simp [ha]
  · have ha1 : ev.code ≠ 56 := fun e => ha (Or.inl e)
    have ha2 : ev.code ≠ 100 := fun e => ha (Or.inr e)
    by_cases hs : ev.code = 42 ∨ ev.code = 54
    · simp [process_event, process_key_event, modifier_handlers, else_if, handle_ctrl_key,
        handle_alt_key, handle_shift_key, drag_auto_release, emit_event, sync, hk, hmm, hp, hh,
        hc1, hc2, ha1, ha2, hs, hu, hd]
      rcases hs with hs | hs <;> simp [hs]
    · have hs1 : ev.code ≠ 42 := fun e => hs (Or.inl e)
      have hs2 : ev.code ≠ 54 := fun e => hs (Or.inr e)
      simp [process_event, process_key_event, modifier_handlers, else_if, handle_ctrl_key,
        handle_alt_key, handle_shift_key, drag_auto_release, forward_event, emit_event, sync, hk,
        hmm, hp, hh, hc1, hc2, ha1, ha2, hs1, hs2]
      split_ifs <;> simp_all

/-- C8 at a concrete input: the key A pressed in the initial state. -/
theorem C8_witness_key_a :
    (process_event (at_time 1000) (key KEY_A 1) (init_world default_config)).mouse_out =
      (init_world default_config).mouse_out :=
  (C8_keys_pass_outside_mouse_mode (init_world default_config) (Reachable.init default_config)
    (at_time 1000) (key KEY_A 1) rfl rfl rfl rfl ⟨by decide, by decide⟩).2.2.2.2.2.2.2

/-! ## Drag auto-release -/


@[simp] theorem adjust_config_value_mouse_out (i : Nat) (step : Int) (b : Bool) (w : World) :
    (adjust_config_value i step b w).mouse_out = w.mouse_out := by
  unfold adjust_config_value
  split
  · rfl
  · simp only [show_feedback]
    split_ifs <;> rfl

@[simp] theorem adjust_config_value_left_button_held (i : Nat) (step : Int) (b : Bool)
    (w : World) :
    (adjust_config_value i step b w).state.left_button_held = w.state.left_button_held :=
  (adjust_config_value_frame i step b w).2.2.2.1

@[simp] theorem adjust_config_value_drag_locked (i : Nat) (step : Int) (b : Bool) (w : World) :
    (adjust_config_value i step b w).state.drag_locked = w.state.drag_locked := by
  unfold adjust_config_value
  split
  · rfl
  · simp only [show_feedback]
    split_ifs <;> rfl

theorem panel_inactive_of_held {w : World} (hr : Reachable w)
    (hh : w.state.left_button_held = true) : w.panel.active = false := by
  have := (inv_of_reachable hr).2.2
  cases h : w.panel.active
  · rfl
  · rw [this h] at hh; exact absurd hh (by decide)

theorem drag_release_on_other_key (w : World) (hr : Reachable w) (env : Env) (code : Nat)
    (hh : w.state.left_button_held = true)
    (hn : ¬ is_numpad_key code) (hcs : ¬ is_ctrl_or_shift_key code) :
    (process_event env (key code 1) w).state.left_button_held = false ∧
    (process_event env (key code 1) w).state.drag_locked = false ∧
    (process_event env (key code 1) w).mouse_out =
      w.mouse_out ++ [⟨EV_KEY, BTN_LEFT, 0⟩, sync] := by
  have hp := panel_inactive_of_held hr hh
  simp only [is_numpad_key, is_ctrl_or_shift_key, KEY_KP7, KEY_KPDOT, KEY_KPSLASH, KEY_KPASTERISK,
    KEY_KPENTER, KEY_NUMLOCK, KEY_LEFTCTRL, KEY_RIGHTCTRL, KEY_LEFTSHIFT, KEY_RIGHTSHIFT,
    not_or] at hn hcs
  obtain ⟨n1, n2, n3, n4, n5⟩ := hn
  obtain ⟨c1, c2, c3, c4⟩ := hcs
  have k71 : code ≠ 71 := by omega
  have k72 : code ≠ 72 := by omega
  have k73 : code ≠ 73 := by omega
  have k74 : code ≠ 74 := by omega
  have k75 : code ≠ 75 := by omega
  have k76 : code ≠ 76 := by omega
  have k77 : code ≠ 77 := by omega
  have k78 : code ≠ 78 := by omega
  have k79 : code ≠ 79 := by omega
  have k80 : code ≠ 80 := by omega
  have k81 : code ≠ 81 := by omega
  have k82 : code ≠ 82 := by omega
  have k83 : code ≠ 83 := by omega
  have krange : ¬ (71 ≤ code ∧ code ≤ 83) := n1
  by_cases ha : code = 56 ∨ code = 100
  · by_cases hm : w.state.mouse_mode = true <;>
      by_cases ht : alt_double_press env.now w.state.last_alt_press <;>
      rcases ha with ha | ha <;>
      simp [process_event, process_key_event, modifier_handlers, else_if, handle_ctrl_key,
      handle_alt_key, handle_shift_key, handle_esc_in_panel, key, mouse_mode_handlers,
      disable_autoscroll_if_not_allowed, functional_handlers, handle_alt_adjustment_key,
      alt_adjustment_target, handle_scroll_and_autoscroll_key, handle_ctrl_minus_key,
      handle_absolute_jump_key, handle_numpad_direction_key, numpad_index, handle_kp5_key,
      handle_kpslash_key, handle_kpasterisk_key, handle_kpminus_key, handle_numlock_key,
      drag_auto_release, release_left_button, hide_drag_popup, forward_event, emit_event,
      show_feedback, show_config_panel, save_config, sync, hp, hh, hm, ht, ha]
  · have ha1 : code ≠ 56 := fun e => ha (Or.inl e)
    have ha2 : code ≠ 100 := fun e => ha (Or.inr e)
    simp [process_event, process_key_event, modifier_handlers, else_if, handle_ctrl_key,
      handle_alt_key, handle_shift_key, handle_esc_in_panel, key, mouse_mode_handlers,
      disable_autoscroll_if_not_allowed, functional_handlers, handle_alt_adjustment_key,
      alt_adjustment_target, handle_scroll_and_autoscroll_key, handle_ctrl_minus_key,
      handle_absolute_jump_key, handle_numpad_direction_key, numpad_index, handle_kp5_key,
      handle_kpslash_key, handle_kpasterisk_key, handle_kpminus_key, handle_numlock_key,
      drag_auto_release, release_left_button, hide_drag_popup, forward_event, emit_event,
      show_feedback, show_config_panel, save_config, sync, hp, hh, *]

theorem drag_release_on_kp0_kpdot (w : World) (hr : Reachable w) (env : Env) (code : Nat)
    (hh : w.state.left_button_held = true) (hc : code = KEY_KP0 ∨ code = KEY_KPDOT) :
    (process_event env (key code 1) w).state.left_button_held = false ∧
    (process_event env (key code 1) w).state.drag_locked = false ∧
    (process_event env (key code 1) w).mouse_out =
      w.mouse_out ++ [⟨EV_KEY, BTN_LEFT, 0⟩, sync] := by
  have hp := panel_inactive_of_held hr hh
  by_cases hm : w.state.mouse_mode = true <;> by_cases hal : w.state.alt_pressed = true <;>
    rcases hc with hc | hc <;>
    simp [process_event, process_key_event, modifier_handlers, else_if, handle_ctrl_key,
      handle_alt_key, handle_shift_key, handle_esc_in_panel, key, mouse_mode_handlers,
      disable_autoscroll_if_not_allowed, functional_handlers, handle_alt_adjustment_key,
      alt_adjustment_target, handle_scroll_and_autoscroll_key, handle_ctrl_minus_key,
      handle_absolute_jump_key, handle_numpad_direction_key, numpad_index, handle_kp5_key,
      handle_kpslash_key, handle_kpasterisk_key, handle_kpminus_key, handle_numlock_key,
      drag_auto_release, release_left_button, hide_drag_popup, forward_event, emit_event,
      show_feedback, show_config_panel, save_config, sync, hp, hh, hm, hal, hc]

theorem drag_kept_on_ctrl_or_shift (w : World) (hr : Reachable w) (env : Env) (code : Nat)
    (hh : w.state.left_button_held = true) (hc : is_ctrl_or_shift_key code) :
    (process_event env (key code 1) w).state.left_button_held = true ∧
    (process_event env (key code 1) w).state.drag_locked = w.state.drag_locked ∧
    (process_event env (key code 1) w).mouse_out = w.mouse_out := by
  have hp := panel_inactive_of_held hr hh
  simp only [is_ctrl_or_shift_key, KEY_LEFTCTRL, KEY_RIGHTCTRL, KEY_LEFTSHIFT, KEY_RIGHTSHIFT] at hc
  by_cases hm : w.state.mouse_mode = true <;>
    by_cases ht : double_press env.now w.last_ctrl_press <;>
    rcases hc with hc | hc | hc | hc <;>
    simp [process_event, process_key_event, modifier_handlers, else_if, handle_ctrl_key,
      handle_alt_key, handle_shift_key, handle_esc_in_panel, key, mouse_mode_handlers,
      disable_autoscroll_if_not_allowed, functional_handlers, handle_alt_adjustment_key,
      alt_adjustment_target, handle_scroll_and_autoscroll_key, handle_ctrl_minus_key,
      handle_absolute_jump_key, handle_numpad_direction_key, numpad_index, handle_kp5_key,
      handle_kpslash_key, handle_kpasterisk_key, handle_kpminus_key, handle_numlock_key,
      drag_auto_release, release_left_button, hide_drag_popup, forward_event, emit_event,
      show_feedback, show_config_panel, save_config, sync, hp, hh, hm, ht, hc]

theorem drag_auto_release_skips_numpad (code : Nat) (h : is_numpad_key code)
    (h0 : code ≠ KEY_KP0) (hd : code ≠ KEY_KPDOT) (w : World) :
    drag_auto_release (key code 1) w = w := by
  simp only [is_numpad_key, KEY_KP7, KEY_KPDOT, KEY_KPSLASH, KEY_KPASTERISK, KEY_KPENTER,
    KEY_NUMLOCK, KEY_KP0] at h h0 hd
  have hn : ((71 ≤ code ∧ code ≤ 83) ∨ code = 98 ∨ code = 55 ∨ code = 96 ∨ code = 69) := h
  cases hh : w.state.left_button_held <;>
    simp [drag_auto_release, key, hh, h0, hd]
  intro h1 h2 h3 h4 h5
  rcases hn with hn | hn | hn | hn | hn
  · omega
  · exact absurd hn h2
  · exact absurd hn h3
  · exact absurd hn h4
  · exact absurd hn h5

/-- C9 (amended): for every key press (value 1) arriving in a reachable
world while `left_button_held` is true: if the key's code is KP0 or KPDOT,
or is neither a numpad key (codes KP7..KPDOT, KP/, KP*, KPEnter, NumLock) nor
a Control or Shift key, the router releases the virtual left button (one
`BTN_LEFT` release and a sync on the mouse sink) and clears
`left_button_held` and `drag_locked`; if the code is a Control or a Shift,
the held button and the drag state are preserved and nothing is written to
the mouse sink; for the other numpad keys the auto-release block changes
nothing. -/
theorem C9_drag_release_amended (w : World) (hr : Reachable w) (env : Env) (code : Nat)
    (hh : w.state.left_button_held = true) :
    ((code = KEY_KP0 ∨ code = KEY_KPDOT ∨
        (¬ is_numpad_key code ∧ ¬ is_ctrl_or_shift_key code)) →
      (process_event env (key code 1) w).state.left_button_held = false ∧
      (process_event env (key code 1) w).state.drag_locked = false ∧
      (process_event env (key code 1) w).mouse_out =
        w.mouse_out ++ [⟨EV_KEY, BTN_LEFT, 0⟩, sync]) ∧
    (is_ctrl_or_shift_key code →
      (process_event env (key code 1) w).state.left_button_held = true ∧
      (process_event env (key code 1) w).state.drag_locked = w.state.drag_locked ∧
      (process_event env (key code 1) w).mouse_out = w.mouse_out) ∧
    (is_numpad_key code → code ≠ KEY_KP0 → code ≠ KEY_KPDOT →
      ∀ w1 : World, drag_auto_release (key code 1) w1 = w1) := by
  refine ⟨?_, drag_kept_on_ctrl_or_shift w hr env code hh,
    fun h h0 hd w1 => drag_auto_release_skips_numpad code h h0 hd w1⟩
  rintro (h | h | ⟨h1, h2⟩)
  · exact drag_release_on_kp0_kpdot w hr env code hh (Or.inl h)
  · exact drag_release_on_kp0_kpdot w hr env code hh (Or.inr h)
  · exact drag_release_on_other_key w hr env code hh h1 h2

/-- C9 (amended) at a concrete input: with the drag lock on, pressing the
key A releases the button. -/
theorem C9_witness_key_a_releases :
    (process_event (at_time 1002) (key KEY_A 1)
      (run_events trace_drag_locked (init_world default_config))).state.left_button_held
      = false :=
  ((C9_drag_release_amended (run_events trace_drag_locked (init_world default_config))
    (reachable_run_events _ _ (Reachable.init default_config)) (at_time 1002) KEY_A
    (by decide!)).1 (Or.inr (Or.inr ⟨by decide, by decide⟩))).1

/-- C9 as stated fails both ways: with the drag lock on (button held), a
press of KP0 releases the button and clears the drag state although KP0 is
in the claimed preserving set, and a press of KP8 keeps the button held
although KP8 is outside it. -/
theorem C9_counterexample_kp0_kp8 :
    (run_events trace_drag_locked (init_world default_config)).state.left_button_held = true ∧
    (run_events trace_drag_locked (init_world default_config)).state.drag_locked = true ∧
    (process_event (at_time 1002) (key KEY_KP0 1)
      (run_events trace_drag_locked (init_world default_config))).state.left_button_held
      = false ∧
    (process_event (at_time 1002) (key KEY_KP0 1)
      (run_events trace_drag_locked (init_world default_config))).state.drag_locked = false ∧
    (process_event (at_time 1002) (key KEY_KP8 1)
      (run_events trace_drag_locked (init_world default_config))).state.left_button_held
      = true ∧
    (process_event (at_time 1002) (key KEY_KP8 1)
      (run_events trace_drag_locked (init_world default_config))).state.drag_locked = true ∧
    (process_event (at_time 1002) (key KEY_KP8 1)
      (run_events trace_drag_locked (init_world default_config))).mouse_out =
      (run_events trace_drag_locked (init_world default_config)).mouse_out := by
  decide!

/-! ## Scroll step, diagonal step, wheel and smooth interval -/

theorem scroll_delta_increase (c : ℚ) (m : Int) :
    get_scroll_speed_delta c m true =
      (m : ℚ) * (if c ≤ 10000001 / 100000000 then 1 / 100 else 1 / 10) := by
  simp [get_scroll_speed_delta]

theorem scroll_delta_decrease (c : ℚ) (m : Int) :
    get_scroll_speed_delta c m false =
      (if ¬ c ≤ 10000001 / 100000000 ∧ c - (m : ℚ) * (1 / 10) < 1 / 10 then -((m : ℚ) * (1 / 100))
       else -((m : ℚ) * (if c ≤ 10000001 / 100000000 then 1 / 100 else 1 / 10))) := by
  unfold get_scroll_speed_delta
  by_cases h : c ≤ 10000001 / 100000000
  · have h1 : ¬ ((1 : ℚ) / 100 = 1 / 10) := by norm_num
    simp only [if_pos h, h1, false_and, not_true_eq_false, if_false, Bool.not_false, if_true]
    simp [h]
  · simp only [if_neg h, true_and, not_false_eq_true, Bool.not_false, if_true, sub_eq_add_neg]
    by_cases h3 : c + -((m : ℚ) * (1 / 10)) < 1 / 10
    · rw [if_pos h3, if_pos ⟨h, h3⟩]
    · rw [if_neg h3, if_neg (fun hh => h3 hh.2)]

theorem adjust_scroll_speed (w : World) (b : Bool) (step : Int) :
    (adjust_config_value 9 step b w).state.cfg.scroll_speed =
      max (1 / 100)
        (w.state.cfg.scroll_speed +
          get_scroll_speed_delta w.state.cfg.scroll_speed |step| (decide (step > 0))) := by
  cases b <;>
    simp [adjust_config_value, config_items, cfg_double, cfg_set_double, show_feedback, max_def] <;>
    split_ifs <;> first | rfl | linarith

theorem adjust_autoscroll_speed (w : World) (b : Bool) (step : Int) :
    (adjust_config_value 11 step b w).state.cfg.autoscroll_speed =
      max (1 / 100)
        (w.state.cfg.autoscroll_speed +
          get_scroll_speed_delta w.state.cfg.autoscroll_speed |step| (decide (step > 0))) := by
  cases b <;>
    simp [adjust_config_value, config_items, cfg_double, cfg_set_double, show_feedback, max_def] <;>
    split_ifs <;> first | rfl | linarith

theorem diag_components_floor (s : Int) (h : 0 < s) :
    diag_components s = (s * 7071 / 10000, s * 7071 / 10000) := by
  have h1 : ¬ s ≤ 0 := by omega
  have h2 : (s * 7071).tdiv 10000 = s * 7071 / 10000 :=
    Int.tdiv_eq_ediv (by omega) (by decide)
  have h3 : 0 ≤ s * 7071 / 10000 := Int.ediv_nonneg (by omega) (by decide)
  have h4 : c_int (((s * 7071 / 10000 : Int) : ℚ) + 1 / 2) = s * 7071 / 10000 := by
    have hq : (0 : ℚ) ≤ ((s * 7071 / 10000 : Int) : ℚ) + 1 / 2 := by
      have : (0 : ℚ) ≤ ((s * 7071 / 10000 : Int) : ℚ) := by exact_mod_cast h3
      linarith
    unfold c_int
    rw [if_pos hq, Int.floor_eq_iff]
    constructor <;> linarith
  simp only [diag_components, if_neg h1, h2, h4]

/-- C12: `diag_components` divides with the integer division of C before
adding 0.5, so it returns the integer part of `s * 0.7071`, not the nearest
integer: for `s = 5` (the default `mouse_speed`) it returns 3 on both axes,
and KP9 held shifts the pointer by `(+3, -3)`, while `5 * 0.7071 = 3.5355`
rounds to 4. For `s = 10` the result 7 agrees with the rounding. -/
theorem C12_diagonal_step_truncates :
    diag_components 5 = (3, 3) ∧
    round_nearest (5 * (7071 / 10000)) = 4 ∧
    movement_delta (world_kp9_held 5).state = (3, -3) ∧
    diag_components 10 = (7, 7) ∧
    round_nearest (10 * (7071 / 10000)) = 7 ∧
    movement_delta (world_kp9_held 10).state = (7, -7) := by
  decide!

/-- C18: when keyboards are found, a failure of `create_uinput` or of
`create_mouse` (return value -1) ends the process through `cleanup(0)`, that
is with exit status 0, whatever the other calls return; only the missing
keyboards give status 1, and `cleanup` gives 0 for every signal. -/
theorem C18_sink_failure_exits_zero (u m t sig : Int) :
    main_startup 0 (-1) m t = some 0 ∧
    main_startup 0 0 (-1) t = some 0 ∧
    main_startup (-1) u m t = some 1 ∧
    cleanup sig = 0 := by
  simp [main_startup, cleanup]

/-! ## Absolute jumps -/

theorem absolute_jump_warps (env : Env) (w : World) (d : XDisplay) (code : Nat)
    (hmm : w.state.mouse_mode = true) (hp : w.panel.active = false)
    (hc : w.state.ctrl_pressed = true) (hs : w.state.shift_pressed = true)
    (ha : w.state.alt_pressed = false) (hd : env.display = some d) (hk : is_jump_key code) :
    (process_event env (key code 1) w).warp_log =
      w.warp_log ++ [absolute_jump_target code w.state.cfg.jump_margin d] := by
  rcases hk with rfl | rfl | rfl | rfl | rfl | rfl | rfl | rfl | rfl <;>
    simp [process_event, process_key_event, modifier_handlers, mouse_mode_handlers,
      functional_handlers, else_if, key, handle_ctrl_key, handle_alt_key, handle_shift_key,
      disable_autoscroll_if_not_allowed, handle_alt_adjustment_key,
      handle_scroll_and_autoscroll_key, handle_ctrl_minus_key, handle_absolute_jump_key,
      drag_auto_release, release_left_button, hide_drag_popup, show_feedback, warp_mouse,
      emit_event, hmm, hp, hc, hs, ha, hd]

theorem absolute_jump_table (m : Int) (d : XDisplay) (hw : 0 ≤ d.scr_w) (hh : 0 ≤ d.scr_h) :
    absolute_jump_target KEY_KP5 m d = (d.scr_w / 2, d.scr_h / 2) ∧
    absolute_jump_target KEY_KP7 m d = (m, m) ∧
    absolute_jump_target KEY_KP9 m d = (d.scr_w - 1 - m, m) ∧
    absolute_jump_target KEY_KP1 m d = (m, d.scr_h - 1 - m) ∧
    absolute_jump_target KEY_KP3 m d = (d.scr_w - 1 - m, d.scr_h - 1 - m) ∧
    absolute_jump_target KEY_KP8 m d = (if d.root_y = m then d.scr_w / 2 else d.root_x, m) ∧
    absolute_jump_target KEY_KP2 m d =
      (if d.root_y = d.scr_h - 1 - m then d.scr_w / 2 else d.root_x, d.scr_h - 1 - m) ∧
    absolute_jump_target KEY_KP4 m d = (m, if d.root_x = m then d.scr_h / 2 else d.root_y) ∧
    absolute_jump_target KEY_KP6 m d =
      (d.scr_w - 1 - m, if d.root_x = d.scr_w - 1 - m then d.scr_h / 2 else d.root_y) := by
  have h1 : d.scr_w.tdiv 2 = d.scr_w / 2 := Int.tdiv_eq_ediv hw (by decide)
  have h2 : d.scr_h.tdiv 2 = d.scr_h / 2 := Int.tdiv_eq_ediv hh (by decide)
  simp [absolute_jump_target, h1, h2]

theorem absolute_jump_on_screen (code : Nat) (m : Int) (d : XDisplay) (hk : is_jump_key code)
    (hm : 0 ≤ 2 * m) (hmw : 2 * m < d.scr_w) (hmh : 2 * m < d.scr_h)
    (hx : 0 ≤ d.root_x ∧ d.root_x < d.scr_w) (hy : 0 ≤ d.root_y ∧ d.root_y < d.scr_h) :
    0 ≤ (absolute_jump_target code m d).1 ∧ (absolute_jump_target code m d).1 < d.scr_w ∧
    0 ≤ (absolute_jump_target code m d).2 ∧ (absolute_jump_target code m d).2 < d.scr_h := by
  have h1 : d.scr_w.tdiv 2 = d.scr_w / 2 := Int.tdiv_eq_ediv (by omega) (by decide)
  have h2 : d.scr_h.tdiv 2 = d.scr_h / 2 := Int.tdiv_eq_ediv (by omega) (by decide)
  rcases hk with rfl | rfl | rfl | rfl | rfl | rfl | rfl | rfl | rfl <;>
    simp [absolute_jump_target, h1, h2] <;>
    (try split_ifs) <;> omega

/-- C20 (amended): in mouse mode with the panel inactive, Control and Shift held, Alt
not held and the display available, the press of a jump key (KP1..KP9)
appends exactly one warp, to the target chosen by
`handle_absolute_jump_key`; for every screen size `(w, h)`, margin `m` and
pointer position that target is: KP5 -> `(w/2, h/2)`; KP7 -> `(m, m)`;
KP9 -> `(w-1-m, m)`; KP1 -> `(m, h-1-m)`; KP3 -> `(w-1-m, h-1-m)`;
KP8/KP2 -> `y = m` / `h-1-m` and KP4/KP6 -> `x = m` / `w-1-m` with the other
coordinate unchanged, unless the pointer is already on that line, when the
other coordinate becomes the screen centre; and when `0 <= 2m < min(w,h)`
and the pointer is on screen, the target is on screen. -/
theorem C20_absolute_jump_targets (env : Env) (w : World) (d : XDisplay) (code : Nat)
    (hmm : w.state.mouse_mode = true) (hp : w.panel.active = false)
    (hc : w.state.ctrl_pressed = true) (hs : w.state.shift_pressed = true)
    (ha : w.state.alt_pressed = false) (hd : env.display = some d) (hk : is_jump_key code)
    (hw : 0 ≤ d.scr_w) (hh : 0 ≤ d.scr_h) :
    (process_event env (key code 1) w).warp_log =
      w.warp_log ++ [absolute_jump_target code w.state.cfg.jump_margin d] ∧
    (∀ m : Int,
      absolute_jump_target KEY_KP5 m d = (d.scr_w / 2, d.scr_h / 2) ∧
      absolute_jump_target KEY_KP7 m d = (m, m) ∧
      absolute_jump_target KEY_KP9 m d = (d.scr_w - 1 - m, m) ∧
      absolute_jump_target KEY_KP1 m d = (m, d.scr_h - 1 - m) ∧
      absolute_jump_target KEY_KP3 m d = (d.scr_w - 1 - m, d.scr_h - 1 - m) ∧
      absolute_jump_target KEY_KP8 m d = (if d.root_y = m then d.scr_w / 2 else d.root_x, m) ∧
      absolute_jump_target KEY_KP2 m d =
        (if d.root_y = d.scr_h - 1 - m then d.scr_w / 2 else d.root_x, d.scr_h - 1 - m) ∧
      absolute_jump_target KEY_KP4 m d = (m, if d.root_x = m then d.scr_h / 2 else d.root_y) ∧
      absolute_jump_target KEY_KP6 m d =
        (d.scr_w - 1 - m, if d.root_x = d.scr_w - 1 - m then d.scr_h / 2 else d.root_y)) ∧
    (∀ m : Int, 0 ≤ 2 * m → 2 * m < min d.scr_w d.scr_h →
      0 ≤ d.root_x ∧ d.root_x < d.scr_w → 0 ≤ d.root_y ∧ d.root_y < d.scr_h →
      0 ≤ (absolute_jump_target code m d).1 ∧ (absolute_jump_target code m d).1 < d.scr_w ∧
      0 ≤ (absolute_jump_target code m d).2 ∧ (absolute_jump_target code m d).2 < d.scr_h) := by
  refine ⟨absolute_jump_warps env w d code hmm hp hc hs ha hd hk,
    fun m => absolute_jump_table m d hw hh, ?_⟩
  intro m hm hlt hx hy
  exact absolute_jump_on_screen code m d hk hm (lt_of_lt_of_le hlt (min_le_left _ _))
    (lt_of_lt_of_le hlt (min_le_right _ _)) hx hy

/-- C20 (amended) at a concrete input: on a 1920x1080 screen with margin 20, Ctrl and
Shift held in mouse mode, KP5 warps to (960, 540). -/
theorem C20_witness_centre_1920_1080 :
    (process_event { now := 1000, display := some display_1920_1080 } (key KEY_KP5 1)
      world_ctrl_shift_held).warp_log = [(960, 540)] :=
  (C20_absolute_jump_targets { now := 1000, display := some display_1920_1080 }
    world_ctrl_shift_held display_1920_1080 KEY_KP5 rfl rfl rfl rfl rfl rfl (by decide)
    (by decide) (by decide)).1.trans (by decide)

/-- C20 as stated fails: in mouse mode with Control and Shift held and the
configuration panel open (a reachable state), a press of KP5 with the
display available makes no warp: the panel handlers take the key, close the
panel and write the press to the keyboard sink. With the panel inactive but
Alt held as well, KP5 is the JUMP_MARGIN adjustment (here from 20 to 19) and
makes no warp either. -/
theorem C20_counterexample_panel_open :
    Reachable (run_events trace_panel_open_ctrl_shift (init_world default_config)) ∧
    (run_events trace_panel_open_ctrl_shift (init_world default_config)).state.mouse_mode =
      true ∧
    (run_events trace_panel_open_ctrl_shift (init_world default_config)).state.ctrl_pressed =
      true ∧
    (run_events trace_panel_open_ctrl_shift (init_world default_config)).state.shift_pressed =
      true ∧
    (run_events trace_panel_open_ctrl_shift (init_world default_config)).panel.active = true ∧
    (process_event { now := 1002, display := some display_1920_1080 } (key KEY_KP5 1)
      (run_events trace_panel_open_ctrl_shift (init_world default_config))).warp_log = [] ∧
    (process_event { now := 1002, display := some display_1920_1080 } (key KEY_KP5 1)
      (run_events trace_panel_open_ctrl_shift (init_world default_config))).uinput_out =
      (run_events trace_panel_open_ctrl_shift (init_world default_config)).uinput_out ++
        [key KEY_KP5 1, sync] ∧
    (run_events trace_ctrl_shift_alt_held (init_world default_config)).panel.active = false ∧
    (run_events trace_ctrl_shift_alt_held (init_world default_config)).state.alt_pressed =
      true ∧
    (process_event { now := 1003, display := some display_1920_1080 } (key KEY_KP5 1)
      (run_events trace_ctrl_shift_alt_held (init_world default_config))).warp_log = [] ∧
    (process_event { now := 1003, display := some display_1920_1080 } (key KEY_KP5 1)
      (run_events trace_ctrl_shift_alt_held
        (init_world default_config))).state.cfg.jump_margin = 19 :=
  ⟨reachable_run_events _ _ (Reachable.init default_config), by decide!, by decide!, by decide!,
    by decide!, by decide!, by decide!, by decide!, by decide!, by decide!, by decide!⟩

/-! ## Autoscroll toggle and cancel -/

theorem off_congr {w w1 : World} (h : autoscroll_off w)
    (e1 : w1.state.autoscroll_up_active = w.state.autoscroll_up_active)
    (e2 : w1.state.autoscroll_down_active = w.state.autoscroll_down_active) :
    autoscroll_off w1 :=
  ⟨e1.trans h.1, e2.trans h.2⟩

theorem off_adjust_config_value (i : Nat) (step : Int) (b : Bool) (w : World)
    (h : autoscroll_off w) : autoscroll_off (adjust_config_value i step b w) := by
  obtain ⟨a1, a2, _⟩ := adjust_config_value_frame i step b w
  exact ⟨a1.trans h.1, a2.trans h.2⟩

theorem off_hide_config_panel (env : Env) (w : World) :
    autoscroll_off (hide_config_panel env w) := by
  simp only [hide_config_panel, show_jump_overlay, hide_margin_overlay, save_config,
    release_left_button, hide_drag_popup, emit_event]
  split_ifs <;> exact ⟨rfl, rfl⟩

theorem off_alt_adjustment (ev : input_event) (env : Env) (w : World) (h : autoscroll_off w) :
    autoscroll_off (handle_alt_adjustment_key ev env w).2 := by
  unfold handle_alt_adjustment_key
  by_cases hc : (!w.state.alt_pressed || decide (ev.value ≠ 1 ∧ ev.value ≠ 2)) = true
  · rw [if_pos hc]; exact h
  · rw [if_neg hc]
    cases ht : alt_adjustment_target ev w.state with
    | none => exact h
    | some t =>
      obtain ⟨index, increase, overlay⟩ := t
      simp only [save_config, show_margin_overlay, show_jump_overlay]
      refine off_congr (off_adjust_config_value _ _ _ _ ?_) rfl rfl
      split_ifs <;> exact h

theorem off_scroll_other_key (ev : input_event) (env : Env) (w : World) (h : autoscroll_off w)
    (hk : ev.code ≠ KEY_KPPLUS ∧ ev.code ≠ KEY_KPENTER) :
    autoscroll_off (handle_scroll_and_autoscroll_key ev env w).2 := by
  unfold handle_scroll_and_autoscroll_key
  rw [if_pos hk]; exact h

theorem off_ctrl_minus (ev : input_event) (w : World) (h : autoscroll_off w) :
    autoscroll_off (handle_ctrl_minus_key ev w).2 := by
  simp only [handle_ctrl_minus_key]
  split_ifs <;> exact h

theorem off_absolute_jump (ev : input_event) (env : Env) (w : World) (h : autoscroll_off w) :
    autoscroll_off (handle_absolute_jump_key ev env w).2 := by
  simp only [handle_absolute_jump_key, warp_mouse]
  split_ifs <;> (try split) <;> exact h

theorem off_numpad_direction (ev : input_event) (w : World) (h : autoscroll_off w) :
    autoscroll_off (handle_numpad_direction_key ev w).2 := by
  unfold handle_numpad_direction_key
  split
  · exact h
  · simp only []
    split_ifs <;> exact h

theorem off_kp5 (ev : input_event) (w : World) (h : autoscroll_off w) :
    autoscroll_off (handle_kp5_key ev w).2 := by
  simp only [handle_kp5_key, emit_event, hide_drag_popup]
  split_ifs <;> exact h

theorem off_kpslash (ev : input_event) (w : World) (h : autoscroll_off w) :
    autoscroll_off (handle_kpslash_key ev w).2 := by
  simp only [handle_kpslash_key, emit_event, hide_drag_popup, show_drag_popup, release_left_button]
  split_ifs <;> exact h

theorem off_kpasterisk (ev : input_event) (w : World) (h : autoscroll_off w) :
    autoscroll_off (handle_kpasterisk_key ev w).2 := by
  simp only [handle_kpasterisk_key, emit_event, hide_drag_popup, release_left_button, mouse_click,
    usleep]
  split_ifs <;> exact h

theorem off_kpminus (ev : input_event) (w : World) (h : autoscroll_off w) :
    autoscroll_off (handle_kpminus_key ev w).2 := by
  simp only [handle_kpminus_key, emit_event, hide_drag_popup, release_left_button, mouse_click,
    usleep]
  split_ifs <;> exact h

theorem off_numlock (ev : input_event) (w : World) (h : autoscroll_off w) :
    autoscroll_off (handle_numlock_key ev w).2 := by
  simp only [handle_numlock_key, emit_event, hide_drag_popup]
  split_ifs <;> exact h

theorem off_functional_handlers (ev : input_event) (env : Env) (w : World)
    (hk : ev.code ≠ KEY_KPPLUS ∧ ev.code ≠ KEY_KPENTER) (h : autoscroll_off w) :
    autoscroll_off (functional_handlers ev env w).2 := by
  unfold functional_handlers
  refine else_if_preserves autoscroll_off _ _ (off_alt_adjustment ev env) ?_ w h
  refine else_if_preserves autoscroll_off _ _
    (fun w1 a => off_scroll_other_key ev env w1 a hk) ?_
  refine else_if_preserves autoscroll_off _ _ (off_ctrl_minus ev) ?_
  refine else_if_preserves autoscroll_off _ _ (off_absolute_jump ev env) ?_
  refine else_if_preserves autoscroll_off _ _ (off_numpad_direction ev) ?_
  refine else_if_preserves autoscroll_off _ _ (off_kp5 ev) ?_
  refine else_if_preserves autoscroll_off _ _ (off_kpslash ev) ?_
  refine else_if_preserves autoscroll_off _ _ (off_kpasterisk ev) ?_
  exact else_if_preserves autoscroll_off _ _ (off_kpminus ev) (off_numlock ev)

theorem off_handle_panel_nav_key (ev : input_event) (env : Env) (w : World)
    (h : autoscroll_off w) : autoscroll_off (handle_panel_nav_key ev env w).2 := by
  have hu : autoscroll_off { w with state := { w.state with
      adjust_start_times := Function.update w.state.adjust_start_times ev.code env.now } } := h
  simp only [handle_panel_nav_key]
  split_ifs <;>
    first
    | exact h
    | exact off_congr h rfl rfl
    | exact off_congr (off_adjust_config_value _ _ _ _ hu) rfl rfl
    | exact off_congr (off_adjust_config_value _ _ _ _ h) rfl rfl

theorem off_handle_non_nav_in_panel (ev : input_event) (env : Env) (w : World)
    (h : autoscroll_off w) : autoscroll_off (handle_non_nav_in_panel ev env w).2 := by
  simp only [handle_non_nav_in_panel]
  split_ifs
  · exact h
  · exact off_congr (off_hide_config_panel env w) rfl rfl

theorem disable_autoscroll_clears (ev : input_event) (env : Env) (w : World)
    (hv : ev.value = 1) (hna : is_allowed ev.code w.state = false) :
    autoscroll_off (disable_autoscroll_if_not_allowed ev env w) ∧
    (disable_autoscroll_if_not_allowed ev env w).panel = w.panel ∧
    (disable_autoscroll_if_not_allowed ev env w).feedback_log =
      w.feedback_log ++
        (if (w.state.autoscroll_up_active = true ∨ w.state.autoscroll_down_active = true) ∧
            feedback_due env.now w.state.last_autoscroll_feedback
          then [Feedback.text "Autoscroll OFF"] else []) := by
  unfold is_allowed at hna
  have hv1 : ¬ ev.value ≠ 1 := by simp [hv]
  simp only [disable_autoscroll_if_not_allowed, if_neg hv1, hna, Bool.not_false, Bool.true_and,
    show_feedback]
  by_cases ha : (w.state.autoscroll_up_active || w.state.autoscroll_down_active) = true
  · have ha2 : w.state.autoscroll_up_active = true ∨ w.state.autoscroll_down_active = true := by
      simpa using ha
    rw [if_pos ha]
    by_cases hf : feedback_due env.now w.state.last_autoscroll_feedback
    · rw [if_pos hf, if_pos ⟨ha2, hf⟩]
      exact ⟨⟨rfl, rfl⟩, rfl, rfl⟩
    · rw [if_neg hf, if_neg (fun hh => hf hh.2)]
      exact ⟨⟨rfl, rfl⟩, rfl, by simp⟩
  · have ha2 : ¬ (w.state.autoscroll_up_active = true ∨ w.state.autoscroll_down_active = true) := by
      simpa using ha
    rw [if_neg ha, if_neg (fun hh => ha2 hh.1)]
    refine ⟨?_, rfl, by simp⟩
    simpa [autoscroll_off] using ha2

theorem off_mouse_mode_handlers (ev : input_event) (env : Env) (b : Bool) (w : World)
    (hv : ev.value = 1) (hna : is_allowed ev.code w.state = false)
    (hk : ev.code ≠ KEY_KPPLUS ∧ ev.code ≠ KEY_KPENTER) :
    autoscroll_off (mouse_mode_handlers ev env b w).2 := by
  obtain ⟨a1, _, _⟩ := disable_autoscroll_clears ev env w hv hna
  simp only [mouse_mode_handlers]
  split_ifs
  · exact else_if_preserves autoscroll_off _ _ (off_handle_panel_nav_key ev env)
      (off_handle_non_nav_in_panel ev env) _ a1
  · exact a1
  · exact off_functional_handlers ev env _ hk a1

theorem hide_config_panel_modifiers (env : Env) (w : World) :
    (hide_config_panel env w).state.mouse_mode = w.state.mouse_mode ∧
    (hide_config_panel env w).state.ctrl_pressed = w.state.ctrl_pressed ∧
    (hide_config_panel env w).state.alt_pressed = w.state.alt_pressed ∧
    (hide_config_panel env w).state.shift_pressed = w.state.shift_pressed := by
  simp only [hide_config_panel, show_jump_overlay, hide_margin_overlay, save_config,
    release_left_button, hide_drag_popup, emit_event]
  split_ifs <;> exact ⟨rfl, rfl, rfl, rfl⟩

theorem modifier_handlers_plain_key (ev : input_event) (env : Env) (w : World)
    (hna : is_allowed ev.code w.state = false) :
    (modifier_handlers ev env w).2.state.mouse_mode = w.state.mouse_mode ∧
    is_allowed ev.code (modifier_handlers ev env w).2.state = false := by
  have h0 := hna
  unfold is_allowed at h0
  simp only [Bool.or_eq_false_iff, decide_eq_false_iff_not] at h0
  obtain ⟨⟨⟨⟨⟨⟨⟨⟨c1, c2⟩, c3⟩, c4⟩, c5⟩, c6⟩, _⟩, _⟩, _⟩ := h0
  have e : (modifier_handlers ev env w).2 = w ∨
      (modifier_handlers ev env w).2 = hide_config_panel env w := by
    simp only [modifier_handlers, else_if, handle_ctrl_key, handle_alt_key, handle_shift_key,
      handle_esc_in_panel, c1, c2, c3, c4, c5, c6, ne_eq, not_false_eq_true, and_self, if_true,
      Bool.false_eq_true, if_false]
    split_ifs <;> simp
  rcases e with e | e
  · rw [e]; exact ⟨rfl, hna⟩
  · rw [e]
    obtain ⟨a1, a2, a3, a4⟩ := hide_config_panel_modifiers env w
    refine ⟨a1, ?_⟩
    rw [← hna]
    unfold is_allowed
    rw [a2, a3, a4]

theorem off_drag_auto_release (ev : input_event) (w : World) (h : autoscroll_off w) :
    autoscroll_off (drag_auto_release ev w) := by
  simp only [drag_auto_release, release_left_button, hide_drag_popup, emit_event]
  split_ifs <;> exact h

theorem off_forward_event (ev : input_event) (w : World) (h : autoscroll_off w) :
    autoscroll_off (forward_event ev w) := by
  simp only [forward_event, emit_event]
  split_ifs <;> exact off_congr h rfl rfl

theorem off_ite {c : Prop} [Decidable c] {a b : World} (ha : autoscroll_off a)
    (hb : autoscroll_off b) : autoscroll_off (if c then a else b) := by
  split_ifs
  · exact ha
  · exact hb

theorem off_after_other_key (env : Env) (w : World) (K : Nat)
    (hmm : w.state.mouse_mode = true) (hna : is_allowed K w.state = false)
    (hk : K ≠ KEY_KPPLUS ∧ K ≠ KEY_KPENTER) :
    autoscroll_off (process_event env (key K 1) w) := by
  obtain ⟨a1, a2⟩ := modifier_handlers_plain_key (key K 1) env w hna
  have b : autoscroll_off (if (modifier_handlers (key K 1) env w).2.state.mouse_mode = true then
      mouse_mode_handlers (key K 1) env w.panel.active (modifier_handlers (key K 1) env w).2
      else (false, (modifier_handlers (key K 1) env w).2)).2 := by
    rw [if_pos (a1.trans hmm)]
    exact off_mouse_mode_handlers (key K 1) env _ _ rfl a2 hk
  have c := off_drag_auto_release (key K 1) _ b
  have d := off_forward_event (key K 1) _ c
  unfold process_event
  rw [if_pos (by rfl)]
  unfold process_key_event
  exact off_ite (off_congr (off_ite d c) rfl rfl) (off_ite d c)

theorem off_after_scroll_key (env : Env) (w : World) (K : Nat)
    (hmm : w.state.mouse_mode = true) (hna : is_allowed K w.state = false)
    (hk : K = KEY_KPPLUS ∨ K = KEY_KPENTER) :
    autoscroll_off (process_event env (key K 1) w) := by
  have hc : w.state.ctrl_pressed = false := by
    rcases hk with rfl | rfl <;> cases h : w.state.ctrl_pressed <;> simp [is_allowed, h] at hna ⊢
  have ha : w.state.alt_pressed = false := by
    rcases hk with rfl | rfl <;> cases h : w.state.alt_pressed <;> simp [is_allowed, h] at hna ⊢
  unfold autoscroll_off
  by_cases hp : w.panel.active = true
  · rcases hk with rfl | rfl <;>
      simp [process_event, process_key_event, modifier_handlers, mouse_mode_handlers,
        functional_handlers, else_if, key, handle_ctrl_key, handle_alt_key, handle_shift_key,
        handle_esc_in_panel, handle_panel_nav_key, handle_non_nav_in_panel, hide_config_panel,
        disable_autoscroll_if_not_allowed, show_jump_overlay, hide_margin_overlay, save_config,
        drag_auto_release, release_left_button, hide_drag_popup, show_feedback,
        emit_event, hmm, hp, hc, ha]
  · have hp2 : w.panel.active = false := by simpa using hp
    rcases hk with rfl | rfl <;>
      simp [process_event, process_key_event, modifier_handlers, mouse_mode_handlers,
        functional_handlers, else_if, key, handle_ctrl_key, handle_alt_key, handle_shift_key,
        disable_autoscroll_if_not_allowed, handle_alt_adjustment_key,
        handle_scroll_and_autoscroll_key,
        drag_auto_release, release_left_button, hide_drag_popup, show_feedback,
        emit_event, hmm, hp2, hc, ha] <;>
      exact fun h _ => h

/-- C19 (amended): in mouse mode, (1) with the panel inactive, Control held,
Alt not held and `autoscroll_up_active` false, a KP+ press sets
`autoscroll_up_active` to true and `autoscroll_down_active` to false, and
requests the popup "Autoscroll UP ON" exactly when more than 0.8 s passed
since the last autoscroll popup; (2) for every key press that
`disable_autoscroll_if_not_allowed` does not allow (not a Control, Alt or
Shift key; not KP+, KPEnter or Shift+`=` under Ctrl; not KP+, KPEnter,
Shift+`=` or KPDOT under Alt), both autoscroll flags are false after the
event, regardless of the debounce; (3) for such a press the guard requests
the popup "Autoscroll OFF" exactly when a flag was set and more than 0.8 s
passed since the last autoscroll popup; and (4) with the panel inactive,
Control held, Alt not held and `autoscroll_up_active` already true, a KP+
press switches `autoscroll_up_active` off and leaves
`autoscroll_down_active` as it was, with the popup of the resulting state
under the same debounce. -/
theorem C19_autoscroll_toggle_cancel_amended (env : Env) (w : World) (K : Nat)
    (hmm : w.state.mouse_mode = true) :
    (w.panel.active = false → w.state.ctrl_pressed = true → w.state.alt_pressed = false →
      w.state.autoscroll_up_active = false →
      (process_event env (key KEY_KPPLUS 1) w).state.autoscroll_up_active = true ∧
      (process_event env (key KEY_KPPLUS 1) w).state.autoscroll_down_active = false ∧
      (process_event env (key KEY_KPPLUS 1) w).feedback_log =
        w.feedback_log ++
          (if feedback_due env.now w.state.last_autoscroll_feedback
            then [Feedback.text "Autoscroll UP ON"] else [])) ∧
    (is_allowed K w.state = false →
      (process_event env (key K 1) w).state.autoscroll_up_active = false ∧
      (process_event env (key K 1) w).state.autoscroll_down_active = false) ∧
    (is_allowed K w.state = false →
      (disable_autoscroll_if_not_allowed (key K 1) env w).feedback_log =
        w.feedback_log ++
          (if (w.state.autoscroll_up_active = true ∨ w.state.autoscroll_down_active = true) ∧
              feedback_due env.now w.state.last_autoscroll_feedback
            then [Feedback.text "Autoscroll OFF"] else [])) ∧
    (w.panel.active = false → w.state.ctrl_pressed = true → w.state.alt_pressed = false →
      w.state.autoscroll_up_active = true →
      (process_event env (key KEY_KPPLUS 1) w).state.autoscroll_up_active = false ∧
      (process_event env (key KEY_KPPLUS 1) w).state.autoscroll_down_active =
        w.state.autoscroll_down_active ∧
      (process_event env (key KEY_KPPLUS 1) w).feedback_log =
        w.feedback_log ++
          (if feedback_due env.now w.state.last_autoscroll_feedback
            then [Feedback.text (if w.state.autoscroll_down_active then "Autoscroll DOWN ON"
              else "Autoscroll OFF")] else [])) := by
  refine ⟨?_, ?_, ?_, ?_⟩
  · intro hp hc ha hu
    by_cases hf : feedback_due env.now w.state.last_autoscroll_feedback <;>
      simp [process_event, process_key_event, modifier_handlers, mouse_mode_handlers,
        functional_handlers, else_if, key, handle_ctrl_key, handle_alt_key, handle_shift_key,
        disable_autoscroll_if_not_allowed, handle_alt_adjustment_key,
        handle_scroll_and_autoscroll_key,
        drag_auto_release, release_left_button, hide_drag_popup, show_feedback,
        emit_event, hmm, hp, hc, ha, hu, hf]
  · intro hna
    by_cases hk : K = KEY_KPPLUS ∨ K = KEY_KPENTER
    · exact off_after_scroll_key env w K hmm hna hk
    · exact off_after_other_key env w K hmm hna (by simpa [not_or] using hk)
  · intro hna
    exact (disable_autoscroll_clears (key K 1) env w rfl hna).2.2
  · intro hp hc ha hu
    by_cases hf : feedback_due env.now w.state.last_autoscroll_feedback <;>
      cases hd : w.state.autoscroll_down_active <;>
      simp [process_event, process_key_event, modifier_handlers, mouse_mode_handlers,
        functional_handlers, else_if, key, handle_ctrl_key, handle_alt_key, handle_shift_key,
        disable_autoscroll_if_not_allowed, handle_alt_adjustment_key,
        handle_scroll_and_autoscroll_key,
        drag_auto_release, release_left_button, hide_drag_popup, show_feedback,
        emit_event, hmm, hp, hc, ha, hu, hf, hd]

/-- C19 (amended) at concrete inputs: with Control (and Shift) held in mouse
mode and autoscroll off, KP+ switches autoscroll up on; with autoscroll up
on, a press of A switches both flags off; and with Control held and
autoscroll up on, KP+ switches it off. -/
theorem C19_witness_kpplus_then_a :
    (process_event (at_time 1000) (key KEY_KPPLUS 1)
      world_ctrl_shift_held).state.autoscroll_up_active = true ∧
    ((process_event (at_time 1000) (key KEY_A 1) world_no_direction).state.autoscroll_up_active =
      false ∧
    (process_event (at_time 1000) (key KEY_A 1) world_no_direction).state.autoscroll_down_active =
      false) ∧
    (process_event (at_time 1000) (key KEY_KPPLUS 1)
      world_no_direction).state.autoscroll_up_active = false :=
  ⟨((C19_autoscroll_toggle_cancel_amended (at_time 1000) world_ctrl_shift_held KEY_A rfl).1
      rfl rfl rfl rfl).1,
    (C19_autoscroll_toggle_cancel_amended (at_time 1000) world_no_direction KEY_A rfl).2.1
      (by decide),
    ((C19_autoscroll_toggle_cancel_amended (at_time 1000) world_no_direction KEY_A rfl).2.2.2
      rfl rfl rfl rfl).1⟩

/-- C19 as stated fails twice. After Ctrl+KP+ has switched autoscroll up on
(mouse mode, panel inactive, Control held), a second KP+ press switches it
off instead of setting it to true. And with Control and Shift held, a press
of `=`, which is not a Control, Alt or Shift key nor KP+, KPEnter or KPDOT,
leaves autoscroll up on. -/
theorem C19_counterexample_second_press_and_equal :
    (run_events trace_autoscroll_up_released (init_world default_config)).state.mouse_mode = true ∧
    (run_events trace_autoscroll_up_released (init_world default_config)).panel.active = false ∧
    (run_events trace_autoscroll_up_released (init_world default_config)).state.ctrl_pressed =
      true ∧
    (process_event (at_time (1001 + 15 / 100)) (key KEY_KPPLUS 1)
      (run_events trace_autoscroll_up_released
        (init_world default_config))).state.autoscroll_up_active = false ∧
    (run_events trace_autoscroll_up_shift (init_world default_config)).state.mouse_mode = true ∧
    (run_events trace_autoscroll_up_shift (init_world default_config)).state.autoscroll_up_active =
      true ∧
    (process_event (at_time (1001 + 20 / 100)) (key KEY_EQUAL 1)
      (run_events trace_autoscroll_up_shift
        (init_world default_config))).state.autoscroll_up_active = true := by
  decide!

/-! ## The configuration file -/

theorem find_item_some (name : List Char) (l : List ConfigItem) (k j : Nat) (item : ConfigItem)
    (h : find_item name l k = some (j, item)) : k ≤ j ∧ l.get? (j - k) = some item := by
  induction l generalizing k with
  | nil => simp [find_item] at h
  | cons a rest ih =>
    unfold find_item at h
    split_ifs at h
    · simp only [Option.some.injEq, Prod.mk.injEq] at h
      obtain ⟨rfl, rfl⟩ := h
      simp
    · obtain ⟨h1, h2⟩ := ih (k + 1) h
      refine ⟨by omega, ?_⟩
      have e : j - k = (j - (k + 1)) + 1 := by omega
      rw [e, List.get?_cons_succ]
      exact h2

theorem find_item_get (name : List Char) (j : Nat) (item : ConfigItem)
    (h : find_item name config_items 0 = some (j, item)) :
    j < 13 ∧ config_items.get? j = some item ∧ item.bit = 2 ^ j := by
  obtain ⟨_, h2⟩ := find_item_some name config_items 0 j item h
  rw [Nat.sub_zero] at h2
  have hj : j < 13 := by
    have := List.get?_eq_some.mp h2
    obtain ⟨hl, _⟩ := this
    have e : config_items.length = 13 := rfl
    omega
  refine ⟨hj, h2, ?_⟩
  interval_cases j <;> (have e := Option.some.inj h2; rw [← e]; rfl)

theorem unseen_of_or {a i j : Nat} (h : (a ||| 2 ^ j) &&& 2 ^ i = 0) :
    i ≠ j ∧ a &&& 2 ^ i = 0 := by
  have h1 : ((a ||| 2 ^ j) &&& 2 ^ i).testBit i = false := by rw [h]; simp
  rw [Nat.testBit_and, Nat.testBit_or, Nat.testBit_two_pow_self, Nat.testBit_two_pow] at h1
  simp at h1
  refine ⟨fun e => h1.2 e.symm, ?_⟩
  rw [Nat.and_two_pow, h1.1]; simp

theorem item_value_cfg_set_int (c : Config) (i j : Nat) (v : Int) (hi : i < 13) (hj : j < 13)
    (hij : i ≠ j) : item_value (cfg_set_int c j v) i = item_value c i := by
  interval_cases j <;> interval_cases i <;> first | exact absurd rfl hij | rfl

theorem item_value_cfg_set_double (c : Config) (i j : Nat) (v : ℚ) (hi : i < 13) (hj : j < 13)
    (hij : i ≠ j) : item_value (cfg_set_double c j v) i = item_value c i := by
  interval_cases j <;> interval_cases i <;> first | exact absurd rfl hij | rfl

theorem load_line_unseen (s : Config × Nat) (line : List Char) (i : Nat) (hi : i < 13)
    (h : (load_line s line).2 &&& 2 ^ i = 0) :
    s.2 &&& 2 ^ i = 0 ∧ item_value (load_line s line).1 i = item_value s.1 i := by
  unfold load_line at h ⊢
  cases hp : cfg_parse_line line 64 64 with
  | none => rw [hp] at h; exact ⟨h, rfl⟩
  | some nv =>
    obtain ⟨name, value⟩ := nv
    simp only [hp] at h ⊢
    cases hf : find_item name config_items 0 with
    | none => simp only [hf] at h ⊢; exact ⟨h, trivial⟩
    | some ji =>
      obtain ⟨j, item⟩ := ji
      obtain ⟨hj, _, hb⟩ := find_item_get name j item hf
      simp only [hf, hb] at h ⊢
      obtain ⟨hij, hs⟩ := unseen_of_or h
      refine ⟨hs, ?_⟩
      split_ifs
      · exact item_value_cfg_set_double s.1 i j _ hi hj hij
      · exact item_value_cfg_set_int s.1 i j _ hi hj hij

theorem load_lines_unseen (lines : List (List Char)) (s : Config × Nat) (i : Nat) (hi : i < 13)
    (h : (lines.foldl load_line s).2 &&& 2 ^ i = 0) :
    s.2 &&& 2 ^ i = 0 ∧ item_value (lines.foldl load_line s).1 i = item_value s.1 i := by
  induction lines generalizing s with
  | nil => exact ⟨h, rfl⟩
  | cons l ls ih =>
    rw [List.foldl_cons] at h ⊢
    obtain ⟨a, b⟩ := ih (load_line s l) h
    obtain ⟨c, d⟩ := load_line_unseen s l i hi a
    exact ⟨c, b.trans d⟩

/-- C15: `cfg_parse_line` skips `;` and `#` together with the leading white
space, so a line whose first non-blank character is a comment marker is
parsed like the rest of the line: `"; MOUSE_SPEED = 9"` is reported as the
entry `MOUSE_SPEED` = `9`, and loading a file with that line sets
`mouse_speed` to 9 instead of leaving the default 5. -/
theorem C15_comment_line_sets_tunable :
    cfg_parse_line "; MOUSE_SPEED = 9\n".toList 64 64 =
      some ("MOUSE_SPEED".toList, "9".toList) ∧
    (load_config (some ["; MOUSE_SPEED = 9\n".toList])).1.mouse_speed = 9 ∧
    default_config.mouse_speed = 5 ∧
    (∀ (line : List Char) (n v : Nat),
      cfg_parse_line (';' :: line) n v = cfg_parse_line line n v ∧
      cfg_parse_line ('#' :: line) n v = cfg_parse_line line n v) := by
  refine ⟨by decide!, by decide!, rfl, ?_⟩
  intro line n v
  constructor <;> simp [cfg_parse_line, List.dropWhile]

theorem seen_of_or_ne {a i j : Nat} (hij : i ≠ j) :
    (a ||| 2 ^ j) &&& 2 ^ i = a &&& 2 ^ i := by
  rw [Nat.and_two_pow, Nat.and_two_pow, Nat.testBit_or, Nat.testBit_two_pow]
  have : decide (j = i) = false := by simpa using fun h => hij h.symm
  rw [this, Bool.or_false]

theorem seen_of_or_self (a j : Nat) : (a ||| 2 ^ j) &&& 2 ^ j ≠ 0 := by
  rw [Nat.and_two_pow, Nat.testBit_or, Nat.testBit_two_pow_self, Bool.or_true]
  simp

theorem load_line_named (s : Config × Nat) (l name value : List Char) (j : Nat)
    (item : ConfigItem) (hp : cfg_parse_line l 64 64 = some (name, value))
    (hf : find_item name config_items 0 = some (j, item)) :
    load_line s l =
      (if item.is_double then cfg_set_double s.1 j (atof value)
       else cfg_set_int s.1 j (atoi value), s.2 ||| 2 ^ j) := by
  obtain ⟨_, _, hb⟩ := find_item_get name j item hf
  unfold load_line
  simp only [hp, hf, hb]

theorem item_value_set_same (c : Config) (j : Nat) (item : ConfigItem) (a : ℚ) (b : Int)
    (hj : j < 13) (hg : config_items.get? j = some item) :
    item_value (if item.is_double then cfg_set_double c j a else cfg_set_int c j b) j =
      if item.is_double then a else (b : ℚ) := by
  interval_cases j <;> (have e := Option.some.inj hg; rw [← e]; rfl)

theorem load_line_value (s : Config × Nat) (l name value : List Char) (j : Nat)
    (item : ConfigItem) (hp : cfg_parse_line l 64 64 = some (name, value))
    (hf : find_item name config_items 0 = some (j, item)) :
    item_value (load_line s l).1 j = parsed_value item value ∧
    (load_line s l).2 &&& 2 ^ j ≠ 0 := by
  obtain ⟨hj, hg, _⟩ := find_item_get name j item hf
  rw [load_line_named s l name value j item hp hf]
  exact ⟨item_value_set_same s.1 j item _ _ hj hg, seen_of_or_self _ _⟩

theorem load_lines_seen (lines : List (List Char)) (i : Nat) (hi : i < 13)
    (h : (lines.foldl load_line (default_config, 0)).2 &&& 2 ^ i ≠ 0) :
    ∃ l ∈ lines, ∃ (name value : List Char) (item : ConfigItem),
      cfg_parse_line l 64 64 = some (name, value) ∧
      find_item name config_items 0 = some (i, item) ∧
      item_value (lines.foldl load_line (default_config, 0)).1 i = parsed_value item value := by
  induction lines using List.reverseRecOn with
  | nil => simp at h
  | append_singleton ls l ih =>
    rw [List.foldl_append, List.foldl_cons, List.foldl_nil] at h ⊢
    cases hp : cfg_parse_line l 64 64 with
    | none =>
      have e : load_line (ls.foldl load_line (default_config, 0)) l =
          ls.foldl load_line (default_config, 0) := by
        unfold load_line; simp only [hp]
      rw [e] at h ⊢
      obtain ⟨l1, hm, r⟩ := ih h
      exact ⟨l1, List.mem_append_left _ hm, r⟩
    | some nv =>
      obtain ⟨name, value⟩ := nv
      cases hf : find_item name config_items 0 with
      | none =>
        have e : load_line (ls.foldl load_line (default_config, 0)) l =
            ls.foldl load_line (default_config, 0) := by
          unfold load_line; simp only [hp, hf]
        rw [e] at h ⊢
        obtain ⟨l1, hm, r⟩ := ih h
        exact ⟨l1, List.mem_append_left _ hm, r⟩
      | some ji =>
        obtain ⟨j, item⟩ := ji
        obtain ⟨hj, _, _⟩ := find_item_get name j item hf
        by_cases hij : i = j
        · subst hij
          exact ⟨l, by simp, name, value, item, hp, hf,
            (load_line_value _ l name value i item hp hf).1⟩
        · rw [load_line_named _ l name value j item hp hf] at h ⊢
          simp only [seen_of_or_ne hij] at h
          obtain ⟨l1, hm, n1, v1, it1, a1, a2, a3⟩ := ih h
          refine ⟨l1, List.mem_append_left _ hm, n1, v1, it1, a1, a2, ?_⟩
          rw [← a3]
          by_cases hd : item.is_double = true
          · rw [if_pos hd]
            exact item_value_cfg_set_double _ i j _ hi hj hij
          · rw [if_neg hd]
            exact item_value_cfg_set_int _ i j _ hi hj hij

theorem load_line_other (s : Config × Nat) (l : List Char) (j : Nat) (hj : j < 13)
    (hn : ∀ (name value : List Char) (item : ConfigItem),
      cfg_parse_line l 64 64 = some (name, value) →
      find_item name config_items 0 ≠ some (j, item)) :
    item_value (load_line s l).1 j = item_value s.1 j := by
  cases hp : cfg_parse_line l 64 64 with
  | none => unfold load_line; simp only [hp]
  | some nv =>
    obtain ⟨name, value⟩ := nv
    cases hf : find_item name config_items 0 with
    | none => unfold load_line; simp only [hp, hf]
    | some ki =>
      obtain ⟨k, item⟩ := ki
      obtain ⟨hk, _, _⟩ := find_item_get name k item hf
      have hjk : j ≠ k := by
        intro e
        subst e
        exact hn name value item hp hf
      rw [load_line_named s l name value k item hp hf]
      by_cases hd : item.is_double = true
      · rw [if_pos hd]
        exact item_value_cfg_set_double _ j k _ hj hk hjk
      · rw [if_neg hd]
        exact item_value_cfg_set_int _ j k _ hj hk hjk

theorem load_lines_other (post : List (List Char)) (s : Config × Nat) (j : Nat) (hj : j < 13)
    (hn : ∀ l ∈ post, ∀ (name value : List Char) (item : ConfigItem),
      cfg_parse_line l 64 64 = some (name, value) →
      find_item name config_items 0 ≠ some (j, item)) :
    item_value (post.foldl load_line s).1 j = item_value s.1 j := by
  induction post generalizing s with
  | nil => rfl
  | cons l ls ih =>
    rw [List.foldl_cons]
    rw [ih (load_line s l) (fun l2 h2 => hn l2 (List.mem_cons_of_mem _ h2))]
    exact load_line_other s l j hj (hn l (List.mem_cons_self _ _))

/-- C17 (amended): after `load_config`, every tunable that no line of the
file names (all thirteen when the file is absent) has its default, which is
at least its minimum; a tunable named by one or more lines takes the value
parsed from the last of them (`atoi` of the value text for an int item,
`atof` for a double item whose value text is a decimal number, not `nan`,
`inf` or hexadecimal) with no clamping, so that after the line
`MOUSE_SPEED = -5` the value is -5 whatever came before. -/
theorem C17_unlisted_tunables_keep_defaults_amended (lines : List (List Char)) (i : Nat)
    (hi : i < 13) :
    (load_config none).1 = default_config ∧
    item_min i ≤ item_value default_config i ∧
    ((load_config (some lines)).2 &&& 2 ^ i = 0 →
      item_value (load_config (some lines)).1 i = item_value default_config i ∧
      item_min i ≤ item_value (load_config (some lines)).1 i) ∧
    (load_config (some (lines ++ ["MOUSE_SPEED = -5\n".toList]))).1.mouse_speed = -5 ∧
    ((load_config (some lines)).2 &&& 2 ^ i ≠ 0 →
      ∃ l ∈ lines, ∃ (name value : List Char) (item : ConfigItem),
        cfg_parse_line l 64 64 = some (name, value) ∧
        find_item name config_items 0 = some (i, item) ∧
        ((item.is_double = true → special_text value = false) →
          item_value (load_config (some lines)).1 i = parsed_value item value)) ∧
    (∀ (pre post : List (List Char)) (l name value : List Char) (item : ConfigItem),
      lines = pre ++ l :: post →
      cfg_parse_line l 64 64 = some (name, value) →
      find_item name config_items 0 = some (i, item) →
      (item.is_double = true → special_text value = false) →
      (∀ l2 ∈ post, ∀ (n2 v2 : List Char) (it2 : ConfigItem),
        cfg_parse_line l2 64 64 = some (n2, v2) →
        find_item n2 config_items 0 ≠ some (i, it2)) →
      item_value (load_config (some lines)).1 i = parsed_value item value ∧
      (load_config (some lines)).2 &&& 2 ^ i ≠ 0) := by
  have hmin : item_min i ≤ item_value default_config i := by
    interval_cases i <;> decide!
  refine ⟨rfl, hmin, ?_, ?_, ?_, ?_⟩
  · intro h
    have e := (load_lines_unseen lines (default_config, 0) i hi h).2
    exact ⟨e, by rw [show item_value (load_config (some lines)).1 i =
      item_value default_config i from e]; exact hmin⟩
  · have hp : cfg_parse_line "MOUSE_SPEED = -5\n".toList 64 64 =
        some ("MOUSE_SPEED".toList, "-5".toList) := by decide!
    have hf : (find_item "MOUSE_SPEED".toList config_items 0).map (fun r => (r.1, r.2.is_double)) =
        some (0, false) := by decide!
    have ha : atoi "-5".toList = -5 := by decide!
    simp only [load_config, List.foldl_append, List.foldl_cons, List.foldl_nil]
    generalize List.foldl load_line (default_config, 0) lines = s
    unfold load_line
    simp only [hp]
    cases hq : find_item "MOUSE_SPEED".toList config_items 0 with
    | none => rw [hq] at hf; simp at hf
    | some r =>
      obtain ⟨j, item⟩ := r
      rw [hq] at hf
      simp only [Option.map_some', Option.some.injEq, Prod.mk.injEq] at hf
      obtain ⟨rfl, hd⟩ := hf
      simp only [hd, ha, Bool.false_eq_true, if_false]
      rfl
  · intro h
    obtain ⟨l, hm, name, value, item, a1, a2, a3⟩ := load_lines_seen lines i hi h
    exact ⟨l, hm, name, value, item, a1, a2, fun _ => a3⟩
  · intro pre post l name value item hl hp hf _ hn
    subst hl
    simp only [load_config, List.foldl_append, List.foldl_cons]
    obtain ⟨a, b⟩ := load_line_value (pre.foldl load_line (default_config, 0)) l name value i
      item hp hf
    refine ⟨(load_lines_other post _ i hi hn).trans a, ?_⟩
    intro hz
    exact b (load_lines_unseen post _ i hi hz).1

/-- C17 (amended) at concrete inputs: after the one-line file
`MOUSE_SPEED = -5`, the unlisted `MOVEMENT_INTERVAL_SLOW_MS` has its default
64; after the two lines `MOUSE_SPEED = 3` and `MOUSE_SPEED = -5`,
`MOUSE_SPEED` has the value -5 of the last one. -/
theorem C17_witness_unlisted_item :
    item_value (load_config (some ["MOUSE_SPEED = -5\n".toList])).1 1 = 64 ∧
    item_value (load_config (some ["MOUSE_SPEED = 3\n".toList,
      "MOUSE_SPEED = -5\n".toList])).1 0 = -5 :=
  ⟨((C17_unlisted_tunables_keep_defaults_amended ["MOUSE_SPEED = -5\n".toList] 1
      (by decide)).2.2.1 (by decide!)).1.trans (by decide!),
    (((C17_unlisted_tunables_keep_defaults_amended
      ["MOUSE_SPEED = 3\n".toList, "MOUSE_SPEED = -5\n".toList] 0 (by decide)).2.2.2.2.2
      ["MOUSE_SPEED = 3\n".toList] [] "MOUSE_SPEED = -5\n".toList "MOUSE_SPEED".toList
      "-5".toList ⟨"MOUSE_SPEED", "%d", false, 1, "px", "(Shift)+Alt+NumLock", 1⟩ rfl
      (by decide!) (by rfl) (fun _ => rfl) (by simp)).1).trans (by decide!)⟩

/-- C17 as stated fails: after loading a file with the lines
`MOUSE_SPEED = -5` and `MOVEMENT_ACCELERATION_TIME = 0`, `mouse_speed` is -5,
below its minimum 1, and `movement_acceleration_time` is 0, below its
minimum 0.1. -/
theorem C17_counterexample_below_minimum :
    (load_config (some ["MOUSE_SPEED = -5\n".toList,
      "MOVEMENT_ACCELERATION_TIME = 0\n".toList])).1.mouse_speed = -5 ∧
    (load_config (some ["MOUSE_SPEED = -5\n".toList,
      "MOVEMENT_ACCELERATION_TIME = 0\n".toList])).1.movement_acceleration_time = 0 ∧
    ¬ (item_min 0 ≤ item_value (load_config (some ["MOUSE_SPEED = -5\n".toList,
      "MOVEMENT_ACCELERATION_TIME = 0\n".toList])).1 0) ∧
    ¬ (item_min 3 ≤ item_value (load_config (some ["MOUSE_SPEED = -5\n".toList,
      "MOVEMENT_ACCELERATION_TIME = 0\n".toList])).1 3) := by
  decide!

/-- C16: `save_config` prints the real value `2^250` of `scroll_speed` with
`%.2f` as 79 characters, `cfg_parse_line` keeps only the first 63 of them in
its 64-byte value buffer, and `load_config` reads back the 63-digit number
`180925...475`, which is not the saved value and does not print like it;
no entry is reported missing. The defaults do round-trip. -/
theorem C16_long_real_value_truncated :
    (print_f 2 config_huge_scroll_speed.scroll_speed).length = 79 ∧
    (load_config (some (saved_file config_huge_scroll_speed))).1.scroll_speed =
      ((180925139433306555349329664076074856020734351040063381311652475 : Nat) : ℚ) ∧
    (load_config (some (saved_file config_huge_scroll_speed))).1.scroll_speed ≠
      config_huge_scroll_speed.scroll_speed ∧
    print_f 2 (load_config (some (saved_file config_huge_scroll_speed))).1.scroll_speed ≠
      print_f 2 config_huge_scroll_speed.scroll_speed ∧
    (load_config (some (saved_file config_huge_scroll_speed))).2 = 8191 ∧
    load_config (some (saved_file default_config)) = (default_config, 8191) := by
  decide!

/-! ## Control bookkeeping, duplicates and stale latches -/

/-- C23: the release branch of `handle_ctrl_key` writes the release exactly
when the key's forwarded flag was set and clears that flag, but it never
touches `pending_ctrl`: the flag keeps the value it had, so after a Left
Control tap from the initial state `pending_ctrl` is still true with Control
no longer held. -/
theorem C23_release_keeps_pending (env : Env) (w : World) :
    (handle_ctrl_key (key KEY_LEFTCTRL 0) env w).2.state.pending_ctrl = w.state.pending_ctrl ∧
    (handle_ctrl_key (key KEY_RIGHTCTRL 0) env w).2.state.pending_ctrl = w.state.pending_ctrl ∧
    (handle_ctrl_key (key KEY_LEFTCTRL 0) env w).2.uinput_out =
      w.uinput_out ++ (if w.state.left_ctrl_forwarded then [key KEY_LEFTCTRL 0, sync] else []) ∧
    (handle_ctrl_key (key KEY_LEFTCTRL 0) env w).2.state.left_ctrl_forwarded = false ∧
    (handle_ctrl_key (key KEY_RIGHTCTRL 0) env w).2.uinput_out =
      w.uinput_out ++ (if w.state.right_ctrl_forwarded then [key KEY_RIGHTCTRL 0, sync] else []) ∧
    (handle_ctrl_key (key KEY_RIGHTCTRL 0) env w).2.state.right_ctrl_forwarded = false ∧
    (run_events trace_ctrl_tap (init_world default_config)).state.pending_ctrl = true ∧
    (run_events trace_ctrl_tap (init_world default_config)).state.ctrl_pressed = false := by
  refine ⟨?_, ?_, ?_, ?_, ?_, ?_, by decide!, by decide!⟩
  · cases h : w.state.left_ctrl_forwarded <;> simp [handle_ctrl_key, key, emit_event, h]
  · cases h : w.state.right_ctrl_forwarded <;> simp [handle_ctrl_key, key, emit_event, h]
  · cases h : w.state.left_ctrl_forwarded <;> simp [handle_ctrl_key, key, emit_event, sync, h]
  · cases h : w.state.left_ctrl_forwarded <;> simp [handle_ctrl_key, key, emit_event, h]
  · cases h : w.state.right_ctrl_forwarded <;> simp [handle_ctrl_key, key, emit_event, sync, h]
  · cases h : w.state.right_ctrl_forwarded <;> simp [handle_ctrl_key, key, emit_event, h]

/-- C24: `handle_ctrl_key` returns true for a press and for a release of
either Control, but false for an auto-repeat (value 2), which falls through
to the final `return false`. The router then forwards the event: from the
initial state, a Left Control press followed by its auto-repeat writes the
retroactive press of the pending Control and the auto-repeat itself to the
virtual keyboard sink. -/
theorem C24_ctrl_repeat_not_consumed (env : Env) (w : World) :
    (handle_ctrl_key (key KEY_LEFTCTRL 1) env w).1 = true ∧
    (handle_ctrl_key (key KEY_LEFTCTRL 0) env w).1 = true ∧
    (handle_ctrl_key (key KEY_LEFTCTRL 2) env w).1 = false ∧
    (handle_ctrl_key (key KEY_RIGHTCTRL 2) env w).1 = false ∧
    (run_events trace_ctrl_repeat (init_world default_config)).uinput_out =
      [key KEY_LEFTCTRL 1, sync, key KEY_LEFTCTRL 2, sync] := by
  refine ⟨?_, ?_, ?_, ?_, by decide!⟩
  · by_cases h : double_press env.now w.last_ctrl_press <;> simp [handle_ctrl_key, key, h]
  · cases h : w.state.left_ctrl_forwarded <;> simp [handle_ctrl_key, key, h]
  · simp [handle_ctrl_key, key]
  · simp [handle_ctrl_key, key]

/-- C25: with the panel open in mouse mode (a reachable state), a press of
Left Shift is written to the virtual keyboard sink twice: once by
`handle_shift_key`, which consumes it, and once more by
`handle_non_nav_in_panel`, which runs afterwards and emits the event again. -/
theorem C25_shift_press_in_panel_written_twice :
    Reachable (run_events trace_panel_open (init_world default_config)) ∧
    (run_events trace_panel_open (init_world default_config)).state.mouse_mode = true ∧
    (run_events trace_panel_open (init_world default_config)).panel.active = true ∧
    (process_event (at_time 1002) (key KEY_LEFTSHIFT 1)
      (run_events trace_panel_open (init_world default_config))).uinput_out =
      (run_events trace_panel_open (init_world default_config)).uinput_out ++
        [key KEY_LEFTSHIFT 1, sync, key KEY_LEFTSHIFT 1, sync] ∧
    (handle_shift_key (key KEY_LEFTSHIFT 1)
      (run_events trace_panel_open (init_world default_config))).1 = true :=
  ⟨reachable_run_events _ _ (Reachable.init default_config), by decide!, by decide!, by decide!,
    by decide!⟩

/-- C28: from the initial state, tap Right Control, press Left Control
within 0.3 s, press and release A, release Left Control. At the end neither
Control is held, yet the virtual keyboard sink has received one press of
Right Control and no release of it: the pending flag left by the Right
Control tap makes the forward path press Right Control while only Left
Control is held, and the release of Left Control finds its own forwarded flag
clear. -/
theorem C28_right_ctrl_press_unpaired :
    (run_events trace_two_controls (init_world default_config)).uinput_out =
      [key KEY_RIGHTCTRL 1, sync, key KEY_A 1, sync, key KEY_A 0, sync] ∧
    (run_events trace_two_controls (init_world default_config)).state.ctrl_pressed = false ∧
    List.count (key KEY_RIGHTCTRL 1)
      (run_events trace_two_controls (init_world default_config)).uinput_out = 1 ∧
    List.count (key KEY_RIGHTCTRL 0)
      (run_events trace_two_controls (init_world default_config)).uinput_out = 0 ∧
    (run_events trace_two_controls (init_world default_config)).state.right_ctrl_forwarded =
      true := by
  decide!

/-- C29: hold KP6 in mouse mode, double-tap Left Control (mouse mode off),
release KP6: the world is reachable, `mouse_mode` is false and the KP6 latch
is still set, because the mode toggle clears only the autoscroll flags and
the release is not routed to the numpad handler outside mouse mode. After a
second double-tap mouse mode is on again with the latch set and no numpad key
held, and one tick of the movement engine warps the pointer. -/
theorem C29_latch_survives_mode_off :
    Reachable (run_events trace_latch_left_set (init_world default_config)) ∧
    (run_events trace_latch_left_set (init_world default_config)).state.mouse_mode = false ∧
    (run_events trace_latch_left_set (init_world default_config)).state.numpad_keys_pressed 3 =
      true ∧
    (run_events trace_latch_resumes (init_world default_config)).state.mouse_mode = true ∧
    (run_events trace_latch_resumes (init_world default_config)).state.numpad_keys_pressed 3 =
      true ∧
    (movement_tick 1008 display_1920_1080
      (run_events trace_latch_resumes (init_world default_config))).warp_log = [(105, 200)] :=
  ⟨reachable_run_events _ _ (Reachable.init default_config), by decide!, by decide!, by decide!,
    by decide!, by decide!⟩

/-- C30: in mouse mode with the panel inactive and Left Control and Left
Shift held, the press of KP6 is the absolute jump and sets no latch, but its
auto-repeat (value 2) is refused by `handle_absolute_jump_key`, reaches
`handle_numpad_direction_key` and sets the KP6 latch; the next tick of the
movement engine then makes a relative jump of `jump_horizontal` pixels. -/
theorem C30_jump_key_repeat_sets_latch :
    (run_events trace_jump_key_repeat (init_world default_config)).state.mouse_mode = true ∧
    (run_events trace_jump_key_repeat (init_world default_config)).panel.active = false ∧
    (run_events trace_jump_key_repeat (init_world default_config)).state.ctrl_pressed = true ∧
    (run_events trace_jump_key_repeat (init_world default_config)).state.shift_pressed = true ∧
    (run_events trace_jump_key_repeat.dropLast
      (init_world default_config)).state.numpad_keys_pressed 3 = false ∧
    (run_events trace_jump_key_repeat (init_world default_config)).state.numpad_keys_pressed 3 =
      true ∧
    (movement_tick 1002 display_1920_1080
      (run_events trace_jump_key_repeat (init_world default_config))).warp_log =
      [(200, 200)] := by
  decide!

/-! ## Round trip of the scroll speeds and the Control toggle rule -/

theorem scroll_delta_round_trip (c : ℚ) (m : Int) (hc : 1 / 100 ≤ c) (hm : 1 ≤ m) :
    max (1 / 100)
      (max (1 / 100) (c + get_scroll_speed_delta c m true) +
        get_scroll_speed_delta (max (1 / 100) (c + get_scroll_speed_delta c m true)) m false) =
      c := by
  have hmq : (1 : ℚ) ≤ (m : ℚ) := by exact_mod_cast hm
  have h1 : max (1 / 100) (c + get_scroll_speed_delta c m true) =
      c + get_scroll_speed_delta c m true := by
    apply max_eq_right
    rw [scroll_delta_increase]
    split_ifs <;> nlinarith
  rw [h1, scroll_delta_increase, scroll_delta_decrease]
  by_cases h : c ≤ 10000001 / 100000000
  · simp only [if_pos h]
    by_cases h2 : c + (m : ℚ) * (1 / 100) ≤ 10000001 / 100000000
    · rw [if_neg (fun hh => hh.1 h2), if_pos h2, max_eq_right] <;> linarith
    · have h3 : c + (m : ℚ) * (1 / 100) - (m : ℚ) * (1 / 10) < 1 / 10 := by linarith
      rw [if_pos ⟨h2, h3⟩, max_eq_right] <;> linarith
  · simp only [if_neg h]
    have h2 : ¬ (c + (m : ℚ) * (1 / 10) ≤ 10000001 / 100000000) := by
      intro hh; apply h; linarith
    have h3 : ¬ (c + (m : ℚ) * (1 / 10) - (m : ℚ) * (1 / 10) < 1 / 10) := by
      intro hh; apply h; linarith
    rw [if_neg (fun hh => h3 hh.2), if_neg h2, max_eq_right] <;> linarith

/-- C27: for SCROLL_SPEED (item 9) and AUTOSCROLL_SPEED (item 11), over
exact rational arithmetic, for every current value `c >= 0.01` and every
multiplier `m >= 1` (so for 1, 2, 4, 8, 16 and 32): `adjust_config_value`
with step `+m` followed by `adjust_config_value` with step `-m` returns the
value to exactly `c`, also when the increase crosses the 0.1 boundary. -/
theorem C27_scroll_speed_round_trip (w : World) (m : Int) (b1 b2 : Bool) (hm : 1 ≤ m) :
    (1 / 100 ≤ w.state.cfg.scroll_speed →
      (adjust_config_value 9 (-m) b2 (adjust_config_value 9 m b1 w)).state.cfg.scroll_speed =
        w.state.cfg.scroll_speed) ∧
    (1 / 100 ≤ w.state.cfg.autoscroll_speed →
      (adjust_config_value 11 (-m) b2 (adjust_config_value 11 m b1 w)).state.cfg.autoscroll_speed =
        w.state.cfg.autoscroll_speed) := by
  have habs : |m| = m := abs_of_nonneg (by omega)
  have habs2 : |(-m)| = m := by rw [abs_neg]; exact habs
  have hpos : decide (m > 0) = true := by simp; omega
  have hneg : decide (-m > 0) = false := by simp; omega
  constructor
  · intro hc
    rw [adjust_scroll_speed, adjust_scroll_speed, habs, habs2, hpos, hneg]
    exact scroll_delta_round_trip _ m hc hm
  · intro hc
    rw [adjust_autoscroll_speed, adjust_autoscroll_speed, habs, habs2, hpos, hneg]
    exact scroll_delta_round_trip _ m hc hm

/-- C27 at a concrete input: from the default `autoscroll_speed` 0.01, eight
steps up give 0.09 and from the default `scroll_speed` 1.0 they give 1.8;
eight steps down return both. -/
theorem C27_witness_defaults_eight_steps :
    (adjust_config_value 9 (-8) true
      (adjust_config_value 9 8 true (init_world default_config))).state.cfg.scroll_speed = 1 ∧
    (adjust_config_value 11 (-8) true
      (adjust_config_value 11 8 true (init_world default_config))).state.cfg.autoscroll_speed =
      1 / 100 :=
  ⟨(C27_scroll_speed_round_trip (init_world default_config) 8 true true (by decide)).1
      (by decide!),
    (C27_scroll_speed_round_trip (init_world default_config) 8 true true (by decide)).2
      (by decide!)⟩

theorem ctrl_press_toggles (code : Nat) (t : ℚ) (w : World) (hc : is_ctrl_key code)
    (h : double_press t w.last_ctrl_press) :
    (ctrl_press code t w).state.mouse_mode = !w.state.mouse_mode ∧
    (ctrl_press code t w).last_ctrl_press = 0 ∧
    (ctrl_press code t w).state.pending_ctrl = w.state.pending_ctrl ∧
    (ctrl_press code t w).state.pending_ctrl_code = w.state.pending_ctrl_code ∧
    (w.state.mouse_mode = true →
      (ctrl_press code t w).state.autoscroll_up_active = false ∧
      (ctrl_press code t w).state.autoscroll_down_active = false) := by
  rcases hc with rfl | rfl <;> cases hm : w.state.mouse_mode <;>
    simp [ctrl_press, handle_ctrl_key, key, show_feedback, h, hm]

theorem ctrl_press_arms (code : Nat) (t : ℚ) (w : World) (hc : is_ctrl_key code)
    (h : ¬ double_press t w.last_ctrl_press) :
    (ctrl_press code t w).state.mouse_mode = w.state.mouse_mode ∧
    (ctrl_press code t w).last_ctrl_press = t ∧
    (ctrl_press code t w).state.pending_ctrl = true ∧
    (ctrl_press code t w).state.pending_ctrl_code = code ∧
    (ctrl_press code t w).state.autoscroll_up_active = w.state.autoscroll_up_active ∧
    (ctrl_press code t w).state.autoscroll_down_active = w.state.autoscroll_down_active := by
  rcases hc with rfl | rfl <;> simp [ctrl_press, handle_ctrl_key, key, h]

theorem ctrl_release_keeps (code : Nat) (w : World) (hc : is_ctrl_key code) :
    (ctrl_release code w).state.mouse_mode = w.state.mouse_mode ∧
    (ctrl_release code w).last_ctrl_press = w.last_ctrl_press := by
  rcases hc with rfl | rfl
  · cases h : w.state.left_ctrl_forwarded <;>
      simp [ctrl_release, handle_ctrl_key, key, emit_event, h]
  · cases h : w.state.right_ctrl_forwarded <;>
      simp [ctrl_release, handle_ctrl_key, key, emit_event, h]

/-- C22: for every press of a Control key at clock `t` with recorded press
time `p = last_ctrl_press`: `handle_ctrl_key` toggles `mouse_mode` if and
only if `t - p < 0.3`; when it toggles, the recorded time becomes 0, the
pending Control is left as it was, and autoscroll is off if the new mode is
off; when it does not toggle, `mouse_mode` is unchanged, the recorded time
becomes `t` and `pending_ctrl` is armed with this key's code. Hence three
presses (with their releases), the first not a double press, each of the
next two less than 0.3 s after the previous one, on a clock that reads at
least 0.3, toggle `mouse_mode` exactly once, at the second press. -/
theorem C22_ctrl_press_toggle_rule (w : World) (c1 c2 c3 : Nat) (t1 t2 t3 : ℚ)
    (h1 : is_ctrl_key c1) (h2 : is_ctrl_key c2) (h3 : is_ctrl_key c3) :
    ((ctrl_press c1 t1 w).state.mouse_mode = (!w.state.mouse_mode) ↔
      t1 - w.last_ctrl_press < 3 / 10) ∧
    (t1 - w.last_ctrl_press < 3 / 10 →
      (ctrl_press c1 t1 w).last_ctrl_press = 0 ∧
      (ctrl_press c1 t1 w).state.pending_ctrl = w.state.pending_ctrl ∧
      (ctrl_press c1 t1 w).state.pending_ctrl_code = w.state.pending_ctrl_code ∧
      (w.state.mouse_mode = true →
        (ctrl_press c1 t1 w).state.autoscroll_up_active = false ∧
        (ctrl_press c1 t1 w).state.autoscroll_down_active = false)) ∧
    (¬ t1 - w.last_ctrl_press < 3 / 10 →
      (ctrl_press c1 t1 w).state.mouse_mode = w.state.mouse_mode ∧
      (ctrl_press c1 t1 w).last_ctrl_press = t1 ∧
      (ctrl_press c1 t1 w).state.pending_ctrl = true ∧
      (ctrl_press c1 t1 w).state.pending_ctrl_code = c1) ∧
    (¬ t1 - w.last_ctrl_press < 3 / 10 → t2 - t1 < 3 / 10 → t3 - t2 < 3 / 10 → 3 / 10 ≤ t3 →
      (ctrl_press c1 t1 w).state.mouse_mode = w.state.mouse_mode ∧
      (ctrl_press c2 t2 (ctrl_release c1 (ctrl_press c1 t1 w))).state.mouse_mode =
        (!w.state.mouse_mode) ∧
      (ctrl_press c3 t3 (ctrl_release c2 (ctrl_press c2 t2
        (ctrl_release c1 (ctrl_press c1 t1 w))))).state.mouse_mode = (!w.state.mouse_mode)) := by
  have hd : ∀ (t p : ℚ), double_press t p ↔ t - p < 3 / 10 := by
    intro t p; simp [double_press]
  refine ⟨?_, ?_, ?_, ?_⟩
  · constructor
    · intro h
      by_contra hn
      have a := (ctrl_press_arms c1 t1 w h1 ((hd _ _).not.mpr hn)).1
      rw [a] at h
      cases hm : w.state.mouse_mode <;> simp [hm] at h
    · intro h
      exact (ctrl_press_toggles c1 t1 w h1 ((hd _ _).mpr h)).1
  · intro h
    exact (ctrl_press_toggles c1 t1 w h1 ((hd _ _).mpr h)).2
  · intro h
    obtain ⟨a, b, c, d, _⟩ := ctrl_press_arms c1 t1 w h1 ((hd _ _).not.mpr h)
    exact ⟨a, b, c, d⟩
  · intro hn h12 h23 ht3
    obtain ⟨a1, a2, _⟩ := ctrl_press_arms c1 t1 w h1 ((hd _ _).not.mpr hn)
    obtain ⟨b1, b2⟩ := ctrl_release_keeps c1 (ctrl_press c1 t1 w) h1
    have hdp : double_press t2 (ctrl_release c1 (ctrl_press c1 t1 w)).last_ctrl_press := by
      rw [b2, a2]; exact (hd _ _).mpr h12
    obtain ⟨d1, d2, _⟩ := ctrl_press_toggles c2 t2 _ h2 hdp
    obtain ⟨e1, e2⟩ := ctrl_release_keeps c2
      (ctrl_press c2 t2 (ctrl_release c1 (ctrl_press c1 t1 w))) h2
    have hnd : ¬ double_press t3 (ctrl_release c2 (ctrl_press c2 t2
        (ctrl_release c1 (ctrl_press c1 t1 w)))).last_ctrl_press := by
      rw [e2, d2, hd]; linarith
    obtain ⟨f1, _⟩ := ctrl_press_arms c3 t3 _ h3 hnd
    refine ⟨a1, ?_, ?_⟩
    · rw [d1, b1, a1]
    · rw [f1, e1, d1, b1, a1]

/-- C22 at a concrete input: from the initial state, three presses of Left
Control at clocks 1000, 1000.1 and 1000.2 leave mouse mode on. -/
theorem C22_witness_triple_press :
    (ctrl_press KEY_LEFTCTRL (1000 + 2 / 10) (ctrl_release KEY_LEFTCTRL
      (ctrl_press KEY_LEFTCTRL (1000 + 1 / 10) (ctrl_release KEY_LEFTCTRL
        (ctrl_press KEY_LEFTCTRL 1000 (init_world default_config)))))).state.mouse_mode =
      true :=
  ((C22_ctrl_press_toggle_rule (init_world default_config) KEY_LEFTCTRL KEY_LEFTCTRL
    KEY_LEFTCTRL 1000 (1000 + 1 / 10) (1000 + 2 / 10) (Or.inl rfl) (Or.inl rfl) (Or.inl rfl)).2.2.2
    (by decide!) (by decide!) (by decide!) (by decide!)).2.2

/-! ## The drag lock -/

theorem drag_congr {w w1 : World} (h : drag_inv w)
    (e1 : w1.state.drag_locked = w.state.drag_locked)
    (e2 : w1.state.left_button_held = w.state.left_button_held) : drag_inv w1 := by
  unfold drag_inv at *
  rw [e1, e2]
  exact h

theorem drag_of_unlocked {w : World} (h : w.state.drag_locked = false) : drag_inv w := by
  intro hh
  rw [h] at hh
  exact absurd hh (by decide)

theorem drag_release_left_button (w : World) : drag_inv (release_left_button w) :=
  drag_of_unlocked rfl

theorem drag_handle_ctrl_key (ev : input_event) (env : Env) (w : World) (h : drag_inv w) :
    drag_inv (handle_ctrl_key ev env w).2 := by
  simp only [handle_ctrl_key, show_feedback, emit_event]
  split_ifs <;> exact drag_congr h rfl rfl

theorem drag_show_config_panel (env : Env) (w : World) (h : drag_inv w) :
    drag_inv (show_config_panel env w) := by
  unfold show_config_panel
  split_ifs with h1
  · exact h
  · simp only []
    split_ifs with h2
    · exact drag_of_unlocked rfl
    · exact drag_congr h rfl rfl

theorem drag_hide_config_panel (env : Env) (w : World) (h : drag_inv w) :
    drag_inv (hide_config_panel env w) := by
  unfold hide_config_panel
  simp only [show_jump_overlay, hide_margin_overlay, save_config]
  split_ifs <;>
    first
    | exact drag_of_unlocked rfl
    | exact drag_congr h rfl rfl

theorem drag_handle_alt_key (ev : input_event) (env : Env) (w : World) (h : drag_inv w) :
    drag_inv (handle_alt_key ev env w).2 := by
  have b : drag_inv { w with state := { w.state with alt_pressed := decide (ev.value ≠ 0) } } := h
  simp only [handle_alt_key]
  split_ifs <;>
    first
    | exact h
    | exact drag_congr h rfl rfl
    | exact drag_congr (drag_show_config_panel env _ b) rfl rfl

theorem drag_handle_shift_key (ev : input_event) (w : World) (h : drag_inv w) :
    drag_inv (handle_shift_key ev w).2 := by
  unfold handle_shift_key
  simp only []
  split_ifs <;> exact drag_congr h rfl rfl

theorem drag_handle_esc_in_panel (ev : input_event) (env : Env) (w : World) (h : drag_inv w) :
    drag_inv (handle_esc_in_panel ev env w).2 := by
  unfold handle_esc_in_panel
  split_ifs
  · exact h
  · exact drag_hide_config_panel env w h

theorem drag_modifier_handlers (ev : input_event) (env : Env) (w : World) (h : drag_inv w) :
    drag_inv (modifier_handlers ev env w).2 := by
  unfold modifier_handlers
  refine else_if_preserves drag_inv _ _ (drag_handle_ctrl_key ev env) ?_ w h
  refine else_if_preserves drag_inv _ _ (drag_handle_alt_key ev env) ?_
  refine else_if_preserves drag_inv _ _ (drag_handle_shift_key ev) ?_
  intro w1 a
  split_ifs
  · exact drag_handle_esc_in_panel ev env w1 a
  · exact a

theorem drag_disable_autoscroll (ev : input_event) (env : Env) (w : World) (h : drag_inv w) :
    drag_inv (disable_autoscroll_if_not_allowed ev env w) := by
  simp only [disable_autoscroll_if_not_allowed, show_feedback]
  split_ifs <;> exact drag_congr h rfl rfl

theorem drag_adjust_config_value (i : Nat) (step : Int) (b : Bool) (w : World)
    (h : drag_inv w) : drag_inv (adjust_config_value i step b w) :=
  drag_congr h (adjust_config_value_drag_locked i step b w)
    (adjust_config_value_left_button_held i step b w)

theorem drag_handle_panel_nav_key (ev : input_event) (env : Env) (w : World) (h : drag_inv w) :
    drag_inv (handle_panel_nav_key ev env w).2 := by
  have hu : drag_inv { w with state := { w.state with
      adjust_start_times := Function.update w.state.adjust_start_times ev.code env.now } } := h
  simp only [handle_panel_nav_key]
  split_ifs <;>
    first
    | exact h
    | exact drag_congr h rfl rfl
    | exact drag_congr (drag_adjust_config_value _ _ _ _ hu) rfl rfl
    | exact drag_congr (drag_adjust_config_value _ _ _ _ h) rfl rfl

theorem drag_handle_non_nav_in_panel (ev : input_event) (env : Env) (w : World)
    (h : drag_inv w) : drag_inv (handle_non_nav_in_panel ev env w).2 := by
  simp only [handle_non_nav_in_panel]
  split_ifs
  · exact h
  · exact drag_congr (drag_hide_config_panel env w h) rfl rfl

theorem drag_alt_adjustment (ev : input_event) (env : Env) (w : World) (h : drag_inv w) :
    drag_inv (handle_alt_adjustment_key ev env w).2 := by
  unfold handle_alt_adjustment_key
  by_cases hc : (!w.state.alt_pressed || decide (ev.value ≠ 1 ∧ ev.value ≠ 2)) = true
  · rw [if_pos hc]; exact h
  · rw [if_neg hc]
    cases ht : alt_adjustment_target ev w.state with
    | none => exact h
    | some t =>
      obtain ⟨index, increase, overlay⟩ := t
      simp only [save_config, show_margin_overlay, show_jump_overlay]
      refine drag_congr (drag_adjust_config_value _ _ _ _ ?_) rfl rfl
      split_ifs <;> exact h

theorem drag_scroll (ev : input_event) (env : Env) (w : World) (h : drag_inv w) :
    drag_inv (handle_scroll_and_autoscroll_key ev env w).2 := by
  simp only [handle_scroll_and_autoscroll_key, show_feedback, drag_inv, ite_pair_snd,
    ite_World_state, ite_AppState_drag_locked, ite_AppState_left_button_held, ite_self]
  exact h

theorem drag_ctrl_minus (ev : input_event) (w : World) (h : drag_inv w) :
    drag_inv (handle_ctrl_minus_key ev w).2 := by
  simp only [handle_ctrl_minus_key]
  split_ifs <;> exact h

theorem drag_absolute_jump (ev : input_event) (env : Env) (w : World) (h : drag_inv w) :
    drag_inv (handle_absolute_jump_key ev env w).2 := by
  simp only [handle_absolute_jump_key, warp_mouse]
  split_ifs <;> (try split) <;> exact h

theorem drag_numpad_direction (ev : input_event) (w : World) (h : drag_inv w) :
    drag_inv (handle_numpad_direction_key ev w).2 := by
  unfold handle_numpad_direction_key
  split
  · exact h
  · simp only []
    split_ifs <;> exact h

theorem drag_kp5 (ev : input_event) (w : World) (h : drag_inv w) :
    drag_inv (handle_kp5_key ev w).2 := by
  simp only [handle_kp5_key, emit_event, hide_drag_popup]
  split_ifs <;>
    first
    | exact h
    | exact fun _ => rfl
    | exact drag_of_unlocked rfl
    | (unfold drag_inv at *; simp_all)

theorem drag_kpslash (ev : input_event) (w : World) (h : drag_inv w) :
    drag_inv (handle_kpslash_key ev w).2 := by
  simp only [handle_kpslash_key, emit_event, hide_drag_popup, show_drag_popup, release_left_button]
  split_ifs <;>
    first
    | exact h
    | exact fun _ => rfl
    | exact drag_of_unlocked rfl

theorem drag_kpasterisk (ev : input_event) (w : World) (h : drag_inv w) :
    drag_inv (handle_kpasterisk_key ev w).2 := by
  simp only [handle_kpasterisk_key, emit_event, hide_drag_popup, release_left_button, mouse_click,
    usleep]
  split_ifs <;>
    first
    | exact h
    | exact drag_of_unlocked rfl

theorem drag_kpminus (ev : input_event) (w : World) (h : drag_inv w) :
    drag_inv (handle_kpminus_key ev w).2 := by
  simp only [handle_kpminus_key, emit_event, hide_drag_popup, release_left_button, mouse_click,
    usleep]
  split_ifs <;>
    first
    | exact h
    | exact drag_of_unlocked rfl

theorem drag_numlock (ev : input_event) (w : World) (h : drag_inv w) :
    drag_inv (handle_numlock_key ev w).2 := by
  simp only [handle_numlock_key, emit_event, hide_drag_popup]
  split_ifs <;>
    first
    | exact h
    | exact fun _ => rfl
    | exact drag_of_unlocked rfl
    | (unfold drag_inv at *; simp_all)

theorem drag_functional_handlers (ev : input_event) (env : Env) (w : World) (h : drag_inv w) :
    drag_inv (functional_handlers ev env w).2 := by
  unfold functional_handlers
  refine else_if_preserves drag_inv _ _ (drag_alt_adjustment ev env) ?_ w h
  refine else_if_preserves drag_inv _ _ (drag_scroll ev env) ?_
  refine else_if_preserves drag_inv _ _ (drag_ctrl_minus ev) ?_
  refine else_if_preserves drag_inv _ _ (drag_absolute_jump ev env) ?_
  refine else_if_preserves drag_inv _ _ (drag_numpad_direction ev) ?_
  refine else_if_preserves drag_inv _ _ (drag_kp5 ev) ?_
  refine else_if_preserves drag_inv _ _ (drag_kpslash ev) ?_
  refine else_if_preserves drag_inv _ _ (drag_kpasterisk ev) ?_
  exact else_if_preserves drag_inv _ _ (drag_kpminus ev) (drag_numlock ev)

theorem drag_mouse_mode_handlers (ev : input_event) (env : Env) (b : Bool) (w : World)
    (h : drag_inv w) : drag_inv (mouse_mode_handlers ev env b w).2 := by
  have a := drag_disable_autoscroll ev env w h
  simp only [mouse_mode_handlers]
  split_ifs
  · exact else_if_preserves drag_inv _ _ (drag_handle_panel_nav_key ev env)
      (drag_handle_non_nav_in_panel ev env) _ a
  · exact a
  · exact drag_functional_handlers ev env _ a

theorem drag_drag_auto_release (ev : input_event) (w : World) (h : drag_inv w) :
    drag_inv (drag_auto_release ev w) := by
  simp only [drag_auto_release]
  split_ifs <;> first | exact h | exact drag_release_left_button w

theorem drag_forward_event (ev : input_event) (w : World) (h : drag_inv w) :
    drag_inv (forward_event ev w) := by
  simp only [forward_event, emit_event]
  split_ifs <;> exact drag_congr h rfl rfl

theorem drag_ite {c : Prop} [Decidable c] {a b : World} (ha : drag_inv a) (hb : drag_inv b) :
    drag_inv (if c then a else b) := by
  split_ifs
  · exact ha
  · exact hb

theorem drag_process_key_event (env : Env) (ev : input_event) (w : World) (h : drag_inv w) :
    drag_inv (process_key_event env ev w) := by
  have a := drag_modifier_handlers ev env w h
  have b : drag_inv (if (modifier_handlers ev env w).2.state.mouse_mode = true then
      mouse_mode_handlers ev env w.panel.active (modifier_handlers ev env w).2
      else (false, (modifier_handlers ev env w).2)).2 := by
    split_ifs
    · exact drag_mouse_mode_handlers ev env _ _ a
    · exact a
  have c := drag_drag_auto_release ev _ b
  have d := drag_forward_event ev _ c
  unfold process_key_event
  exact drag_ite (drag_congr (drag_ite d c) rfl rfl) (drag_ite d c)

theorem drag_movement_tick (now : ℚ) (d : XDisplay) (w : World) (h : drag_inv w) :
    drag_inv (movement_tick now d w) := by
  simp only [movement_tick, usleep, warp_mouse]
  split_ifs <;>
    first
    | exact drag_congr h rfl rfl
    | (refine drag_congr h ?_ ?_ <;> simp only [(movement_scroll_frame _ _ _).1])

theorem drag_step {w w1 : World} (hs : Step w w1) (h : drag_inv w) : drag_inv w1 := by
  cases hs with
  | event env ev w0 =>
    unfold process_event
    split_ifs
    · exact drag_process_key_event env ev _ h
    · exact drag_congr h rfl rfl
  | tick now d w0 => exact drag_movement_tick now d _ h
  | expire w0 => exact drag_congr h rfl rfl

/-- C26: in every world reachable from the initial state by key events,
ticks of the movement engine and panel timeouts, `drag_locked` implies
`left_button_held`; every step keeps this, and so do `show_config_panel`,
`hide_config_panel` and the shared release sequence, which clears both
flags. -/
theorem C26_drag_lock_implies_button_held (w : World) (h : Reachable w) :
    (w.state.drag_locked = true → w.state.left_button_held = true) ∧
    (∀ env : Env, drag_inv (show_config_panel env w) ∧ drag_inv (hide_config_panel env w)) ∧
    (release_left_button w).state.drag_locked = false ∧
    (release_left_button w).state.left_button_held = false := by
  have k : drag_inv w := by
    induction h with
    | init c => exact drag_of_unlocked rfl
    | step _ hs ih => exact drag_step hs ih
  exact ⟨k, fun env => ⟨drag_show_config_panel env w k, drag_hide_config_panel env w k⟩, rfl, rfl⟩

/-- C26 at a concrete input: after mouse mode is switched on and KP/ is
tapped, the drag lock is on and the left button is held. -/
theorem C26_witness_drag_locked :
    (run_events trace_drag_locked (init_world default_config)).state.drag_locked = true ∧
    (run_events trace_drag_locked (init_world default_config)).state.left_button_held = true :=
  ⟨by decide!, (C26_drag_lock_implies_button_held _
    (reachable_run_events _ _ (Reachable.init default_config))).1 (by decide!)⟩

/-! ## The Alt adjustment keys -/

theorem adjust_config_value_cfg (i : Nat) (step : Int) (b : Bool) (w : World) :
    (adjust_config_value i step b w).state.cfg = adjusted_cfg i step w.state.cfg := by
  unfold adjusted_cfg adjust_config_value
  cases h : config_items.get? i with
  | none => rfl
  | some item =>
    simp only [show_feedback, init_world, init_state]
    cases b <;> split_ifs <;> rfl

theorem binding_table_key (K : Nat) (s a : Bool) (r : Nat × Bool)
    (hb : binding_table K s a = some r) :
    K = KEY_NUMLOCK ∨ K = KEY_KPASTERISK ∨ K = KEY_KPMINUS ∨ K = KEY_KPSLASH ∨ K = KEY_KP5 ∨
    K = KEY_KP0 ∨ K = KEY_KP6 ∨ K = KEY_KP4 ∨ K = KEY_KP8 ∨ K = KEY_KP2 ∨ K = KEY_KP7 ∨
    K = KEY_KP9 ∨ K = KEY_KP1 ∨ K = KEY_KP3 ∨ K = KEY_KPPLUS ∨ K = KEY_KPENTER ∨
    K = KEY_KPDOT := by
  by_contra hn
  simp only [not_or] at hn
  obtain ⟨n1, n2, n3, n4, n5, n6, n7, n8, n9, n10, n11, n12, n13, n14, n15, n16, n17⟩ := hn
  simp only [binding_table, if_neg n1, if_neg n2, if_neg n3, if_neg n4, if_neg n5, if_neg n6,
    if_neg n7, if_neg n8, if_neg n9, if_neg n10, if_neg n11, if_neg n12, if_neg n13, if_neg n14,
    if_neg n15, if_neg n16, if_neg n17] at hb
  exact absurd hb (by simp)

theorem alt_adjustment_cfg (env : Env) (w : World) (K : Nat) (v : Int) (idx : Nat) (inc : Bool)
    (hmm : w.state.mouse_mode = true) (hp : w.panel.active = false)
    (ha : w.state.alt_pressed = true) (hv : v = 1 ∨ v = 2)
    (hb : binding_table K w.state.shift_pressed
      (w.state.autoscroll_up_active || w.state.autoscroll_down_active) = some (idx, inc)) :
    (process_event env (key K v) w).state.cfg =
      adjusted_cfg idx (adjustment_multi env w K v * (if inc then 1 else -1)) w.state.cfg := by
  rcases binding_table_key K _ _ _ hb with
    rfl | rfl | rfl | rfl | rfl | rfl | rfl | rfl | rfl | rfl | rfl | rfl | rfl | rfl | rfl |
    rfl | rfl
  all_goals
    simp [binding_table] at hb
    obtain ⟨rfl, hi⟩ := hb
    rcases hv with rfl | rfl <;>
      first
      | (subst hi
         simp [process_event, process_key_event, modifier_handlers, mouse_mode_handlers,
          functional_handlers, else_if, key, handle_ctrl_key, handle_alt_key, handle_shift_key,
          disable_autoscroll_if_not_allowed, handle_alt_adjustment_key, alt_adjustment_target,
          drag_auto_release, release_left_button, hide_drag_popup, show_feedback, save_config,
          show_margin_overlay, show_jump_overlay, adjust_config_value_cfg, adjustment_multi,
          emit_event, hmm, hp, ha])
      | simp [process_event, process_key_event, modifier_handlers, mouse_mode_handlers,
          functional_handlers, else_if, key, handle_ctrl_key, handle_alt_key, handle_shift_key,
          disable_autoscroll_if_not_allowed, handle_alt_adjustment_key, alt_adjustment_target,
          drag_auto_release, release_left_button, hide_drag_popup, show_feedback, save_config,
          show_margin_overlay, show_jump_overlay, adjust_config_value_cfg, adjustment_multi,
          emit_event, hmm, hp, ha, hi]

theorem scroll_delta_sign (c : ℚ) (m : Int) (hm : 0 < m) :
    0 < get_scroll_speed_delta c m true ∧ get_scroll_speed_delta c m false < 0 := by
  have hmq : (0 : ℚ) < (m : ℚ) := by exact_mod_cast hm
  rw [scroll_delta_increase, scroll_delta_decrease]
  constructor
  · split_ifs <;> nlinarith
  · split_ifs <;> nlinarith

theorem adjusted_cfg_other (idx : Nat) (step : Int) (c : Config) (i : Nat) (hidx : idx < 13)
    (hi : i < 13) (hne : i ≠ idx) :
    item_value (adjusted_cfg idx step c) i = item_value c i := by
  unfold adjusted_cfg adjust_config_value
  cases h : config_items.get? idx with
  | none => rfl
  | some item =>
    simp only [init_world, init_state, Bool.false_eq_true, if_false]
    by_cases hd : item.is_double = true
    · rw [if_pos hd]
      exact item_value_cfg_set_double c i idx _ hi hidx hne
    · rw [if_neg hd]
      exact item_value_cfg_set_int c i idx _ hi hidx hne

theorem adjusted_cfg_value (idx : Nat) (step : Int) (c : Config) (hidx : idx < 13) :
    ∃ δ : ℚ, (0 < step → 0 < δ) ∧ (step < 0 → δ < 0) ∧
      item_value (adjusted_cfg idx step c) idx = max (item_min idx) (item_value c idx + δ) := by
  by_cases h9 : idx = 9 ∨ idx = 11
  · refine ⟨get_scroll_speed_delta (item_value c idx) |step| (decide (step > 0)), ?_, ?_, ?_⟩
    · intro hs
      have : decide (step > 0) = true := by simpa using hs
      rw [this]
      exact (scroll_delta_sign _ _ (abs_pos.mpr (by omega))).1
    · intro hs
      have : decide (step > 0) = false := by simp; omega
      rw [this]
      exact (scroll_delta_sign _ _ (abs_pos.mpr (by omega))).2
    · rcases h9 with rfl | rfl <;>
        simp [adjusted_cfg, adjust_config_value, config_items, item_min, item_value, cfg_int,
          cfg_set_int, cfg_double, cfg_set_double, show_feedback, init_world, init_state,
          max_def] <;>
        split_ifs <;> first | rfl | linarith
  · by_cases h3 : idx = 3
    · subst h3
      refine ⟨step * (1 / 10), ?_, ?_, ?_⟩
      · intro hs
        have : (0 : ℚ) < (step : ℚ) := by exact_mod_cast hs
        linarith
      · intro hs
        have : (step : ℚ) < 0 := by exact_mod_cast hs
        linarith
      · simp [adjusted_cfg, adjust_config_value, config_items, item_min, item_value, cfg_int,
          cfg_set_int, cfg_double, cfg_set_double, show_feedback, init_world, init_state,
          max_def]
        split_ifs <;> first | rfl | linarith
    · refine ⟨(step : ℚ), ?_, ?_, ?_⟩
      · intro hs; exact_mod_cast hs
      · intro hs; exact_mod_cast hs
      · interval_cases idx <;>
          first
          | exact absurd rfl h3
          | exact absurd (Or.inl rfl) h9
          | exact absurd (Or.inr rfl) h9
          | (simp [adjusted_cfg, adjust_config_value, config_items, item_min, item_value, cfg_int,
              cfg_set_int, cfg_double, cfg_set_double, show_feedback, init_world, init_state,
              max_def, c_int_one, c_int_zero] <;>
             split_ifs <;> first | rfl | (norm_cast; omega) |
               (exfalso; norm_cast at *; omega))

theorem get_step_multiplier_pos (e : ℚ) : 0 < get_step_multiplier e := by
  unfold get_step_multiplier
  split_ifs <;> decide

theorem binding_table_index (K : Nat) (s a : Bool) (idx : Nat) (inc : Bool)
    (hb : binding_table K s a = some (idx, inc)) : idx < 13 := by
  rcases binding_table_key K _ _ _ hb with
    rfl | rfl | rfl | rfl | rfl | rfl | rfl | rfl | rfl | rfl | rfl | rfl | rfl | rfl | rfl |
    rfl | rfl
  all_goals
    simp [binding_table] at hb
    obtain ⟨rfl, _⟩ := hb
    first
    | decide
    | (split_ifs <;> decide)

/-- C21: in mouse mode with the panel inactive and Alt held, for every press
(value 1) or auto-repeat (value 2) of a key of the binding table (NumLock ->
MOUSE_SPEED, KP* -> MOVEMENT_INTERVAL_SLOW_MS, KP- -> MOVEMENT_INTERVAL_FAST_MS,
KP/ -> MOVEMENT_ACCELERATION_TIME, KP5 -> JUMP_MARGIN, KP0 -> JUMP_INTERVAL_MS,
all + without Shift and - with Shift; KP6 and KP4 -> JUMP_HORIZONTAL up and down; KP8 and
KP2 -> JUMP_VERTICAL up and down; KP7, KP9 and KP1, KP3 -> JUMP_DIAGONAL up and
down; KP+ and KPEnter -> up and down on
AUTOSCROLL_SPEED if autoscroll is active, else SCROLL_SPEED; KP. ->
AUTOSCROLL_INTERVAL_MS if autoscroll is active, else SCROLL_INTERVAL_MS), the
configuration after the event is the one `adjust_config_value` produces for
the table's item with step `+multi` or `-multi`: the item becomes
`max(min, old + d)` with `d > 0` for an increase and `d < 0` for a decrease,
and no other tunable changes. -/
theorem C21_alt_adjustment_binding (env : Env) (w : World) (K : Nat) (v : Int) (idx : Nat)
    (inc : Bool) (hmm : w.state.mouse_mode = true) (hp : w.panel.active = false)
    (ha : w.state.alt_pressed = true) (hv : v = 1 ∨ v = 2)
    (hb : binding_table K w.state.shift_pressed
      (w.state.autoscroll_up_active || w.state.autoscroll_down_active) = some (idx, inc)) :
    (process_event env (key K v) w).state.cfg =
      adjusted_cfg idx (adjustment_multi env w K v * (if inc then 1 else -1)) w.state.cfg ∧
    idx < 13 ∧
    (∃ d : ℚ, (inc = true → 0 < d) ∧ (inc = false → d < 0) ∧
      item_value (process_event env (key K v) w).state.cfg idx =
        max (item_min idx) (item_value w.state.cfg idx + d)) ∧
    (∀ i, i < 13 → i ≠ idx →
      item_value (process_event env (key K v) w).state.cfg i = item_value w.state.cfg i) ∧
    config_items.map (fun item => item.name) =
      ["MOUSE_SPEED", "MOVEMENT_INTERVAL_SLOW_MS", "MOVEMENT_INTERVAL_FAST_MS",
        "MOVEMENT_ACCELERATION_TIME", "JUMP_HORIZONTAL", "JUMP_VERTICAL", "JUMP_DIAGONAL",
        "JUMP_MARGIN", "JUMP_INTERVAL_MS", "SCROLL_SPEED", "SCROLL_INTERVAL_MS",
        "AUTOSCROLL_SPEED", "AUTOSCROLL_INTERVAL_MS"] := by
  have e := alt_adjustment_cfg env w K v idx inc hmm hp ha hv hb
  have hidx := binding_table_index K _ _ idx inc hb
  have hmul : 0 < adjustment_multi env w K v := by
    unfold adjustment_multi
    split_ifs
    · decide
    · exact get_step_multiplier_pos _
  refine ⟨e, hidx, ?_, ?_, rfl⟩
  · obtain ⟨d, h1, h2, h3⟩ := adjusted_cfg_value idx
      (adjustment_multi env w K v * (if inc then 1 else -1)) w.state.cfg hidx
    refine ⟨d, ?_, ?_, by rw [e]; exact h3⟩
    · intro hi
      apply h1
      rw [hi]; simpa using hmul
    · intro hi
      apply h2
      rw [hi]; simpa using hmul
  · intro i hi hne
    rw [e]
    exact adjusted_cfg_other idx _ w.state.cfg i hidx hi hne

/-- C21 at a concrete input: in mouse mode with Alt held and the defaults,
a press of KP6 raises JUMP_HORIZONTAL from 100 to 101. -/
theorem C21_witness_alt_kp6 :
    (process_event (at_time 1000) (key KEY_KP6 1) world_alt_held).state.cfg.jump_horizontal =
      101 :=
  (congrArg Config.jump_horizontal
    (C21_alt_adjustment_binding (at_time 1000) world_alt_held KEY_KP6 1 4 true rfl rfl rfl
      (Or.inl rfl) (by decide!)).1).trans (by decide!)

/-! ## The clamp and the scroll step in binary64 -/

theorem scroll_delta_f64_fin (c : c_double) (m : Int) (b : Bool) :
    ∃ d : ℚ, get_scroll_speed_delta_f64 c m b = c_double.fin d := by
  simp only [get_scroll_speed_delta_f64, c_double.of_rat, c_double.of_int]
  split_ifs <;> exact ⟨_, rfl⟩

theorem c_double_add_fin_ne_nan (x : c_double) (d : ℚ) (hx : x ≠ c_double.nan) :
    x.add (c_double.fin d) ≠ c_double.nan := by
  cases x with
  | fin q => simp [c_double.add]
  | inf s => simp [c_double.add]
  | nan => exact absurd rfl hx

theorem c_double_clamp_ge (v : c_double) (m : ℚ) (hv : v ≠ c_double.nan) :
    (c_double.fin m).le (if v.lt (c_double.fin m) then c_double.fin m else v) = true := by
  cases v with
  | fin y =>
    by_cases h : y < m
    · simp [c_double.lt, c_double.le, h]
    · simp [c_double.lt, c_double.le, h, not_lt.mp h]
  | inf s => cases s <;> simp [c_double.lt, c_double.le]
  | nan => exact absurd rfl hv

theorem adjust_double_value_ge_min (i : Nat) (item : ConfigItem) (x : c_double) (step : Int)
    (hg : config_items.get? i = some item) (hx : x ≠ c_double.nan) :
    (c_double.of_rat (item_min i)).le (adjust_double_value i x step) = true := by
  have hd : ∃ d : ℚ,
      (if item.name = "SCROLL_SPEED" ∨ item.name = "AUTOSCROLL_SPEED" then
        get_scroll_speed_delta_f64 x |step| (decide (step > 0))
      else (c_double.of_int step).mul (c_double.of_rat (1 / 10))) = c_double.fin d := by
    split_ifs
    · exact scroll_delta_f64_fin _ _ _
    · exact ⟨_, rfl⟩
  obtain ⟨d, hd⟩ := hd
  simp only [adjust_double_value, item_min, hg, hd]
  exact c_double_clamp_ge _ _ (c_double_add_fin_ne_nan x d hx)

/-- C1 (amended): for every item index `i` in 0..12, every step and either
value of `is_live`, the value of the tunable after `adjust_config_value` is
at least its declared minimum, for every prior value that is a number: in
exact arithmetic for all thirteen items, and in binary64 arithmetic for the
three double items (3, 9, 11) with every prior value other than NaN,
infinities included. The minima are 1, 1, 1, 0.1, 0, 0, 0, 0, 1, 0.01, 1,
0.01, 1. -/
theorem C1_adjusted_value_ge_min_amended (i : Fin 13) (step : Int) (is_live : Bool) (w : World)
    (x : c_double) (hx : x ≠ c_double.nan) :
    item_min i ≤ item_value (adjust_config_value i step is_live w).state.cfg i ∧
    (List.range 13).map item_min = [1, 1, 1, 1 / 10, 0, 0, 0, 0, 1, 1 / 100, 1, 1 / 100, 1] ∧
    ((i : Nat) = 3 ∨ (i : Nat) = 9 ∨ (i : Nat) = 11 →
      (c_double.of_rat (item_min i)).le (adjust_double_value i x step) = true) := by
  refine ⟨?_, ?_, ?_⟩
  · fin_cases i <;> cases is_live <;>
      simp [adjust_config_value, config_items, item_min, item_value, cfg_int, cfg_set_int,
        cfg_double, cfg_set_double, show_feedback, c_int_one, c_int_zero] <;>
      split_ifs <;> first | omega | linarith | (norm_cast; omega)
  · simp [List.range, List.range.loop, item_min, config_items]
  · intro _
    cases hg : config_items.get? (i : Nat) with
    | none =>
      have := List.get?_eq_none.mp hg
      have e : config_items.length = 13 := rfl
      have := i.isLt
      omega
    | some item => exact adjust_double_value_ge_min i item x step hg hx

/-- C1 (amended) at a concrete input: MOVEMENT_ACCELERATION_TIME at 0.4 with
step -32 ends at its minimum 0.1 in binary64, and a prior value of plus
infinity stays at least the minimum. -/
theorem C1_witness_acceleration_time_floor :
    adjust_double_value 3 (c_double.of_rat (4 / 10)) (-32) = c_double.of_rat (1 / 10) ∧
    (c_double.of_rat (item_min 3)).le
      (adjust_double_value 3 (c_double.of_rat (4 / 10)) (-32)) = true ∧
    (c_double.of_rat (item_min 3)).le (adjust_double_value 3 (c_double.inf false) (-32)) = true :=
  ⟨by decide!,
    (C1_adjusted_value_ge_min_amended 3 (-32) false (init_world default_config)
      (c_double.of_rat (4 / 10)) (by decide!)).2.2 (Or.inl rfl),
    (C1_adjusted_value_ge_min_amended 3 (-32) false (init_world default_config)
      (c_double.inf false) (by decide!)).2.2 (Or.inl rfl)⟩

/-- C1 as stated fails for the prior value NaN: the config line
`SCROLL_SPEED = nan` parses as an entry whose value text `atof` turns into
NaN, and `adjust_config_value` leaves NaN in place for every step, because
`NaN < min_val` is false and the clamp is skipped; the result is not at
least the minimum 0.01. -/
theorem C1_counterexample_nan_survives_clamp :
    cfg_parse_line "SCROLL_SPEED = nan\n".toList 64 64 =
      some ("SCROLL_SPEED".toList, "nan".toList) ∧
    atof_f64 "nan".toList = c_double.nan ∧
    adjust_double_value 9 c_double.nan 1 = c_double.nan ∧
    adjust_double_value 9 c_double.nan (-32) = c_double.nan ∧
    adjust_double_value 3 c_double.nan 1 = c_double.nan ∧
    (c_double.of_rat (item_min 9)).le (adjust_double_value 9 c_double.nan 1) = false := by
  decide!

/-- C11: in binary64 the decrease branch of `get_scroll_speed_delta` tests
`current + delta < 0.1` on rounded values. At `current = 0.5`, `multi = 4`
the product `4 * 0.1` is the double just above 0.4, the sum is
0.09999999999999998, below the double 0.1, and the function returns
`-(4 * 0.01)`: SCROLL_SPEED goes from 0.5 to 0.46, where the rule of the
claim (the step 0.4 does not bring the value below 0.1) gives `-0.4` and the
value 0.1. The same happens at `current = 0.9`, `multi = 8`. -/
theorem C11_decrease_branch_flips_in_binary64 :
    (c_double.of_rat (1 / 2)).add ((c_double.of_int 4).mul (c_double.of_rat (1 / 10))).neg =
      c_double.fin (900719925474099 / 9007199254740992) ∧
    c_double.of_rat (1 / 10) = c_double.fin (3602879701896397 / 36028797018963968) ∧
    ((c_double.of_rat (1 / 2)).add
      ((c_double.of_int 4).mul (c_double.of_rat (1 / 10))).neg).lt (c_double.of_rat (1 / 10)) =
      true ∧
    get_scroll_speed_delta_f64 (c_double.of_rat (1 / 2)) 4 false =
      ((c_double.of_int 4).mul (c_double.of_rat (1 / 100))).neg ∧
    get_scroll_speed_delta_f64 (c_double.of_rat (1 / 2)) 4 false ≠
      ((c_double.of_int 4).mul (c_double.of_rat (1 / 10))).neg ∧
    adjust_double_value 9 (c_double.of_rat (1 / 2)) (-4) = c_double.of_rat (46 / 100) ∧
    get_scroll_speed_delta_f64 (c_double.of_rat (9 / 10)) 8 false =
      ((c_double.of_int 8).mul (c_double.of_rat (1 / 100))).neg ∧
    ¬ ((1 : ℚ) / 2 - 4 * (1 / 10) < 1 / 10) ∧
    get_scroll_speed_delta (1 / 2) 4 false = -(4 / 10) := by
  decide!

end Kat
